import Mathlib

/-!
# SD-SLAM tracking front-end (`src/Tracking.cc`)

A shallow embedding of class `Tracking`: the tracker's members, the map, key
frames and map points it reaches through pointers, and the calls it makes to
its collaborators.  Collaborators whose code is numeric and lives outside
`Tracking.cc` (matcher, optimizer, image alignment, the local mapper's flags)
are functions supplied by a record of type `Collaborators`; every theorem
quantifies over that record.
-/

namespace ORB_SLAM2

/-! ## Data model -/

/-- A `MapPoint*`: the address of a map point in the heap. -/
abbrev MapPointPtr := Nat

/-- A `KeyFrame*`: the address of a key frame in the heap. -/
abbrev KeyFramePtr := Nat

/-- A non-empty `cv::Mat` value.  Its entries are single precision numbers and
are not interpreted: a matrix is known by a token, and matrix arithmetic is
supplied by the collaborators.  An empty `cv::Mat` is `none : Option Mat`. -/
structure Mat where
  token : Nat
deriving DecidableEq, Repr

/-- The tracking states of `Tracking::eTrackingState` used by `Tracking.cc`. -/
inductive eTrackingState where
  | NO_IMAGES_YET
  | NOT_INITIALIZED
  | OK
  | LOST
deriving DecidableEq, Repr

/-- The sensor, an `int` in the source, compared only with `System::MONOCULAR`
and `System::RGBD`; `OTHER` stands for every other value. -/
inductive eSensor where
  | MONOCULAR
  | RGBD
  | OTHER
deriving DecidableEq, Repr

/-- The members of `Frame` that `Tracking.cc` reads or writes.  The vectors
`mvDepth`, `mvpMapPoints` and `mvbOutlier` have `N` entries each and are given
by their entry at each index below `N`.  A depth is a finite single precision
number, stood for by an integer with the same order (every finite `float` is an
integer multiple of 2^-149), so that `z > 0` and `z < mThDepth` are the
comparisons of the source.  `nKeys` is `mvKeys.size()`.  `content` stands for
the image, key points and descriptors, which only collaborators look at. -/
structure Frame where
  mnId : Nat
  mTimeStamp : Int
  N : Nat
  nKeys : Nat
  mvDepth : Nat → Int
  mvpMapPoints : Nat → Option MapPointPtr
  mvbOutlier : Nat → Bool
  mTcw : Option Mat
  mpReferenceKF : Option KeyFramePtr
  content : Nat

/-- Modelled from the spec: class `MapPoint` (its source is not part of
`Tracking.cc`).  "World position (3D), set of observing keyframes (keyframe →
keypoint index), replaced-by forwarder, visibility and found counters, last
frame id in which it was seen, per-frame transient in-frustum flag, bad flag".
`mnLastFrameSeen`, `mbTrackInView` and `mnTrackReferenceForFrame` are public
members that `Tracking.cc` assigns directly. -/
structure MapPoint where
  mWorldPos : Mat
  mpRefKF : Option KeyFramePtr
  mObservations : List (KeyFramePtr × Nat)
  mbBad : Bool
  mpReplaced : Option MapPointPtr
  mnVisible : Nat
  mnFound : Nat
  mnLastFrameSeen : Nat
  mbTrackInView : Bool
  mnTrackReferenceForFrame : Nat

/-- Modelled from the spec: class `KeyFrame` (its source is not part of
`Tracking.cc`).  "A snapshot promoted from a Frame: pose, map-point
associations, covisibility graph, spanning-tree parent and children, bad
flag".  `mnTrackReferenceForFrame` is a public member that `Tracking.cc`
assigns directly. -/
structure KeyFrame where
  mnId : Nat
  mnFrameId : Nat
  N : Nat
  mvpMapPoints : Nat → Option MapPointPtr
  Tcw : Option Mat
  mbBad : Bool
  mnTrackReferenceForFrame : Nat
  mvpOrderedConnectedKeyFrames : List KeyFramePtr
  mspChildrens : List KeyFramePtr
  mpParent : Option KeyFramePtr

/-- Modelled from the spec: class `Map`, the store of key frames and map
points (`addKeyFrame/MapPoint`, `allKeyFrames/MapPoints`, `keyframesInMap`,
`setReferenceMapPoints`, `clear`). -/
structure Map where
  mspKeyFrames : List KeyFramePtr
  mspMapPoints : List MapPointPtr
  mvpReferenceMapPoints : List MapPointPtr
  mvpKeyFrameOrigins : List KeyFramePtr

/-- A call made by the tracker on a collaborator that only receives it: the
local mapper, the loop closer, the system, the viewer and the two drawers. -/
inductive Call where
  | InsertKeyFrame (pKF : KeyFramePtr)
  | InterruptBA
  | SetNotStop (flag : Bool)
  | LocalMapperRequestReset
  | LoopClosingRequestReset
  | SystemReset
  | ViewerRequestStop
  | ViewerRelease
  | FrameDrawerUpdate
  | SetCurrentCameraPose (Tcw : Option Mat)
deriving DecidableEq, Repr

/-- The state `Tracking.cc` works on: the data members of class `Tracking`,
then the objects behind its pointers: the map `mpMap`, the heap of map points
and key frames (`nMapPoints` and `nKeyFrames` are the next free addresses), the
static counter `KeyFrame::nNextId` and `Frame::nNextId`, and `calls`, the calls
made so far on the receiving collaborators, oldest first.  Ids and the frame
thresholds `mMinFrames`, `mMaxFrames` are counters far below the word size and
are natural numbers. -/
structure Tracking where
  mState : eTrackingState
  mLastProcessedState : eTrackingState
  mSensor : eSensor
  mCurrentFrame : Frame
  mLastFrame : Frame
  mInitialFrame : Frame
  mpInitializer : Option Frame
  mvIniMatches : List Int
  mvbPrevMatched : Nat
  mvIniP3D : Nat → Mat
  mpReferenceKF : Option KeyFramePtr
  mpLastKeyFrame : Option KeyFramePtr
  mnLastKeyFrameId : Nat
  mnLastRelocFrameId : Nat
  mvpLocalKeyFrames : List KeyFramePtr
  mvpLocalMapPoints : List MapPointPtr
  mlpTemporalPoints : List MapPointPtr
  mVelocity : Option Mat
  mnMatchesInliers : Nat
  mMinFrames : Nat
  mMaxFrames : Nat
  mThDepth : Int
  threshold_ : Nat
  mpViewer : Bool
  mlRelativeFramePoses : List (Option Mat)
  mlpReferences : List (Option KeyFramePtr)
  mlFrameTimes : List Int
  mlbLost : List Bool
  mpMap : Map
  mapPoints : MapPointPtr → MapPoint
  nMapPoints : Nat
  keyFrames : KeyFramePtr → KeyFrame
  nKeyFrames : Nat
  KeyFrame_nNextId : Nat
  Frame_nNextId : Nat
  calls : List Call

/-- The collaborators of the tracker whose code is outside `Tracking.cc` and
whose answers are numeric or come from other threads.  Each is a function of
the state at the moment of the call (and of the call's arguments), and the
theorems hold for every choice of these functions.

* local mapper: `isStopped`, `stopRequested`, `AcceptKeyFrames`,
  `KeyframesInQueue`, and the answer of `SetNotStop(flag)`;
* key frame: `TrackedMapPoints(minObs)`, `ComputeSceneMedianDepth(q)` (a
  `float`, stood for by an integer with the same sign and order), and the
  covisibility graph after `UpdateConnections()`;
* `ImageAlign::ComputePose` against a key frame (with the reloc flag) or
  against the last frame: success, and the pose it leaves in the current frame;
* `ORBmatcher::SearchByProjection` against a key frame, against the last frame
  or against the local map points: the match count and the map-point slots it
  leaves in the current frame; the first argument after the state is the
  `nnratio` the matcher was constructed with, in hundredths (`matcher(0.7,true)`
  is 70); `SearchForInitialization`;
* `Optimizer::PoseOptimization`: inlier count, refined pose, outlier flags;
  `GlobalBundleAdjustemnt`: the key-frame poses and map-point positions;
* `Frame::isInFrustum`, `Frame::UnprojectStereo`, `Initializer::Initialize`;
* `cv::Mat` arithmetic: identity, product, inverse of a pose, and the two
  scalings by `1.0f/medianDepth` (what OpenCV does with an empty operand is
  left to these functions). -/
structure Collaborators where
  isStopped : Tracking → Bool
  stopRequested : Tracking → Bool
  AcceptKeyFrames : Tracking → Bool
  KeyframesInQueue : Tracking → Nat
  SetNotStop : Tracking → Bool → Bool
  TrackedMapPoints : Tracking → KeyFramePtr → Nat → Nat
  ComputeSceneMedianDepth : Tracking → KeyFramePtr → Nat → Int
  UpdateConnections : Tracking → KeyFramePtr →
    KeyFramePtr → List KeyFramePtr × List KeyFramePtr × Option KeyFramePtr
  ComputePoseKF : Tracking → Option KeyFramePtr → Bool → Bool × Option Mat
  ComputePoseFrame : Tracking → Bool × Option Mat
  SearchByProjectionKF : Tracking → Nat → Option KeyFramePtr → Nat → Bool →
    Nat × (Nat → Option MapPointPtr)
  SearchByProjectionFrame : Tracking → Nat → Nat → Bool → Nat × (Nat → Option MapPointPtr)
  SearchByProjectionLocal : Tracking → Nat → (Nat → Option MapPointPtr)
  SearchForInitialization : Tracking → Nat × List Int × Nat
  PoseOptimization : Tracking → Nat × Option Mat × (Nat → Bool)
  GlobalBundleAdjustemnt : Tracking → (KeyFramePtr → Option Mat) × (MapPointPtr → Mat)
  isInFrustum : Tracking → MapPointPtr → Bool
  UnprojectStereo : Frame → Nat → Mat
  Initialize : Tracking → Option (Mat × (Nat → Mat) × (Nat → Bool))
  eye : Mat
  mul : Option Mat → Option Mat → Option Mat
  inverse : Option Mat → Option Mat
  scaleTranslation : Option Mat → Int → Option Mat
  scalePoint : Mat → Int → Mat

/-! ## Single precision arithmetic of `NeedNewKeyFrame` -/

/-- The number of low bits of `p` beyond its 24 leading bits (`fuel` bounds the
number of halvings, and `fuel = p` is enough). -/
def excessBits : Nat → Nat → Nat
  | 0, _ => 0
  | fuel + 1, p => if p < 2 ^ 24 then 0 else excessBits fuel (p / 2) + 1

/-- IEEE-754 binary32 rounding (to nearest, ties to even) of the dyadic number
`p / 2^k`, returned as the numerator over the same `2^k`: keep the 24 leading
bits of `p`.  The exponent range is not reached by the numbers of this file. -/
def roundF32 (p : Nat) : Nat :=
  if excessBits p p = 0 then p
  else
    let s := excessBits p p
    let q := p / 2 ^ s
    let r := p % 2 ^ s
    if 2 ^ (s - 1) < r ∨ (r = 2 ^ (s - 1) ∧ q % 2 = 1) then (q + 1) * 2 ^ s else q * 2 ^ s

/-- The `float` literal `0.75f`, as a numerator over `2^25`. -/
def f0_75 : Nat := 25165824

/-- The `float` literal `0.4f` (0x3ECCCCCD), as a numerator over `2^25`. -/
def f0_4 : Nat := 13421773

/-- The `float` literal `0.9f` (0x3F666666), as a numerator over `2^25`. -/
def f0_9 : Nat := 30198988

/-- The C++ comparison `m < n*th` of two `int` with a `float` `th = r / 2^25`:
`n` is converted to `float`, the product is rounded to `float`, `m` is
converted to `float`. -/
def ltMulF32 (m n r : Nat) : Bool :=
  decide (roundF32 m * 2 ^ 25 < roundF32 (roundF32 n * r))

/-! ## Methods of the modelled classes -/

/-- `Frame::SetPose`. -/
def Frame.SetPose (f : Frame) (Tcw : Option Mat) : Frame :=
  { f with mTcw := Tcw }

/-- The statement `fill(mvpMapPoints.begin(), mvpMapPoints.end(), NULL)`. -/
def Frame.fillNull (f : Frame) : Frame :=
  { f with mvpMapPoints := fun _ => none }

/-- Modelled from the spec: `MapPoint::Observations()`, the observation count:
the number of observing key frames. -/
def MapPoint.Observations (p : MapPoint) : Nat :=
  p.mObservations.length

/-- Modelled from the spec: `MapPoint::AddObservation(pKF, idx)` on the "set of
observing keyframes (keyframe → keypoint index)": a key frame observes a map
point at most once. -/
def MapPoint.AddObservation (p : MapPoint) (pKF : KeyFramePtr) (idx : Nat) : MapPoint :=
  if p.mObservations.any (fun o => o.1 == pKF) then p
  else { p with mObservations := p.mObservations ++ [(pKF, idx)] }

/-- Modelled from the spec: the constructor `MapPoint(Pos, pRefKF, pMap)`: a
point at `Pos` without observations, neither bad nor replaced. -/
def MapPoint.new (Pos : Mat) (pRefKF : KeyFramePtr) : MapPoint :=
  { mWorldPos := Pos, mpRefKF := some pRefKF, mObservations := [], mbBad := false,
    mpReplaced := none, mnVisible := 1, mnFound := 1, mnLastFrameSeen := 0,
    mbTrackInView := false, mnTrackReferenceForFrame := 0 }

/-- Modelled from the spec: the constructor `KeyFrame(F, pMap)`, "a snapshot
promoted from a Frame" with the next key-frame id and no graph edges yet. -/
def KeyFrame.new (F : Frame) (nNextId : Nat) : KeyFrame :=
  { mnId := nNextId, mnFrameId := F.mnId, N := F.N, mvpMapPoints := F.mvpMapPoints,
    Tcw := F.mTcw, mbBad := false, mnTrackReferenceForFrame := 0,
    mvpOrderedConnectedKeyFrames := [], mspChildrens := [], mpParent := none }

/-- Modelled from the spec: `KeyFrame::AddMapPoint(pMP, idx)`. -/
def KeyFrame.AddMapPoint (k : KeyFrame) (pMP : MapPointPtr) (idx : Nat) : KeyFrame :=
  { k with mvpMapPoints := Function.update k.mvpMapPoints idx (some pMP) }

/-- Modelled from the spec: `KeyFrame::GetBestCovisibilityKeyFrames(n)`, the
first `n` of the neighbours ordered by weight. -/
def KeyFrame.GetBestCovisibilityKeyFrames (k : KeyFrame) (n : Nat) : List KeyFramePtr :=
  k.mvpOrderedConnectedKeyFrames.take n

/-- Insertion into a `std::set` of pointers kept as a list without repetition. -/
def setInsert (l : List Nat) (p : Nat) : List Nat :=
  if p ∈ l then l else l ++ [p]

/-- Modelled from the spec: `Map::AddKeyFrame`. -/
def Map.AddKeyFrame (m : Map) (pKF : KeyFramePtr) : Map :=
  { m with mspKeyFrames := setInsert m.mspKeyFrames pKF }

/-- Modelled from the spec: `Map::AddMapPoint`. -/
def Map.AddMapPoint (m : Map) (pMP : MapPointPtr) : Map :=
  { m with mspMapPoints := setInsert m.mspMapPoints pMP }

/-- Modelled from the spec: `Map::KeyFramesInMap()`. -/
def Map.KeyFramesInMap (m : Map) : Nat :=
  m.mspKeyFrames.length

/-- Modelled from the spec: `Map::MapPointsInMap()`. -/
def Map.MapPointsInMap (m : Map) : Nat :=
  m.mspMapPoints.length

/-- Modelled from the spec: `Map::GetAllKeyFrames()`. -/
def Map.GetAllKeyFrames (m : Map) : List KeyFramePtr :=
  m.mspKeyFrames

/-- Modelled from the spec: `Map::GetAllMapPoints()`. -/
def Map.GetAllMapPoints (m : Map) : List MapPointPtr :=
  m.mspMapPoints

/-- Modelled from the spec: `Map::SetReferenceMapPoints`. -/
def Map.SetReferenceMapPoints (m : Map) (vpMPs : List MapPointPtr) : Map :=
  { m with mvpReferenceMapPoints := vpMPs }

/-- Modelled from the spec: `Map::clear()`, which erases map points and key
frames. -/
def Map.clear (_m : Map) : Map :=
  { mspKeyFrames := [], mspMapPoints := [], mvpReferenceMapPoints := [],
    mvpKeyFrameOrigins := [] }

/-- Record a call on a receiving collaborator. -/
def Tracking.call (t : Tracking) (e : Call) : Tracking :=
  { t with calls := t.calls ++ [e] }

/-! ## `Tracking::NeedNewKeyFrame` -/

/-- The loop of `NeedNewKeyFrame` over the key points of the current frame:
`(nTrackedClose, nNonTrackedClose)`. -/
def closePointCounts (f : Frame) (mThDepth : Int) : Nat × Nat :=
  (List.range f.N).foldl
    (fun acc i =>
      if 0 < f.mvDepth i ∧ f.mvDepth i < mThDepth then
        if (f.mvpMapPoints i).isSome ∧ f.mvbOutlier i = false then (acc.1 + 1, acc.2)
        else (acc.1, acc.2 + 1)
      else acc)
    (0, 0)

/-- `Tracking::NeedNewKeyFrame`: the returned flag and the state after the
call.  `none` is the dereference of a null `mpReferenceKF`.  The comparison
`mnMatchesInliers<nRefMatches*0.25` is made in double precision, where
the conversion of an `int` and the product by 0.25 are exact: it is
`4*mnMatchesInliers < nRefMatches`. -/
def NeedNewKeyFrame (c : Collaborators) (t : Tracking) : Option (Bool × Tracking) :=
  if c.isStopped t || c.stopRequested t then some (false, t)
  else
    let nKFs := t.mpMap.KeyFramesInMap
    if decide (t.mCurrentFrame.mnId < t.mnLastRelocFrameId + t.mMaxFrames)
        && decide (nKFs > t.mMaxFrames) then some (false, t)
    else
      match t.mpReferenceKF with
      | none => none
      | some pRef =>
        let nMinObs := if nKFs ≤ 2 then 2 else 3
        let nRefMatches := c.TrackedMapPoints t pRef nMinObs
        let bLocalMappingIdle := c.AcceptKeyFrames t
        let cnt := if t.mSensor ≠ eSensor.MONOCULAR
          then closePointCounts t.mCurrentFrame t.mThDepth else (0, 0)
        let bNeedToInsertClose := decide (cnt.1 < 100) && decide (cnt.2 > 70)
        let thRefRatio := if t.mSensor = eSensor.MONOCULAR then f0_9
          else if nKFs < 2 then f0_4 else f0_75
        let c1a := decide (t.mCurrentFrame.mnId ≥ t.mnLastKeyFrameId + t.mMaxFrames)
        let c1b := decide (t.mCurrentFrame.mnId ≥ t.mnLastKeyFrameId + t.mMinFrames)
          && bLocalMappingIdle
        let c1c := decide (t.mSensor ≠ eSensor.MONOCULAR)
          && (decide (4 * t.mnMatchesInliers < nRefMatches) || bNeedToInsertClose)
        let c2 := (ltMulF32 t.mnMatchesInliers nRefMatches thRefRatio || bNeedToInsertClose)
          && decide (t.mnMatchesInliers > 15)
        if (c1a || c1b || c1c) && c2 then
          if bLocalMappingIdle then some (true, t)
          else
            let t1 := t.call Call.InterruptBA
            if t.mSensor ≠ eSensor.MONOCULAR then
              if c.KeyframesInQueue t1 < 3 then some (true, t1) else some (false, t1)
            else some (false, t1)
        else some (false, t)

/-! ## `Tracking::CreateNewKeyFrame` -/

/-- The block that creates one map point for key point `i` of the current frame
and binds it to key frame `pKF` (the same seven statements in
`StereoInitialization` and in `CreateNewKeyFrame`): `new MapPoint`,
`AddObservation`, `KeyFrame::AddMapPoint`, `Map::AddMapPoint`, and the
assignment of the slot of the current frame. -/
def createMapPoint (c : Collaborators) (pKF : KeyFramePtr) (t : Tracking) (i : Nat) : Tracking :=
  { t with
    mapPoints := Function.update t.mapPoints t.nMapPoints
      ((MapPoint.new (c.UnprojectStereo t.mCurrentFrame i) pKF).AddObservation pKF i)
    nMapPoints := t.nMapPoints + 1
    keyFrames := Function.update t.keyFrames pKF ((t.keyFrames pKF).AddMapPoint t.nMapPoints i)
    mpMap := t.mpMap.AddMapPoint t.nMapPoints
    mCurrentFrame := { t.mCurrentFrame with
      mvpMapPoints := Function.update t.mCurrentFrame.mvpMapPoints i (some t.nMapPoints) } }

/-- The order of `std::sort` on `pair<float,int>`: by depth, then by index. -/
def depthIdxLe (a b : Int × Nat) : Prop :=
  a.1 < b.1 ∨ (a.1 = b.1 ∧ a.2 ≤ b.2)

instance depthIdxLe_decidable : DecidableRel depthIdxLe :=
  fun a b => inferInstanceAs (Decidable (a.1 < b.1 ∨ (a.1 = b.1 ∧ a.2 ≤ b.2)))

/-- The vector `vDepthIdx` of `CreateNewKeyFrame` after `sort`: the pairs
(depth, index) of the key points with positive depth, ascending.  The pairs are
distinct, so the sorted vector does not depend on the sorting algorithm. -/
def vDepthIdx (f : Frame) : List (Int × Nat) :=
  (((List.range f.N).filter (fun i => decide (0 < f.mvDepth i))).map
    (fun i => (f.mvDepth i, i))).insertionSort depthIdxLe

/-- The walk of `CreateNewKeyFrame` over the sorted `vDepthIdx`, from position
`j` on with `nPoints` points processed so far; it stops (`break`) after a point
beyond `mThDepth` once more than 100 points are processed. -/
def createClosePoints (c : Collaborators) (pKF : KeyFramePtr) :
    List (Int × Nat) → Nat → Tracking → Tracking
  | [], _, t => t
  | zi :: rest, nPoints, t =>
    let bCreateNew : Bool :=
      match t.mCurrentFrame.mvpMapPoints zi.2 with
      | none => true
      | some pMP => decide ((t.mapPoints pMP).Observations < 1)
    let t1 := if bCreateNew then createMapPoint c pKF t zi.2 else t
    if decide (zi.1 > t.mThDepth) && decide (nPoints + 1 > 100) then t1
    else createClosePoints c pKF rest (nPoints + 1) t1

/-- The statements `KeyFrame* pKF = new KeyFrame(mCurrentFrame,mpMap);
mpReferenceKF = pKF; mCurrentFrame.mpReferenceKF = pKF;` of `CreateNewKeyFrame`;
the new key frame is at address `t.nKeyFrames`. -/
def newKeyFrame (t : Tracking) : Tracking :=
  { t with
    keyFrames := Function.update t.keyFrames t.nKeyFrames
      (KeyFrame.new t.mCurrentFrame t.KeyFrame_nNextId)
    nKeyFrames := t.nKeyFrames + 1
    KeyFrame_nNextId := t.KeyFrame_nNextId + 1
    mpReferenceKF := some t.nKeyFrames
    mCurrentFrame := { t.mCurrentFrame with mpReferenceKF := some t.nKeyFrames } }

/-- The last two assignments of `CreateNewKeyFrame`. -/
def setLastKeyFrame (t : Tracking) (pKF : KeyFramePtr) : Tracking :=
  { t with mnLastKeyFrameId := t.mCurrentFrame.mnId, mpLastKeyFrame := some pKF }

/-- `Tracking::CreateNewKeyFrame`. -/
def CreateNewKeyFrame (c : Collaborators) (t : Tracking) : Tracking :=
  let t0 := t.call (Call.SetNotStop true)
  if !c.SetNotStop t true then t0
  else
    let pKF := t0.nKeyFrames
    let t1 := newKeyFrame t0
    let t2 := if t1.mSensor ≠ eSensor.MONOCULAR
      then createClosePoints c pKF (vDepthIdx t1.mCurrentFrame) 0 t1 else t1
    setLastKeyFrame ((t2.call (Call.InsertKeyFrame pKF)).call (Call.SetNotStop false)) pKF

/-! ## `Tracking::Reset` -/

/-- `Tracking::Reset`.  The loop that waits for the viewer to stop changes no
state; that the viewer thread does stop is taken for granted. -/
def Reset (t : Tracking) : Tracking :=
  let t1 := if t.mpViewer then t.call Call.ViewerRequestStop else t
  let t2 := (t1.call Call.LocalMapperRequestReset).call Call.LoopClosingRequestReset
  let t3 : Tracking := { t2 with
    mpMap := t2.mpMap.clear
    KeyFrame_nNextId := 0
    Frame_nNextId := 0
    mState := eTrackingState.NO_IMAGES_YET
    mpInitializer := none
    mlRelativeFramePoses := []
    mlpReferences := []
    mlFrameTimes := []
    mlbLost := [] }
  if t.mpViewer then t3.call Call.ViewerRelease else t3

/-! ## Initialization -/

/-- The first statements of `StereoInitialization`: the pose of the current
frame is the identity, the initial key frame is built from it at address
`t.nKeyFrames` and inserted in the map. -/
def stereoKeyFrame (c : Collaborators) (t : Tracking) : Tracking :=
  { t with
    mCurrentFrame := t.mCurrentFrame.SetPose (some c.eye)
    keyFrames := Function.update t.keyFrames t.nKeyFrames
      (KeyFrame.new (t.mCurrentFrame.SetPose (some c.eye)) t.KeyFrame_nNextId)
    nKeyFrames := t.nKeyFrames + 1
    KeyFrame_nNextId := t.KeyFrame_nNextId + 1
    mpMap := t.mpMap.AddKeyFrame t.nKeyFrames }

/-- One round of the loop "Create MapPoints and asscoiate to KeyFrame" of
`StereoInitialization`. -/
def stereoMapPointStep (c : Collaborators) (pKFini : KeyFramePtr) (t : Tracking) (i : Nat) :
    Tracking :=
  if 0 < t.mCurrentFrame.mvDepth i then createMapPoint c pKFini t i else t

/-- The statements of `StereoInitialization` after the loop, from
`mpLocalMapper->InsertKeyFrame(pKFini)` to `mState=OK`. -/
def stereoFinish (t : Tracking) (pKFini : KeyFramePtr) : Tracking :=
  let t4 := t.call (Call.InsertKeyFrame pKFini)
  let t5 : Tracking := { t4 with
    mLastFrame := t4.mCurrentFrame
    mnLastKeyFrameId := t4.mCurrentFrame.mnId
    mpLastKeyFrame := some pKFini
    mvpLocalKeyFrames := t4.mvpLocalKeyFrames ++ [pKFini]
    mvpLocalMapPoints := t4.mpMap.GetAllMapPoints
    mpReferenceKF := some pKFini
    mCurrentFrame := { t4.mCurrentFrame with mpReferenceKF := some pKFini }
    mpMap := { t4.mpMap.SetReferenceMapPoints t4.mpMap.GetAllMapPoints with
      mvpKeyFrameOrigins := t4.mpMap.mvpKeyFrameOrigins ++ [pKFini] } }
  { t5.call (Call.SetCurrentCameraPose t5.mCurrentFrame.mTcw) with
    mState := eTrackingState.OK }

/-- `Tracking::StereoInitialization`. -/
def StereoInitialization (c : Collaborators) (t : Tracking) : Tracking :=
  if t.mCurrentFrame.N > 500 then
    stereoFinish
      ((List.range t.mCurrentFrame.N).foldl (stereoMapPointStep c t.nKeyFrames)
        (stereoKeyFrame c t))
      t.nKeyFrames
  else t

/-- The first statements of `CreateInitialMapMonocular`: the key frames
`pKFini` (at address `t.nKeyFrames`) and `pKFcur` (at the next address) are
built from the initial and the current frame and inserted in the map. -/
def initialKeyFrames (t : Tracking) : Tracking :=
  { t with
    keyFrames := Function.update
      (Function.update t.keyFrames t.nKeyFrames
        (KeyFrame.new t.mInitialFrame t.KeyFrame_nNextId))
      (t.nKeyFrames + 1) (KeyFrame.new t.mCurrentFrame (t.KeyFrame_nNextId + 1))
    nKeyFrames := t.nKeyFrames + 2
    KeyFrame_nNextId := t.KeyFrame_nNextId + 2
    mpMap := (t.mpMap.AddKeyFrame t.nKeyFrames).AddKeyFrame (t.nKeyFrames + 1) }

/-- One round of the loop of `CreateInitialMapMonocular` over `mvIniMatches`:
for match `m` at position `i`, a map point at `mvIniP3D[i]` observed by
`pKFini` at `i` and by `pKFcur` at `m`. -/
def createInitialMapPoint (pKFini pKFcur : KeyFramePtr) (t : Tracking) (im : Nat × Int) :
    Tracking :=
  if im.2 < 0 then t
  else
    { t with
      mapPoints := Function.update t.mapPoints t.nMapPoints
        (((MapPoint.new (t.mvIniP3D im.1) pKFcur).AddObservation pKFini im.1).AddObservation
          pKFcur im.2.toNat)
      nMapPoints := t.nMapPoints + 1
      keyFrames := Function.update
        (Function.update t.keyFrames pKFini
          ((t.keyFrames pKFini).AddMapPoint t.nMapPoints im.1))
        pKFcur
        ((Function.update t.keyFrames pKFini
          ((t.keyFrames pKFini).AddMapPoint t.nMapPoints im.1) pKFcur).AddMapPoint
            t.nMapPoints im.2.toNat)
      mCurrentFrame := { t.mCurrentFrame with
        mvpMapPoints := Function.update t.mCurrentFrame.mvpMapPoints im.2.toNat
          (some t.nMapPoints)
        mvbOutlier := Function.update t.mCurrentFrame.mvbOutlier im.2.toNat false }
      mpMap := t.mpMap.AddMapPoint t.nMapPoints }

/-- The effect of `KeyFrame::UpdateConnections()` on the graph of key frames. -/
def applyUpdateConnections (c : Collaborators) (t : Tracking) (pKF : KeyFramePtr) : Tracking :=
  { t with keyFrames := fun k => { t.keyFrames k with
      mvpOrderedConnectedKeyFrames := (c.UpdateConnections t pKF k).1
      mspChildrens := (c.UpdateConnections t pKF k).2.1
      mpParent := (c.UpdateConnections t pKF k).2.2 } }

/-- The effect of `Optimizer::GlobalBundleAdjustemnt(mpMap,20)`. -/
def applyGlobalBundleAdjustemnt (c : Collaborators) (t : Tracking) : Tracking :=
  { t with
    keyFrames := fun k => { t.keyFrames k with Tcw := (c.GlobalBundleAdjustemnt t).1 k }
    mapPoints := fun p => { t.mapPoints p with mWorldPos := (c.GlobalBundleAdjustemnt t).2 p } }

/-- The state of `CreateInitialMapMonocular` when the median depth is tested:
key frames built, map points created, connections updated, bundle adjustment
done. -/
def initialMap (c : Collaborators) (t : Tracking) : Tracking :=
  applyGlobalBundleAdjustemnt c
    (applyUpdateConnections c
      (applyUpdateConnections c
        (t.mvIniMatches.enum.foldl (createInitialMapPoint t.nKeyFrames (t.nKeyFrames + 1))
          (initialKeyFrames t))
        t.nKeyFrames)
      (t.nKeyFrames + 1))

/-- The statements "Scale initial baseline" and "Scale points" of
`CreateInitialMapMonocular`: the translation of `pKFcur` and the position of
every map point in a slot of `pKFini` are multiplied by `1.0f/medianDepth`. -/
def scaleInitialMap (c : Collaborators) (t : Tracking) (pKFini pKFcur : KeyFramePtr)
    (medianDepth : Int) : Tracking :=
  { t with
    keyFrames := Function.update t.keyFrames pKFcur
      { t.keyFrames pKFcur with
        Tcw := c.scaleTranslation (t.keyFrames pKFcur).Tcw medianDepth }
    mapPoints := (List.range (t.keyFrames pKFini).N).foldl
      (fun mps iMP =>
        match (t.keyFrames pKFini).mvpMapPoints iMP with
        | none => mps
        | some pMP => Function.update mps pMP
            { mps pMP with mWorldPos := c.scalePoint (mps pMP).mWorldPos medianDepth })
      t.mapPoints }

/-- The statements of `CreateInitialMapMonocular` after the scaling, from the
two calls of `mpLocalMapper->InsertKeyFrame` to `mState=OK`. -/
def finishInitialMap (t : Tracking) (pKFini pKFcur : KeyFramePtr) : Tracking :=
  let t7 := (t.call (Call.InsertKeyFrame pKFini)).call (Call.InsertKeyFrame pKFcur)
  let f : Frame := { t7.mCurrentFrame.SetPose (t7.keyFrames pKFcur).Tcw with
    mpReferenceKF := some pKFcur }
  let t9 : Tracking := { t7 with
    mCurrentFrame := f
    mnLastKeyFrameId := t7.mCurrentFrame.mnId
    mpLastKeyFrame := some pKFcur
    mvpLocalKeyFrames := t7.mvpLocalKeyFrames ++ [pKFcur, pKFini]
    mvpLocalMapPoints := t7.mpMap.GetAllMapPoints
    mpReferenceKF := some pKFcur
    mLastFrame := f
    mpMap := { t7.mpMap.SetReferenceMapPoints t7.mpMap.GetAllMapPoints with
      mvpKeyFrameOrigins := t7.mpMap.mvpKeyFrameOrigins ++ [pKFini] } }
  { t9.call (Call.SetCurrentCameraPose (t9.keyFrames pKFcur).Tcw) with
    mState := eTrackingState.OK }

/-- `Tracking::CreateInitialMapMonocular`. -/
def CreateInitialMapMonocular (c : Collaborators) (t : Tracking) : Tracking :=
  if decide (c.ComputeSceneMedianDepth (initialMap c t) t.nKeyFrames 2 < 0)
      || decide (c.TrackedMapPoints (initialMap c t) (t.nKeyFrames + 1) 1 < 100) then
    Reset (initialMap c t)
  else
    finishInitialMap
      (scaleInitialMap c (initialMap c t) t.nKeyFrames (t.nKeyFrames + 1)
        (c.ComputeSceneMedianDepth (initialMap c t) t.nKeyFrames 2))
      t.nKeyFrames (t.nKeyFrames + 1)

/-- The branch "Set Reference Frame" of `MonocularInitialization`. -/
def setReferenceFrame (t : Tracking) : Tracking :=
  { t with
    mInitialFrame := t.mCurrentFrame
    mLastFrame := t.mCurrentFrame
    mvbPrevMatched := t.mCurrentFrame.content
    mpInitializer := some t.mCurrentFrame
    mvIniMatches := t.mvIniMatches.map (fun _ => -1) }

/-- The result of `ORBmatcher::SearchForInitialization` stored in
`mvIniMatches` and `mvbPrevMatched`. -/
def storeInitialMatches (c : Collaborators) (t : Tracking) : Tracking :=
  { t with
    mvIniMatches := (c.SearchForInitialization t).2.1
    mvbPrevMatched := (c.SearchForInitialization t).2.2 }

/-- The statements of `MonocularInitialization` after a successful
`Initializer::Initialize`: the matches that were not triangulated are dropped
and the poses of the two frames are set. -/
def storeInitialization (c : Collaborators) (t : Tracking)
    (init : Mat × (Nat → Mat) × (Nat → Bool)) : Tracking :=
  { t with
    mvIniP3D := init.2.1
    mvIniMatches := t.mvIniMatches.enum.map
      (fun im => if im.2 ≥ 0 ∧ init.2.2 im.1 = false then -1 else im.2)
    mInitialFrame := t.mInitialFrame.SetPose (some c.eye)
    mCurrentFrame := t.mCurrentFrame.SetPose (some init.1) }

/-- `Tracking::MonocularInitialization`.  The initializer is known by the
reference frame it was built from. -/
def MonocularInitialization (c : Collaborators) (t : Tracking) : Tracking :=
  match t.mpInitializer with
  | none => if t.mCurrentFrame.nKeys > 100 then setReferenceFrame t else t
  | some _ =>
    if t.mCurrentFrame.nKeys ≤ 100 then
      { t with mpInitializer := none, mvIniMatches := t.mvIniMatches.map (fun _ => -1) }
    else if (c.SearchForInitialization t).1 < 100 then
      { storeInitialMatches c t with mpInitializer := none }
    else
      match c.Initialize (storeInitialMatches c t) with
      | none => storeInitialMatches c t
      | some init =>
        CreateInitialMapMonocular c (storeInitialization c (storeInitialMatches c t) init)

/-! ## Coarse pose estimation -/

/-- One round of the loop of `Tracking::CheckReplacedInLastFrame` on the slots
of the last frame. -/
def checkReplacedStep (mapPoints : MapPointPtr → MapPoint)
    (slots : Nat → Option MapPointPtr) (i : Nat) : Nat → Option MapPointPtr :=
  match slots i with
  | none => slots
  | some pMP =>
    match (mapPoints pMP).mpReplaced with
    | none => slots
    | some pRep => Function.update slots i (some pRep)

/-- `Tracking::CheckReplacedInLastFrame`. -/
def CheckReplacedInLastFrame (t : Tracking) : Tracking :=
  { t with mLastFrame := { t.mLastFrame with
      mvpMapPoints := (List.range t.mLastFrame.N).foldl (checkReplacedStep t.mapPoints)
        t.mLastFrame.mvpMapPoints } }

/-- One round of the loop "Discard outliers" of `TrackReferenceKeyFrame` and
`TrackWithMotionModel`, on the current frame, the heap of map points and the
counter `nmatchesMap`. -/
def discardOutliersStep (s : Frame × (MapPointPtr → MapPoint) × Nat) (i : Nat) :
    Frame × (MapPointPtr → MapPoint) × Nat :=
  match s.1.mvpMapPoints i with
  | none => s
  | some pMP =>
    if s.1.mvbOutlier i then
      ({ s.1 with
          mvpMapPoints := Function.update s.1.mvpMapPoints i none
          mvbOutlier := Function.update s.1.mvbOutlier i false },
        Function.update s.2.1 pMP
          { s.2.1 pMP with mbTrackInView := false, mnLastFrameSeen := s.1.mnId },
        s.2.2)
    else if (s.2.1 pMP).Observations > 0 then (s.1, s.2.1, s.2.2 + 1)
    else s

/-- The current frame with the slots left by a projection search. -/
def Tracking.setSlots (t : Tracking) (slots : Nat → Option MapPointPtr) : Tracking :=
  { t with mCurrentFrame := { t.mCurrentFrame with mvpMapPoints := slots } }

/-- The current frame with all slots set to `NULL`. -/
def Tracking.fillNull (t : Tracking) : Tracking :=
  { t with mCurrentFrame := t.mCurrentFrame.fillNull }

/-- The current frame with a new pose. -/
def Tracking.setPose (t : Tracking) (Tcw : Option Mat) : Tracking :=
  { t with mCurrentFrame := t.mCurrentFrame.SetPose Tcw }

/-- The state after `Optimizer::PoseOptimization(&mCurrentFrame)`: the pose is
refined and the outlier flags are set. -/
def poseOptimized (c : Collaborators) (t : Tracking) : Tracking :=
  { t with mCurrentFrame := { t.mCurrentFrame with
      mTcw := (c.PoseOptimization t).2.1
      mvbOutlier := (c.PoseOptimization t).2.2 } }

/-- The common end of `TrackReferenceKeyFrame` and `TrackWithMotionModel`:
`Optimizer::PoseOptimization(&mCurrentFrame)`, the loop "Discard outliers", and
`return nmatchesMap>=10`. -/
def optimizeAndDiscard (c : Collaborators) (t : Tracking) : Bool × Tracking :=
  let u := poseOptimized c t
  let s := (List.range u.mCurrentFrame.N).foldl discardOutliersStep
    (u.mCurrentFrame, u.mapPoints, 0)
  (decide (s.2.2 ≥ 10), { u with mCurrentFrame := s.1, mapPoints := s.2.1 })

/-- The retry of `TrackReferenceKeyFrame` and of `TrackWithMotionModel`,
"If few matches, uses a wider window search": in both functions the statement
is `matcher.SearchByProjection(mCurrentFrame, mLastFrame, 2*threshold_, ...)`
after the slots are set to `NULL`, with the matcher of the function (`nnratio`
in hundredths): the match count and the slots it leaves. -/
def widenedSearch (c : Collaborators) (nnratio : Nat) (t : Tracking) :
    Nat × (Nat → Option MapPointPtr) :=
  c.SearchByProjectionFrame t.fillNull nnratio (2 * t.threshold_)
    (decide (t.mSensor = eSensor.MONOCULAR))

/-- The statements of `TrackReferenceKeyFrame` and of `TrackWithMotionModel`
after the first projection search, which found `nmatches` matches: the retry
when `nmatches<20`, the test `if (nmatches<20) return false;` and the common
end. -/
def widenAndOptimize (c : Collaborators) (nnratio : Nat) (t : Tracking) (nmatches : Nat) :
    Bool × Tracking :=
  let r : Nat × Tracking :=
    if nmatches < 20 then
      ((widenedSearch c nnratio t).1, t.fillNull.setSlots (widenedSearch c nnratio t).2)
    else (nmatches, t)
  if r.1 < 20 then (false, r.2) else optimizeAndDiscard c r.2

/-- The image alignment of `TrackReferenceKeyFrame`, against the reference key
frame, from the pose of the last frame: success, and the pose it leaves. -/
def referenceAlignment (c : Collaborators) (t : Tracking) : Bool × Option Mat :=
  c.ComputePoseKF (t.setPose t.mLastFrame.mTcw) t.mpReferenceKF false

/-- The state in which `TrackReferenceKeyFrame` searches: aligned pose, slots
set to `NULL`. -/
def referenceAligned (c : Collaborators) (t : Tracking) : Tracking :=
  (t.setPose (referenceAlignment c t).2).fillNull

/-- The first projection search of `TrackReferenceKeyFrame`, against the
reference key frame with radius `threshold_` (`ORBmatcher matcher(0.7,true)`). -/
def referenceSearch (c : Collaborators) (t : Tracking) : Nat × (Nat → Option MapPointPtr) :=
  c.SearchByProjectionKF (referenceAligned c t) 70 t.mpReferenceKF t.threshold_
    (decide (t.mSensor = eSensor.MONOCULAR))

/-- `Tracking::TrackReferenceKeyFrame`. -/
def TrackReferenceKeyFrame (c : Collaborators) (t : Tracking) : Bool × Tracking :=
  if !(referenceAlignment c t).1 then (false, t.setPose (referenceAlignment c t).2)
  else
    widenAndOptimize c 70 ((referenceAligned c t).setSlots (referenceSearch c t).2)
      (referenceSearch c t).1

/-- `Tracking::UpdateLastFrame`.  `none` is `back()` on an empty
`mlRelativeFramePoses` or the dereference of a null `mLastFrame.mpReferenceKF`. -/
def UpdateLastFrame (c : Collaborators) (t : Tracking) : Option Tracking :=
  match t.mLastFrame.mpReferenceKF, t.mlRelativeFramePoses.getLast? with
  | some pRef, some Tlr =>
    some { t with mLastFrame := t.mLastFrame.SetPose (c.mul Tlr (t.keyFrames pRef).Tcw) }
  | _, _ => none

/-- The pose `TrackWithMotionModel` predicts for the current frame: the pose of
the last frame, moved by the velocity unless it is empty. -/
def motionPrediction (c : Collaborators) (t : Tracking) : Tracking :=
  match t.mVelocity with
  | none => t.setPose t.mLastFrame.mTcw
  | some v => t.setPose (c.mul (some v) t.mLastFrame.mTcw)

/-- The image alignment of `TrackWithMotionModel`, against the last frame, from
the predicted pose: success, and the pose it leaves. -/
def motionAlignment (c : Collaborators) (t : Tracking) : Bool × Option Mat :=
  c.ComputePoseFrame (motionPrediction c t)

/-- The state in which `TrackWithMotionModel` searches: aligned pose, slots set
to `NULL`. -/
def motionAligned (c : Collaborators) (t : Tracking) : Tracking :=
  ((motionPrediction c t).setPose (motionAlignment c t).2).fillNull

/-- The first projection search of `TrackWithMotionModel`, against the last
frame with radius `threshold_` (`ORBmatcher matcher(0.9,true)`). -/
def motionSearch (c : Collaborators) (t : Tracking) : Nat × (Nat → Option MapPointPtr) :=
  c.SearchByProjectionFrame (motionAligned c t) 90 t.threshold_
    (decide (t.mSensor = eSensor.MONOCULAR))

/-- `Tracking::TrackWithMotionModel`, `none` when `UpdateLastFrame` is. -/
def TrackWithMotionModel (c : Collaborators) (t : Tracking) : Option (Bool × Tracking) :=
  match UpdateLastFrame c t with
  | none => none
  | some t0 =>
    if !(motionAlignment c t0).1 then
      some (false, (motionPrediction c t0).setPose (motionAlignment c t0).2)
    else
      some (widenAndOptimize c 90 ((motionAligned c t0).setSlots (motionSearch c t0).2)
        (motionSearch c t0).1)

/-- The statement `mnLastRelocFrameId = mCurrentFrame.mnId` of
`Relocalization`. -/
def setLastReloc (t : Tracking) : Tracking :=
  { t with mnLastRelocFrameId := t.mCurrentFrame.mnId }

/-- The loop of `Tracking::Relocalization` over the key frames still to try,
newest first (`ORBmatcher matcher(0.75,true)`). -/
def relocalizationScan (c : Collaborators) : List KeyFramePtr → Tracking → Bool × Tracking
  | [], t => (false, t)
  | kf :: rest, t =>
    let t1 := t.setPose (t.keyFrames kf).Tcw
    let a := c.ComputePoseKF t1 (some kf) true
    let t2 := t1.setPose a.2
    if !a.1 then relocalizationScan c rest t2
    else
      let t3 := t2.fillNull
      let s := c.SearchByProjectionKF t3 75 (some kf) t3.threshold_
        (decide (t3.mSensor = eSensor.MONOCULAR))
      let t4 := t3.setSlots s.2
      if s.1 < 20 then relocalizationScan c rest t4
      else
        let t5 := poseOptimized c t4
        if (c.PoseOptimization t4).1 < 10 then relocalizationScan c rest t5
        else (true, setLastReloc t5)

/-- `Tracking::Relocalization`. -/
def Relocalization (c : Collaborators) (t : Tracking) : Bool × Tracking :=
  relocalizationScan c t.mpMap.GetAllKeyFrames.reverse t

/-! ## The local map -/

/-- The statement `keyframeCounter[pKF]++` on a `std::map` kept as the list of
its entries in ascending order of key. -/
def counterIncr : List (KeyFramePtr × Nat) → KeyFramePtr → List (KeyFramePtr × Nat)
  | [], k => [(k, 1)]
  | e :: rest, k =>
    if k = e.1 then (e.1, e.2 + 1) :: rest
    else if k < e.1 then (k, 1) :: e :: rest
    else e :: counterIncr rest k

/-- One round of the voting loop of `UpdateLocalKeyFrames`, on the slots of the
current frame and `keyframeCounter`. -/
def voteStep (mapPoints : MapPointPtr → MapPoint)
    (s : (Nat → Option MapPointPtr) × List (KeyFramePtr × Nat)) (i : Nat) :
    (Nat → Option MapPointPtr) × List (KeyFramePtr × Nat) :=
  match s.1 i with
  | none => s
  | some pMP =>
    if !(mapPoints pMP).mbBad then
      (s.1, (mapPoints pMP).mObservations.foldl (fun cnt o => counterIncr cnt o.1) s.2)
    else (Function.update s.1 i none, s.2)

/-- The key frame `k` tagged with the id of the current frame. -/
def tagKeyFrame (keyFrames : KeyFramePtr → KeyFrame) (k : KeyFramePtr) (id : Nat) :
    KeyFramePtr → KeyFrame :=
  Function.update keyFrames k { keyFrames k with mnTrackReferenceForFrame := id }

/-- One round of the loop of `UpdateLocalKeyFrames` over `keyframeCounter`, on
`max`, `pKFmax`, `mvpLocalKeyFrames` and the heap of key frames. -/
def seedStep (id : Nat)
    (s : Nat × Option KeyFramePtr × List KeyFramePtr × (KeyFramePtr → KeyFrame))
    (e : KeyFramePtr × Nat) :
    Nat × Option KeyFramePtr × List KeyFramePtr × (KeyFramePtr → KeyFrame) :=
  if (s.2.2.2 e.1).mbBad then s
  else
    (if e.2 > s.1 then e.2 else s.1, if e.2 > s.1 then some e.1 else s.2.1,
      s.2.2.1 ++ [e.1], tagKeyFrame s.2.2.2 e.1 id)

/-- The inner loops of `UpdateLocalKeyFrames` over the neighbours and over the
children: the first candidate that is not bad and not yet tagged is appended
and tagged (`break`). -/
def addFirstNew (id : Nat) (cands : List KeyFramePtr)
    (s : List KeyFramePtr × (KeyFramePtr → KeyFrame)) :
    List KeyFramePtr × (KeyFramePtr → KeyFrame) :=
  match cands.find?
    (fun k => !(s.2 k).mbBad && decide ((s.2 k).mnTrackReferenceForFrame ≠ id)) with
  | none => s
  | some k => (s.1 ++ [k], tagKeyFrame s.2 k id)

/-- The loop of `UpdateLocalKeyFrames` over the key frames seeded by the votes
(the iterators run over the seeds; what is appended lies behind `itEndKF`).
It ends at the `break` of the size limit and at the `break` that follows the
insertion of a parent. -/
def expandLocalKeyFrames (id : Nat) :
    List KeyFramePtr → List KeyFramePtr × (KeyFramePtr → KeyFrame) →
      List KeyFramePtr × (KeyFramePtr → KeyFrame)
  | [], s => s
  | pKF :: rest, s =>
    if s.1.length > 80 then s
    else
      let s1 := addFirstNew id ((s.2 pKF).GetBestCovisibilityKeyFrames 10) s
      let s2 := addFirstNew id (s1.2 pKF).mspChildrens s1
      match (s2.2 pKF).mpParent with
      | none => expandLocalKeyFrames id rest s2
      | some pParent =>
        if (s2.2 pParent).mnTrackReferenceForFrame ≠ id then
          (s2.1 ++ [pParent], tagKeyFrame s2.2 pParent id)
        else expandLocalKeyFrames id rest s2

/-- `Tracking::UpdateLocalKeyFrames`. -/
def UpdateLocalKeyFrames (t : Tracking) : Tracking :=
  let v := (List.range t.mCurrentFrame.N).foldl (voteStep t.mapPoints)
    (t.mCurrentFrame.mvpMapPoints, [])
  let t1 := t.setSlots v.1
  if v.2.isEmpty then t1
  else
    let seeds := v.2.foldl (seedStep t1.mCurrentFrame.mnId) (0, none, [], t1.keyFrames)
    let e := expandLocalKeyFrames t1.mCurrentFrame.mnId seeds.2.2.1 (seeds.2.2.1, seeds.2.2.2)
    let t2 : Tracking := { t1 with mvpLocalKeyFrames := e.1, keyFrames := e.2 }
    match seeds.2.1 with
    | none => t2
    | some pKFmax =>
      { t2 with
        mpReferenceKF := some pKFmax
        mCurrentFrame := { t2.mCurrentFrame with mpReferenceKF := some pKFmax } }

/-- One round of the inner loop of `UpdateLocalPoints`: slot `i` of a local key
frame, on `mvpLocalMapPoints` and the heap of map points. -/
def localPointStep (id : Nat) (slots : Nat → Option MapPointPtr)
    (s : List MapPointPtr × (MapPointPtr → MapPoint)) (i : Nat) :
    List MapPointPtr × (MapPointPtr → MapPoint) :=
  match slots i with
  | none => s
  | some pMP =>
    if (s.2 pMP).mnTrackReferenceForFrame = id then s
    else if !(s.2 pMP).mbBad then
      (s.1 ++ [pMP], Function.update s.2 pMP { s.2 pMP with mnTrackReferenceForFrame := id })
    else s

/-- `Tracking::UpdateLocalPoints`. -/
def UpdateLocalPoints (t : Tracking) : Tracking :=
  let r := t.mvpLocalKeyFrames.foldl
    (fun s pKF => (List.range (t.keyFrames pKF).N).foldl
      (localPointStep t.mCurrentFrame.mnId (t.keyFrames pKF).mvpMapPoints) s)
    ([], t.mapPoints)
  { t with mvpLocalMapPoints := r.1, mapPoints := r.2 }

/-- `Tracking::UpdateLocalMap`. -/
def UpdateLocalMap (t : Tracking) : Tracking :=
  UpdateLocalPoints (UpdateLocalKeyFrames
    { t with mpMap := t.mpMap.SetReferenceMapPoints t.mvpLocalMapPoints })

/-- One round of the first loop of `SearchLocalPoints`, over the slots of the
current frame. -/
def alreadyMatchedStep (id : Nat)
    (s : (Nat → Option MapPointPtr) × (MapPointPtr → MapPoint)) (i : Nat) :
    (Nat → Option MapPointPtr) × (MapPointPtr → MapPoint) :=
  match s.1 i with
  | none => s
  | some pMP =>
    if (s.2 pMP).mbBad then (Function.update s.1 i none, s.2)
    else
      (s.1, Function.update s.2 pMP
        { s.2 pMP with
          mnVisible := (s.2 pMP).mnVisible + 1
          mnLastFrameSeen := id
          mbTrackInView := false })

/-- One round of the second loop of `SearchLocalPoints`, over the local map
points, on the state and `nToMatch`.  `Frame::isInFrustum` leaves its answer in
the in-frustum flag `mbTrackInView` of the map point. -/
def frustumStep (c : Collaborators) (s : Tracking × Nat) (pMP : MapPointPtr) : Tracking × Nat :=
  if (s.1.mapPoints pMP).mnLastFrameSeen = s.1.mCurrentFrame.mnId then s
  else if (s.1.mapPoints pMP).mbBad then s
  else if c.isInFrustum s.1 pMP then
    ({ s.1 with
        mapPoints := Function.update s.1.mapPoints pMP
          { s.1.mapPoints pMP with
            mbTrackInView := true
            mnVisible := (s.1.mapPoints pMP).mnVisible + 1 } },
      s.2 + 1)
  else
    ({ s.1 with
        mapPoints := Function.update s.1.mapPoints pMP
          { s.1.mapPoints pMP with mbTrackInView := false } },
      s.2)

/-- `Tracking::SearchLocalPoints`. -/
def SearchLocalPoints (c : Collaborators) (t : Tracking) : Tracking :=
  let a := (List.range t.mCurrentFrame.N).foldl (alreadyMatchedStep t.mCurrentFrame.mnId)
    (t.mCurrentFrame.mvpMapPoints, t.mapPoints)
  let t1 : Tracking := { t.setSlots a.1 with mapPoints := a.2 }
  let b := t1.mvpLocalMapPoints.foldl (frustumStep c) (t1, 0)
  if b.2 > 0 then
    let th := if b.1.mCurrentFrame.mnId < b.1.mnLastRelocFrameId + 2 then 5
      else if b.1.mSensor = eSensor.RGBD then 3 else 1
    b.1.setSlots (c.SearchByProjectionLocal b.1 th)
  else b.1

/-- One round of the loop "Update MapPoints Statistics" of `TrackLocalMap`, on
the heap of map points and `mnMatchesInliers`. -/
def statisticsStep (f : Frame) (s : (MapPointPtr → MapPoint) × Nat) (i : Nat) :
    (MapPointPtr → MapPoint) × Nat :=
  match f.mvpMapPoints i with
  | none => s
  | some pMP =>
    if !f.mvbOutlier i then
      (Function.update s.1 pMP { s.1 pMP with mnFound := (s.1 pMP).mnFound + 1 },
        if (s.1 pMP).Observations > 0 then s.2 + 1 else s.2)
    else s

/-- The state of `TrackLocalMap` after `Optimizer::PoseOptimization`, before
the statistics loop. -/
def localMapOptimized (c : Collaborators) (t : Tracking) : Tracking :=
  poseOptimized c (SearchLocalPoints c (UpdateLocalMap t))

/-- `Tracking::TrackLocalMap`. -/
def TrackLocalMap (c : Collaborators) (t : Tracking) : Bool × Tracking :=
  let t2 := localMapOptimized c t
  let s := (List.range t2.mCurrentFrame.N).foldl (statisticsStep t2.mCurrentFrame)
    (t2.mapPoints, 0)
  let t3 : Tracking := { t2 with mapPoints := s.1, mnMatchesInliers := s.2 }
  if decide (t3.mCurrentFrame.mnId < t3.mnLastRelocFrameId + t3.mMaxFrames)
      && decide (t3.mnMatchesInliers < 50) then (false, t3)
  else if t3.mnMatchesInliers < 30 then (false, t3)
  else (true, t3)

/-! ## `Tracking::Track` -/

/-- The block "Initial camera pose estimation using motion model or
relocalization" of `Track` (the `if (mState==OK) ... else ...` that sets
`bOK`): the flag `bOK` and the state after it. -/
def initialPoseEstimation (c : Collaborators) (t : Tracking) : Option (Bool × Tracking) :=
  if t.mState = eTrackingState.OK then
    let t1 := CheckReplacedInLastFrame t
    if t1.mVelocity.isNone || decide (t1.mCurrentFrame.mnId < t1.mnLastRelocFrameId + 2) then
      some (TrackReferenceKeyFrame c t1)
    else
      match TrackWithMotionModel c t1 with
      | none => none
      | some r => if !r.1 then some (TrackReferenceKeyFrame c r.2) else some r
  else some (Relocalization c t)

/-- One round of the loop "Clean VO matches" of `Track`. -/
def cleanVOStep (mapPoints : MapPointPtr → MapPoint) (f : Frame) (i : Nat) : Frame :=
  match f.mvpMapPoints i with
  | none => f
  | some pMP =>
    if (mapPoints pMP).Observations < 1 then
      { f with
        mvbOutlier := Function.update f.mvbOutlier i false
        mvpMapPoints := Function.update f.mvpMapPoints i none }
    else f

/-- One round of the last loop of the block of `Track` for a good tick: a map
point flagged outlier leaves its slot. -/
def dropOutlierStep (f : Frame) (i : Nat) : Frame :=
  if (f.mvpMapPoints i).isSome && f.mvbOutlier i then
    { f with mvpMapPoints := Function.update f.mvpMapPoints i none }
  else f

/-- The statements "Update motion model" of `Track` and the call
`mpMapDrawer->SetCurrentCameraPose(mCurrentFrame.mTcw)`. -/
def updateMotionModel (c : Collaborators) (t : Tracking) : Tracking :=
  ({ t with
    mVelocity := if t.mLastFrame.mTcw.isSome
      then c.mul t.mCurrentFrame.mTcw (c.inverse t.mLastFrame.mTcw) else none } : Tracking).call
    (Call.SetCurrentCameraPose t.mCurrentFrame.mTcw)

/-- The loop "Clean VO matches" of `Track` and the deletion of the temporal map
points. -/
def cleanVOMatches (t : Tracking) : Tracking :=
  { t with
    mCurrentFrame := (List.range t.mCurrentFrame.N).foldl (cleanVOStep t.mapPoints)
      t.mCurrentFrame
    mlpTemporalPoints := [] }

/-- The last loop of the block of `Track` for a good tick: the slots flagged
outlier are emptied. -/
def dropOutliers (t : Tracking) : Tracking :=
  { t with
    mCurrentFrame := (List.range t.mCurrentFrame.N).foldl dropOutlierStep t.mCurrentFrame }

/-- The block `if (bOK) { ... }` of `Track` after the drawer update: motion
model, "Clean VO matches", the temporal points, `NeedNewKeyFrame` and
`CreateNewKeyFrame`, and the removal of outliers from the current frame.
`none` when `NeedNewKeyFrame` is. -/
def goodTick (c : Collaborators) (t : Tracking) : Option Tracking :=
  match NeedNewKeyFrame c (cleanVOMatches (updateMotionModel c t)) with
  | none => none
  | some r => some (dropOutliers (if r.1 then CreateNewKeyFrame c r.2 else r.2))

/-- The end of `Track`, "Store frame pose information": one entry is appended
to each of the four lists.  `none` is the dereference of a null
`mCurrentFrame.mpReferenceKF`, or `back()` on an empty list. -/
def storeFramePose (c : Collaborators) (t : Tracking) : Option Tracking :=
  match t.mCurrentFrame.mTcw with
  | some Tcw =>
    match t.mCurrentFrame.mpReferenceKF with
    | none => none
    | some pRef =>
      some { t with
        mlRelativeFramePoses := t.mlRelativeFramePoses ++
          [c.mul (some Tcw) (c.inverse (t.keyFrames pRef).Tcw)]
        mlpReferences := t.mlpReferences ++ [t.mpReferenceKF]
        mlFrameTimes := t.mlFrameTimes ++ [t.mCurrentFrame.mTimeStamp]
        mlbLost := t.mlbLost ++ [decide (t.mState = eTrackingState.LOST)] }
  | none =>
    match t.mlRelativeFramePoses.getLast?, t.mlpReferences.getLast?,
      t.mlFrameTimes.getLast? with
    | some Tcr, some pRef, some time =>
      some { t with
        mlRelativeFramePoses := t.mlRelativeFramePoses ++ [Tcr]
        mlpReferences := t.mlpReferences ++ [pRef]
        mlFrameTimes := t.mlFrameTimes ++ [time]
        mlbLost := t.mlbLost ++ [decide (t.mState = eTrackingState.LOST)] }
    | _, _, _ => none

/-- The start of `Track`: `NO_IMAGES_YET` becomes `NOT_INITIALIZED`, and
`mLastProcessedState=mState`. -/
def trackEnter (t : Tracking) : Tracking :=
  { t with
    mState := if t.mState = eTrackingState.NO_IMAGES_YET
      then eTrackingState.NOT_INITIALIZED else t.mState
    mLastProcessedState := if t.mState = eTrackingState.NO_IMAGES_YET
      then eTrackingState.NOT_INITIALIZED else t.mState }

/-- The statement `mCurrentFrame.mpReferenceKF = mpReferenceKF` of `Track`. -/
def setFrameReference (t : Tracking) : Tracking :=
  { t with mCurrentFrame := { t.mCurrentFrame with mpReferenceKF := t.mpReferenceKF } }

/-- The statements `if (bOK) mState = OK; else mState=LOST;` of `Track` and
the drawer update that follows. -/
def setState (t : Tracking) (bOK : Bool) : Tracking :=
  ({ t with mState := if bOK then eTrackingState.OK else eTrackingState.LOST } : Tracking).call
    Call.FrameDrawerUpdate

/-- The branch of `Track` for an initialized system up to the test "Reset if
the camera get lost soon after initialization": coarse estimate,
`TrackLocalMap` (only when the coarse estimate succeeded), the assignment of
`mState`, the drawer update and the block of a good tick. -/
def trackFrame (c : Collaborators) (t : Tracking) : Option Tracking :=
  match initialPoseEstimation c t with
  | none => none
  | some r0 =>
    if r0.1 then
      if (TrackLocalMap c (setFrameReference r0.2)).1
      then goodTick c (setState (TrackLocalMap c (setFrameReference r0.2)).2 true)
      else some (setState (TrackLocalMap c (setFrameReference r0.2)).2 false)
    else some (setState (setFrameReference r0.2) false)

/-- The statements of `Track` between the reset test and the trajectory log:
the reference key frame of the current frame, and `mLastFrame =
Frame(mCurrentFrame)`. -/
def commitLastFrame (t : Tracking) : Tracking :=
  let f : Frame := { t.mCurrentFrame with
    mpReferenceKF := match t.mCurrentFrame.mpReferenceKF with
      | none => t.mpReferenceKF
      | some pKF => some pKF }
  { t with mCurrentFrame := f, mLastFrame := f }

/-- `Tracking::Track`.  `none` is undefined behaviour of the source: `back()`
on an empty list or a null pointer dereferenced. -/
def Track (c : Collaborators) (t : Tracking) : Option Tracking :=
  let t1 := trackEnter t
  if t1.mState = eTrackingState.NOT_INITIALIZED then
    let t2 := (if t1.mSensor = eSensor.RGBD then StereoInitialization c t1
      else MonocularInitialization c t1).call Call.FrameDrawerUpdate
    if t2.mState ≠ eTrackingState.OK then some t2 else storeFramePose c t2
  else
    match trackFrame c t1 with
    | none => none
    | some t2 =>
      if t2.mState = eTrackingState.LOST ∧ t2.mpMap.KeyFramesInMap ≤ 5 then
        some (t2.call Call.SystemReset)
      else storeFramePose c (commitLastFrame t2)

/-! ## The keyframe policy in the words of the specification -/

namespace KeyframePolicy

/-- Key point `i` of the current frame is close: `0 < depth < closeThresh`. -/
def isClose (t : Tracking) (i : Nat) : Bool :=
  decide (0 < t.mCurrentFrame.mvDepth i) && decide (t.mCurrentFrame.mvDepth i < t.mThDepth)

/-- Key point `i` of the current frame is tracked: its slot holds a map point
that is not flagged outlier. -/
def isTracked (t : Tracking) (i : Nat) : Bool :=
  (t.mCurrentFrame.mvpMapPoints i).isSome && !t.mCurrentFrame.mvbOutlier i

/-- The count `trackedClose`: close key points that are tracked (0 for
monocular). -/
def trackedClose (t : Tracking) : Nat :=
  if t.mSensor = eSensor.MONOCULAR then 0
  else ((List.range t.mCurrentFrame.N).filter (fun i => isClose t i && isTracked t i)).length

/-- The count `nonTrackedClose`: close key points that are not tracked (0 for
monocular). -/
def nonTrackedClose (t : Tracking) : Nat :=
  if t.mSensor = eSensor.MONOCULAR then 0
  else ((List.range t.mCurrentFrame.N).filter (fun i => isClose t i && !isTracked t i)).length

/-- `needClose := trackedClose < 100 AND nonTrackedClose > 70`. -/
def needClose (t : Tracking) : Bool :=
  decide (trackedClose t < 100) && decide (nonTrackedClose t > 70)

/-- `nRef = referenceKF.TrackedMapPoints(nMinObs)`, with `nMinObs = 2` when at
most 2 key frames exist and 3 otherwise. -/
def nRef (c : Collaborators) (t : Tracking) (pRef : KeyFramePtr) : Nat :=
  c.TrackedMapPoints t pRef (if t.mpMap.KeyFramesInMap ≤ 2 then 2 else 3)

/-- `refRatio`: 0.9 for monocular, otherwise 0.4 when fewer than 2 key frames
exist and 0.75 otherwise (the `float` literals of the source). -/
def refRatio (t : Tracking) : Nat :=
  if t.mSensor = eSensor.MONOCULAR then f0_9
  else if t.mpMap.KeyFramesInMap < 2 then f0_4 else f0_75

/-- The mapper is idle: `AcceptKeyFrames()` answers true. -/
def mapperIdle (c : Collaborators) (t : Tracking) : Bool :=
  c.AcceptKeyFrames t

/-- `c1a := currentId >= lastKFId + maxFrames`. -/
def c1a (t : Tracking) : Bool :=
  decide (t.mCurrentFrame.mnId ≥ t.mnLastKeyFrameId + t.mMaxFrames)

/-- `c1b := currentId >= lastKFId + minFrames AND mapperIdle`. -/
def c1b (c : Collaborators) (t : Tracking) : Bool :=
  decide (t.mCurrentFrame.mnId ≥ t.mnLastKeyFrameId + t.mMinFrames) && mapperIdle c t

/-- `c1c := non-monocular AND (inliers < 0.25*nRef OR needClose)`; the product
by 0.25 is exact, so the comparison is `4*inliers < nRef`. -/
def c1c (c : Collaborators) (t : Tracking) (pRef : KeyFramePtr) : Bool :=
  decide (t.mSensor ≠ eSensor.MONOCULAR)
    && (decide (4 * t.mnMatchesInliers < nRef c t pRef) || needClose t)

/-- `c2 := (inliers < refRatio*nRef OR needClose) AND inliers > 15`, the
product being the single precision product of the source. -/
def c2 (c : Collaborators) (t : Tracking) (pRef : KeyFramePtr) : Bool :=
  (ltMulF32 t.mnMatchesInliers (nRef c t pRef) (refRatio t) || needClose t)
    && decide (t.mnMatchesInliers > 15)

/-- The conditions `(c1a OR c1b OR c1c) AND c2`. -/
def conditions (c : Collaborators) (t : Tracking) (pRef : KeyFramePtr) : Bool :=
  (c1a t || c1b c t || c1c c t pRef) && c2 c t pRef

/-- The suppression after a relocalisation:
`currentId < lastRelocId + maxFrames AND keyframeCount > maxFrames`. -/
def suppressed (t : Tracking) : Bool :=
  decide (t.mCurrentFrame.mnId < t.mnLastRelocFrameId + t.mMaxFrames)
    && decide (t.mpMap.KeyFramesInMap > t.mMaxFrames)

/-- The value the policy returns when the mapper is neither stopped nor asked
to stop. -/
def decision (c : Collaborators) (t : Tracking) (pRef : KeyFramePtr) : Bool :=
  !suppressed t && conditions c t pRef
    && (mapperIdle c t
      || (decide (t.mSensor ≠ eSensor.MONOCULAR)
        && decide (c.KeyframesInQueue (t.call Call.InterruptBA) < 3)))

end KeyframePolicy

/-! ## Sample inputs -/

/-- A frame without key points. -/
def Frame.blank : Frame :=
  { mnId := 0, mTimeStamp := 0, N := 0, nKeys := 0, mvDepth := fun _ => 0,
    mvpMapPoints := fun _ => none, mvbOutlier := fun _ => false, mTcw := none,
    mpReferenceKF := none, content := 0 }

/-- The constructor `Tracking::Tracking` for a sensor, a frame rate and a close
point threshold: `mState(NO_IMAGES_YET)`, `mnLastRelocFrameId(0)`,
`mMinFrames = 0`, `mMaxFrames = fps` (30 when `fps` is 0), `threshold_ = 8`,
no viewer, an empty map.  The members the constructor leaves out start empty. -/
def Tracking.construct (sensor : eSensor) (fps : Nat) (mThDepth : Int) : Tracking :=
  { mState := eTrackingState.NO_IMAGES_YET
    mLastProcessedState := eTrackingState.NO_IMAGES_YET
    mSensor := sensor
    mCurrentFrame := Frame.blank
    mLastFrame := Frame.blank
    mInitialFrame := Frame.blank
    mpInitializer := none
    mvIniMatches := []
    mvbPrevMatched := 0
    mvIniP3D := fun _ => ⟨0⟩
    mpReferenceKF := none
    mpLastKeyFrame := none
    mnLastKeyFrameId := 0
    mnLastRelocFrameId := 0
    mvpLocalKeyFrames := []
    mvpLocalMapPoints := []
    mlpTemporalPoints := []
    mVelocity := none
    mnMatchesInliers := 0
    mMinFrames := 0
    mMaxFrames := if fps = 0 then 30 else fps
    mThDepth := mThDepth
    threshold_ := 8
    mpViewer := false
    mlRelativeFramePoses := []
    mlpReferences := []
    mlFrameTimes := []
    mlbLost := []
    mpMap := { mspKeyFrames := [], mspMapPoints := [], mvpReferenceMapPoints := [],
               mvpKeyFrameOrigins := [] }
    mapPoints := fun _ => MapPoint.new ⟨0⟩ 0
    nMapPoints := 0
    keyFrames := fun _ => KeyFrame.new Frame.blank 0
    nKeyFrames := 0
    KeyFrame_nNextId := 0
    Frame_nNextId := 0
    calls := [] }

/-- Collaborators for the sample inputs: a local mapper that is running and
idle with an empty queue, a reference key frame with 100 tracked points, image
alignment, matching (`nMatches` matches) and optimization that succeed and
leave the frame as it is. -/
def sampleCollaborators (nMatches : Nat) : Collaborators :=
  { isStopped := fun _ => false
    stopRequested := fun _ => false
    AcceptKeyFrames := fun _ => true
    KeyframesInQueue := fun _ => 0
    SetNotStop := fun _ _ => true
    TrackedMapPoints := fun _ _ _ => 100
    ComputeSceneMedianDepth := fun _ _ _ => 1
    UpdateConnections := fun t _ k =>
      ((t.keyFrames k).mvpOrderedConnectedKeyFrames, (t.keyFrames k).mspChildrens,
        (t.keyFrames k).mpParent)
    ComputePoseKF := fun t _ _ => (true, t.mCurrentFrame.mTcw)
    ComputePoseFrame := fun t => (true, t.mCurrentFrame.mTcw)
    SearchByProjectionKF := fun t _ _ _ _ => (nMatches, t.mCurrentFrame.mvpMapPoints)
    SearchByProjectionFrame := fun t _ _ _ => (nMatches, t.mCurrentFrame.mvpMapPoints)
    SearchByProjectionLocal := fun t _ => t.mCurrentFrame.mvpMapPoints
    SearchForInitialization := fun t => (nMatches, t.mvIniMatches, t.mvbPrevMatched)
    PoseOptimization := fun t => (nMatches, t.mCurrentFrame.mTcw, t.mCurrentFrame.mvbOutlier)
    GlobalBundleAdjustemnt := fun t =>
      (fun k => (t.keyFrames k).Tcw, fun p => (t.mapPoints p).mWorldPos)
    isInFrustum := fun _ _ => true
    UnprojectStereo := fun _ i => ⟨i⟩
    Initialize := fun _ => none
    eye := ⟨1⟩
    mul := fun a _ => a
    inverse := fun a => a
    scaleTranslation := fun a _ => a
    scalePoint := fun a _ => a }

/-- Sample state: an initialized RGB-D tracker at frame 10, 20 inliers, five
frames after a relocalisation, with 31 key frames in the map. -/
def sampleTracking : Tracking :=
  { Tracking.construct eSensor.RGBD 30 40 with
    mState := eTrackingState.OK
    mCurrentFrame := { Frame.blank with mnId := 10 }
    mpReferenceKF := some 0
    mnLastRelocFrameId := 5
    mnMatchesInliers := 20
    mpMap := { mspKeyFrames := List.range 31, mspMapPoints := [], mvpReferenceMapPoints := [],
               mvpKeyFrameOrigins := [] } }

/-- Sample collaborators whose local mapper is stopped. -/
def stoppedCollaborators : Collaborators :=
  { sampleCollaborators 25 with isStopped := fun _ => true }

/-- Sample collaborators whose local mapper is busy (does not accept key
frames). -/
def busyCollaborators : Collaborators :=
  { sampleCollaborators 25 with AcceptKeyFrames := fun _ => false }

/-! ## Members that pose estimation leaves alone -/

/-- The trajectory log: the four lists `mlRelativeFramePoses`, `mlpReferences`,
`mlFrameTimes`, `mlbLost`. -/
def Tracking.trajectory (t : Tracking) :
    List (Option Mat) × List (Option KeyFramePtr) × List Int × List Bool :=
  (t.mlRelativeFramePoses, t.mlpReferences, t.mlFrameTimes, t.mlbLost)

/-- What no step of a tick changes before `Track` itself does: the state, the
trajectory log, the number of `System::Reset` requests made, the sensor, and
which frame the previous frame is. -/
def Tracking.core (t : Tracking) :
    eTrackingState × (List (Option Mat) × List (Option KeyFramePtr) × List Int × List Bool)
      × Nat × eSensor × Nat :=
  (t.mState, t.trajectory, t.calls.count Call.SystemReset, t.mSensor, t.mLastFrame.mnId)

/-- The members a tick of an initialized system reads through `back()` or
dereferences are there: a reference key frame, a non-empty trajectory log, and,
for a tick that runs `TrackWithMotionModel` (it starts in `OK` with a velocity,
at least 2 frames after the last relocalisation), the reference key frame of
the previous frame.  (`StereoInitialization` copies the previous frame before
it sets the reference key frame of the current frame, so the previous frame has
none in the tick that follows it.) -/
def Tracking.ready (t : Tracking) : Prop :=
  t.mpReferenceKF.isSome = true
    ∧ t.mlRelativeFramePoses ≠ [] ∧ t.mlpReferences ≠ [] ∧ t.mlFrameTimes ≠ []
    ∧ (t.mState = eTrackingState.OK → t.mVelocity.isSome = true →
        t.mnLastRelocFrameId + 2 ≤ t.mCurrentFrame.mnId →
        t.mLastFrame.mpReferenceKF.isSome = true)

instance Tracking.ready_decidable (t : Tracking) : Decidable t.ready :=
  inferInstanceAs (Decidable (t.mpReferenceKF.isSome = true
    ∧ t.mlRelativeFramePoses ≠ [] ∧ t.mlpReferences ≠ [] ∧ t.mlFrameTimes ≠ []
    ∧ (t.mState = eTrackingState.OK → t.mVelocity.isSome = true →
        t.mnLastRelocFrameId + 2 ≤ t.mCurrentFrame.mnId →
        t.mLastFrame.mpReferenceKF.isSome = true)))

/-- Sample state: the sample tracker with a previous frame and one entry in
the trajectory log. -/
def sampleReady : Tracking :=
  { sampleTracking with
    mLastFrame := { Frame.blank with mnId := 9, mpReferenceKF := some 0, mTcw := some ⟨1⟩ }
    mlRelativeFramePoses := [some ⟨1⟩]
    mlpReferences := [some 0]
    mlFrameTimes := [0]
    mlbLost := [false] }

/-! ## Runs of `Track` -/

/-- What happens between two calls of `Track`: `GrabImageRGBD` or
`GrabImageMonocular` builds the next current frame, and the other threads
(local mapping, loop closing) change the map, the heap and the id counters.
The members private to the tracker stay. -/
structure Arrival where
  mCurrentFrame : Frame
  mpMap : Map
  mapPoints : MapPointPtr → MapPoint
  nMapPoints : Nat
  keyFrames : KeyFramePtr → KeyFrame
  nKeyFrames : Nat
  KeyFrame_nNextId : Nat
  Frame_nNextId : Nat

/-- The state in which `Track` is called, after the arrival `a`. -/
def Tracking.arrive (t : Tracking) (a : Arrival) : Tracking :=
  { t with
    mCurrentFrame := a.mCurrentFrame
    mpMap := a.mpMap
    mapPoints := a.mapPoints
    nMapPoints := a.nMapPoints
    keyFrames := a.keyFrames
    nKeyFrames := a.nKeyFrames
    KeyFrame_nNextId := a.KeyFrame_nNextId
    Frame_nNextId := a.Frame_nNextId }

/-- The tick that ended in `t` ran to the end of `Track`: it ended in state
`OK`, or in state `LOST` with more than 5 key frames in the map.  (The other
ticks return early: initialization did not succeed, or a system reset was
requested.) -/
def Tracking.ranToEnd (t : Tracking) : Bool :=
  decide (t.mState = eTrackingState.OK)
    || (decide (t.mState = eTrackingState.LOST) && decide (t.mpMap.KeyFramesInMap > 5))

/-- A sequence of calls of `Track`, one per arrival: the final state and the
number of ticks that ran to the end; `none` if a call has undefined
behaviour. -/
def runTrack (c : Collaborators) : Tracking → List Arrival → Option (Tracking × Nat)
  | t, [] => some (t, 0)
  | t, a :: rest =>
    match Track c (t.arrive a) with
    | none => none
    | some t1 =>
      match runTrack c t1 rest with
      | none => none
      | some r => some (r.1, r.2 + (if t1.ranToEnd then 1 else 0))

/-- Sample arrival: a frame with id `id`, `n` key points and no depth, while
the map and the heap hold nothing. -/
def sampleArrival (id n : Nat) : Arrival :=
  { mCurrentFrame := { Frame.blank with mnId := id, nKeys := n }
    mpMap := { mspKeyFrames := [], mspMapPoints := [], mvpReferenceMapPoints := [],
               mvpKeyFrameOrigins := [] }
    mapPoints := fun _ => MapPoint.new ⟨0⟩ 0
    nMapPoints := 0
    keyFrames := fun _ => KeyFrame.new Frame.blank 0
    nKeyFrames := 0
    KeyFrame_nNextId := 0
    Frame_nNextId := id + 1 }

/-- Sample collaborators for a monocular tracker: as `sampleCollaborators 120`,
with a two-view initializer that succeeds. -/
def monoCollaborators : Collaborators :=
  { sampleCollaborators 120 with
    Initialize := fun _ => some (⟨2⟩, fun _ => ⟨0⟩, fun _ => true) }

/-- Sample run of a monocular tracker from construction: the first frame
becomes the reference frame of the initializer, the second completes the
initialization, the third loses track while the map holds no key frame. -/
def sampleRun : Option (Tracking × Nat) :=
  runTrack monoCollaborators (Tracking.construct eSensor.MONOCULAR 30 40)
    [sampleArrival 0 150, sampleArrival 1 150, sampleArrival 2 150]

/-! ## Inlier slots, in the words of the specification -/

/-- Slot `i` of frame `f` is non-empty and not flagged outlier. -/
def Frame.isInlierSlot (f : Frame) (i : Nat) : Bool :=
  (f.mvpMapPoints i).isSome && !f.mvbOutlier i

/-- Slot `i` of frame `f` holds a map point that is not flagged outlier and has
at least one observing key frame (observation count > 0). -/
def Frame.isMapInlierSlot (f : Frame) (mapPoints : MapPointPtr → MapPoint) (i : Nat) : Bool :=
  match f.mvpMapPoints i with
  | none => false
  | some pMP => !f.mvbOutlier i && decide ((mapPoints pMP).Observations > 0)

/-- The number of slots of `f` that are non-empty, not flagged outlier, and
whose map point has at least one observing key frame. -/
def Frame.mapInliers (f : Frame) (mapPoints : MapPointPtr → MapPoint) : Nat :=
  ((List.range f.N).filter (f.isMapInlierSlot mapPoints)).length

/-- The number of slots of `f` that hold the map point `p` and are not flagged
outlier. -/
def Frame.inlierSlotsOf (f : Frame) (p : MapPointPtr) : Nat :=
  ((List.range f.N).filter
    (fun i => decide (f.mvpMapPoints i = some p) && !f.mvbOutlier i)).length

/-- Sample state for `TrackLocalMap`: the current frame has one key point,
whose slot holds map point 7, which no key frame observes. -/
def sampleUnobserved : Tracking :=
  { sampleReady with
    mCurrentFrame := { Frame.blank with
      mnId := 10
      N := 1
      nKeys := 1
      mvpMapPoints := fun i => if i = 0 then some 7 else none } }

/-- The ids and thresholds the acceptance tests of a tick compare: the id and
the number of key points of the current frame, the id of the last
relocalisation, and `mMaxFrames`. -/
def Tracking.frameIds (t : Tracking) : Nat × Nat × Nat × Nat :=
  (t.mCurrentFrame.mnId, t.mCurrentFrame.N, t.mnLastRelocFrameId, t.mMaxFrames)

/-! ## The match-count rule of coarse tracking, in the words of the specification -/

/-- The number of key points of frame `f` with depth > 0. -/
def Frame.positiveDepths (f : Frame) : Nat :=
  ((List.range f.N).filter (fun i => decide (0 < f.mvDepth i))).length

/-- Sample state for the stereo initialization: a tracker just constructed
whose current frame has 501 key points, the first two of them with a depth. -/
def sampleStereo : Tracking :=
  { Tracking.construct eSensor.RGBD 30 40 with
    mCurrentFrame := { Frame.blank with
      N := 501
      nKeys := 501
      mvDepth := fun i => if i < 2 then 5 else 0 } }

/-- Sample collaborators for the monocular initialization: as
`monoCollaborators`, with a median scene depth of exactly 0. -/
def zeroDepthCollaborators : Collaborators :=
  { monoCollaborators with ComputeSceneMedianDepth := fun _ _ _ => 0 }

/-- Sample state in which `CreateInitialMapMonocular` is called: a monocular
tracker whose initializer has just succeeded (no matches are needed for what
the samples show). -/
def sampleMono : Tracking :=
  { Tracking.construct eSensor.MONOCULAR 30 40 with
    mState := eTrackingState.NOT_INITIALIZED
    mCurrentFrame := { Frame.blank with mnId := 1, nKeys := 150, mTcw := some ⟨2⟩ }
    mInitialFrame := { Frame.blank with mnId := 0, nKeys := 150, mTcw := some ⟨1⟩ }
    mpInitializer := some { Frame.blank with mnId := 0, nKeys := 150 } }

/-- Sample collaborators whose local mapper refuses `SetNotStop(true)`. -/
def refusingCollaborators : Collaborators :=
  { sampleCollaborators 25 with SetNotStop := fun _ _ => false }

/-! ## `Relocalization`, candidate by candidate -/

/-- The image alignment of `Relocalization` against the candidate `kf`, in
reloc mode, from the pose of the candidate: success, and the pose it leaves. -/
def relocalizationAlignment (c : Collaborators) (t : Tracking) (kf : KeyFramePtr) :
    Bool × Option Mat :=
  c.ComputePoseKF (t.setPose (t.keyFrames kf).Tcw) (some kf) true

/-- The state in which `Relocalization` searches for the candidate `kf`:
aligned pose, slots set to `NULL`. -/
def relocalizationAligned (c : Collaborators) (t : Tracking) (kf : KeyFramePtr) : Tracking :=
  ((t.setPose (t.keyFrames kf).Tcw).setPose (relocalizationAlignment c t kf).2).fillNull

/-- The projection search of `Relocalization` against the candidate `kf`, with
radius `threshold_`: the match count and the slots it leaves. -/
def relocalizationSearch (c : Collaborators) (t : Tracking) (kf : KeyFramePtr) :
    Nat × (Nat → Option MapPointPtr) :=
  c.SearchByProjectionKF (relocalizationAligned c t kf) 75 (some kf) t.threshold_
    (decide (t.mSensor = eSensor.MONOCULAR))

/-- The state in which `Relocalization` optimizes the pose for the candidate
`kf`: the slots hold the matches of the search. -/
def relocalizationMatched (c : Collaborators) (t : Tracking) (kf : KeyFramePtr) : Tracking :=
  (relocalizationAligned c t kf).setSlots (relocalizationSearch c t kf).2

/-- The candidate `kf`, reached by the scan in state `t`, passes the three
checks in order: the image alignment in reloc mode succeeds, the projection
search with radius `threshold_` finds at least 20 matches, and the pose
optimization yields at least 10 inliers. -/
def passesRelocalization (c : Collaborators) (t : Tracking) (kf : KeyFramePtr) : Bool :=
  (relocalizationAlignment c t kf).1
    && decide ((relocalizationSearch c t kf).1 ≥ 20)
    && decide ((c.PoseOptimization (relocalizationMatched c t kf)).1 ≥ 10)

/-- The state in which the scan of `Relocalization` goes on (`continue`) after
the candidate `kf`, reached in state `t`, failed a check. -/
def relocalizationRejected (c : Collaborators) (t : Tracking) (kf : KeyFramePtr) : Tracking :=
  if !(relocalizationAlignment c t kf).1 then
    (t.setPose (t.keyFrames kf).Tcw).setPose (relocalizationAlignment c t kf).2
  else if (relocalizationSearch c t kf).1 < 20 then relocalizationMatched c t kf
  else poseOptimized c (relocalizationMatched c t kf)

/-- Every candidate of the list fails a check when the scan, started in state
`t`, reaches it. -/
def allRejected (c : Collaborators) : Tracking → List KeyFramePtr → Bool
  | _, [] => true
  | t, kf :: rest =>
    !passesRelocalization c t kf && allRejected c (relocalizationRejected c t kf) rest

/-- Sample collaborators for a relocalisation: the image alignment fails
against every key frame but key frame 0; matching and optimization succeed
with 25 matches. -/
def relocCollaborators : Collaborators :=
  { sampleCollaborators 25 with
    ComputePoseKF := fun t kf _ => (decide (kf = some 0), t.mCurrentFrame.mTcw) }

/-- Sample state for a relocalisation: the sample tracker, lost at frame 10,
with two key frames in the map. -/
def sampleLost : Tracking :=
  { sampleReady with
    mState := eTrackingState.LOST
    mpMap := { mspKeyFrames := [0, 1], mspMapPoints := [], mvpReferenceMapPoints := [],
               mvpKeyFrameOrigins := [] } }

/-! ## Outlier slots after a tick -/

/-- Slot `i` of frame `f` is non-empty and flagged outlier. -/
def Frame.isOutlierSlot (f : Frame) (i : Nat) : Bool :=
  (f.mvpMapPoints i).isSome && f.mvbOutlier i

/-- Sample collaborators for a failed relocalisation: alignment succeeds, the
projection search fills the 20 slots of the frame (20 matches), and the pose
optimization finds no inlier and flags every slot outlier. -/
def outlierCollaborators : Collaborators :=
  { sampleCollaborators 20 with
    SearchByProjectionKF := fun _ _ _ _ _ => (20, fun i => if i < 20 then some i else none)
    PoseOptimization := fun t => (0, t.mCurrentFrame.mTcw, fun _ => true) }

/-- Sample state for a failed relocalisation: the sample tracker, lost at frame
10, with 20 key points in the current frame and six key frames in the map. -/
def sampleOutliers : Tracking :=
  { sampleReady with
    mState := eTrackingState.LOST
    mCurrentFrame := { Frame.blank with mnId := 10, N := 20, nKeys := 20 }
    mpMap := { mspKeyFrames := List.range 6, mspMapPoints := [], mvpReferenceMapPoints := [],
               mvpKeyFrameOrigins := [] } }

/-- Sample state for the local map: the sample tracker with the local key frames
0 and 1, where key frame `k` holds the map points `k` and `k + 1` in its two
slots. -/
def sampleLocal : Tracking :=
  { sampleReady with
    mvpLocalKeyFrames := [0, 1]
    keyFrames := fun k =>
      { KeyFrame.new Frame.blank 0 with
        N := 2
        mvpMapPoints := fun i => if i < 2 then some (k + i) else none } }

/-- Sample state for `CheckReplacedInLastFrame`: the previous frame has three
slots: slot 0 holds map point 5, which was replaced by map point 6, which was
itself replaced by map point 7; slot 1 is empty; slot 2 holds map point 8,
which was not replaced. -/
def sampleReplaced : Tracking :=
  { sampleReady with
    mLastFrame := { Frame.blank with
      mnId := 9
      N := 3
      mpReferenceKF := some 0
      mvpMapPoints := fun i => if i = 0 then some 5 else if i = 2 then some 8 else none }
    mapPoints := fun p =>
      { MapPoint.new ⟨0⟩ 0 with
        mpReplaced := if p = 5 then some 6 else if p = 6 then some 7 else none } }

/-! ## The local key frames, in the words of the specification -/

/-- The votes of `UpdateLocalKeyFrames`: `keyframeCounter` after the voting
loop, one entry per key frame that observes a map point of the current frame
that is not bad. -/
def keyframeVotes (t : Tracking) : List (KeyFramePtr × Nat) :=
  ((List.range t.mCurrentFrame.N).foldl (voteStep t.mapPoints)
    (t.mCurrentFrame.mvpMapPoints, [])).2

/-- The seeded key frames of `UpdateLocalKeyFrames`: the voted key frames that
are not bad, which the loop over `keyframeCounter` puts in `mvpLocalKeyFrames`. -/
def seededKeyFrames (t : Tracking) : List KeyFramePtr :=
  ((keyframeVotes t).foldl (seedStep t.mCurrentFrame.mnId) (0, none, [], t.keyFrames)).2.2.1

/-- Sample state with a crowded local map: the only slot of the current frame
holds map point 0, which the 81 key frames 0, ..., 80 observe. -/
def sampleCrowded : Tracking :=
  { sampleReady with
    mCurrentFrame := { Frame.blank with
      mnId := 10
      N := 1
      nKeys := 1
      mvpMapPoints := fun i => if i = 0 then some 0 else none }
    mapPoints := fun _ =>
      { MapPoint.new ⟨0⟩ 0 with mObservations := (List.range 81).map (fun k => (k, 0)) } }

/-- Sample state with two seeded key frames that both have a parent: the only
slot of the current frame holds map point 0, which the key frames 0 and 1
observe; the spanning-tree parent of key frame 0 is key frame 2, that of key
frame 1 is key frame 3, and there is no other edge. -/
def sampleParents : Tracking :=
  { sampleReady with
    mCurrentFrame := { Frame.blank with
      mnId := 10
      N := 1
      nKeys := 1
      mvpMapPoints := fun i => if i = 0 then some 0 else none }
    mapPoints := fun _ => { MapPoint.new ⟨0⟩ 0 with mObservations := [(0, 0), (1, 0)] }
    keyFrames := fun k =>
      { KeyFrame.new Frame.blank 0 with
        mpParent := if k = 0 then some 2 else if k = 1 then some 3 else none } }

/-! ## The retry of the coarse tracking -/

/-- Sample collaborators that tell the two sources of a projection search
apart: against a key frame the search finds 5 matches with a radius up to 8 and
25 with a wider one; against the last frame it finds none. -/
def keyFrameOnlyCollaborators : Collaborators :=
  { sampleCollaborators 25 with
    SearchByProjectionKF := fun _ _ _ th _ =>
      (if th ≤ 8 then 5 else 25, fun i => if i < (if th ≤ 8 then 5 else 25) then some i else none)
    SearchByProjectionFrame := fun _ _ _ _ => (0, fun _ => none) }

/-- Sample state for the retry: the sample tracker with 30 key points in the
current frame. -/
def sampleWiden : Tracking :=
  { sampleReady with
    mCurrentFrame := { Frame.blank with mnId := 10, N := 30, nKeys := 30 } }

/-! ## The walk of `CreateNewKeyFrame`, in the words of the specification -/

/-- The number of key points of frame `f` with positive depth at most `th`
(the close points of the walk: depth <= closeThresh). -/
def Frame.closeDepths (f : Frame) (th : Int) : Nat :=
  ((List.range f.N).filter (fun i => decide (0 < f.mvDepth i) && decide (f.mvDepth i ≤ th))).length

/-- Sample state for the walk of `CreateNewKeyFrame`: an RGB-D tracker with
`mThDepth = 40` whose current frame has 102 key points with empty slots: the
key points 0, ..., 100 at depth 10 (close) and key point 101 at depth 50
(beyond `mThDepth`). -/
def sampleDense : Tracking :=
  { sampleReady with
    mCurrentFrame := { Frame.blank with
      mnId := 10
      N := 102
      nKeys := 102
      mvDepth := fun i => if i < 101 then 10 else 50 } }

/-! ## Runs of `Track` and `Reset` -/

/-- A call on the tracker made by the system: `Track` on the next frame (after
the arrival `a`), or `Reset`. -/
inductive Event where
  | track (a : Arrival)
  | reset

/-- A sequence of calls of `Track` and `Reset`: the final state, or `none` if a
call of `Track` has undefined behaviour. -/
def runEvents (c : Collaborators) : Tracking → List Event → Option Tracking
  | t, [] => some t
  | t, Event.track a :: rest =>
    match Track c (t.arrive a) with
    | none => none
    | some t1 => runEvents c t1 rest
  | t, Event.reset :: rest => runEvents c (Reset t) rest

/-- The state is `OK` or `LOST`: the system is initialized. -/
def Tracking.initialized (t : Tracking) : Prop :=
  t.mState = eTrackingState.OK ∨ t.mState = eTrackingState.LOST

/-- The invariant of the trajectory log: the four lists have the same length,
they are empty while the system is not initialized, and non-empty once the
state is `OK` or `LOST`. -/
def Tracking.logInvariant (t : Tracking) : Prop :=
  (t.mlpReferences.length = t.mlRelativeFramePoses.length
    ∧ t.mlFrameTimes.length = t.mlRelativeFramePoses.length
    ∧ t.mlbLost.length = t.mlRelativeFramePoses.length)
  ∧ (¬ t.initialized → t.mlRelativeFramePoses = [])
  ∧ (t.initialized → t.mlRelativeFramePoses ≠ [])

/-- Sample run with a reset: a monocular tracker is initialized by two frames,
loses track on the third, is reset, and gets one more frame. -/
def sampleEvents : List Event :=
  [Event.track (sampleArrival 0 150), Event.track (sampleArrival 1 150),
    Event.track (sampleArrival 2 150), Event.reset, Event.track (sampleArrival 3 150)]

/-! ## The first tick after `StereoInitialization` -/

/-- Sample state as `StereoInitialization` leaves it at frame 0, when frame 1
arrives: state `OK`, one key frame in the map, one entry in the trajectory log,
no velocity, and a previous frame whose reference key frame is still null.
Frame 1 has no key points. -/
def sampleAfterStereo : Tracking :=
  { Tracking.construct eSensor.RGBD 30 40 with
    mState := eTrackingState.OK
    mLastProcessedState := eTrackingState.NOT_INITIALIZED
    mCurrentFrame := { Frame.blank with mnId := 1 }
    mLastFrame := { Frame.blank with mnId := 0, mTcw := some ⟨1⟩, mpReferenceKF := none }
    mpReferenceKF := some 0
    mpLastKeyFrame := some 0
    mvpLocalKeyFrames := [0]
    mlRelativeFramePoses := [some ⟨1⟩]
    mlpReferences := [some 0]
    mlFrameTimes := [0]
    mlbLost := [false]
    mpMap := { mspKeyFrames := [0], mspMapPoints := [], mvpReferenceMapPoints := [],
               mvpKeyFrameOrigins := [0] }
    nKeyFrames := 1
    KeyFrame_nNextId := 1
    Frame_nNextId := 2
    calls := [Call.InsertKeyFrame 0, Call.SetCurrentCameraPose (some ⟨1⟩),
      Call.FrameDrawerUpdate] }

/-- Sample state for a tick that ends in `OK`: as `sampleAfterStereo`, with 60
key points in frame 1 and 60 map points in the heap, each observed by key
frame 0. -/
def sampleTracked : Tracking :=
  { sampleAfterStereo with
    mCurrentFrame := { Frame.blank with mnId := 1, N := 60, nKeys := 60 }
    mapPoints := fun p => { MapPoint.new ⟨0⟩ 0 with mObservations := [(0, p)] }
    nMapPoints := 60 }

/-- Sample collaborators for a tick that ends in `OK`: alignment succeeds, the
projection search against the reference key frame matches key point `i` with
map point `i` (60 matches), and the pose optimization flags the slots from 55
on as outliers, and slot 0 too once there are local key frames (in
`TrackLocalMap`). -/
def trackedCollaborators : Collaborators :=
  { sampleCollaborators 60 with
    SearchByProjectionKF := fun _ _ _ _ _ => (60, fun i => if i < 60 then some i else none)
    PoseOptimization := fun t =>
      (55, t.mCurrentFrame.mTcw,
        fun i => decide (55 ≤ i) || (decide (i = 0) && !t.mvpLocalKeyFrames.isEmpty)) }

/-! # Theorems -/

/-! ## `NeedNewKeyFrame` (C1, C2) -/

theorem closePointCounts_fold (f : Frame) (th : Int) (l : List Nat) (acc : Nat × Nat) :
    l.foldl
      (fun acc i =>
        if 0 < f.mvDepth i ∧ f.mvDepth i < th then
          if (f.mvpMapPoints i).isSome ∧ f.mvbOutlier i = false then (acc.1 + 1, acc.2)
          else (acc.1, acc.2 + 1)
        else acc) acc
    = (acc.1 + (l.filter (fun i => (decide (0 < f.mvDepth i) && decide (f.mvDepth i < th))
          && ((f.mvpMapPoints i).isSome && !f.mvbOutlier i))).length,
       acc.2 + (l.filter (fun i => (decide (0 < f.mvDepth i) && decide (f.mvDepth i < th))
          && !((f.mvpMapPoints i).isSome && !f.mvbOutlier i))).length) := by
  induction l generalizing acc with
  | nil => simp
  | cons i l ih =>
    rw [List.foldl_cons, ih]
    by_cases h1 : 0 < f.mvDepth i <;> by_cases h2 : f.mvDepth i < th <;>
      cases h3 : f.mvpMapPoints i <;> cases h4 : f.mvbOutlier i <;>
      simp [h1, h2, h3, h4, List.filter_cons] <;> omega

theorem closePointCounts_eq (t : Tracking) (h : t.mSensor ≠ eSensor.MONOCULAR) :
    closePointCounts t.mCurrentFrame t.mThDepth
      = (KeyframePolicy.trackedClose t, KeyframePolicy.nonTrackedClose t) := by
  unfold closePointCounts
  rw [closePointCounts_fold]
  simp [KeyframePolicy.trackedClose, KeyframePolicy.nonTrackedClose, h,
    KeyframePolicy.isClose, KeyframePolicy.isTracked]

theorem NeedNewKeyFrame_stopped (c : Collaborators) (t : Tracking)
    (h : c.isStopped t = true ∨ c.stopRequested t = true) :
    NeedNewKeyFrame c t = some (false, t) := by
  unfold NeedNewKeyFrame
  rcases h with h | h <;> simp [h]

theorem NeedNewKeyFrame_running (c : Collaborators) (t : Tracking) (pRef : KeyFramePtr)
    (hs : c.isStopped t = false) (hr : c.stopRequested t = false)
    (hk : t.mpReferenceKF = some pRef) :
    NeedNewKeyFrame c t = some (KeyframePolicy.decision c t pRef,
      if KeyframePolicy.suppressed t = false ∧ KeyframePolicy.conditions c t pRef = true
          ∧ KeyframePolicy.mapperIdle c t = false
        then t.call Call.InterruptBA else t) := by
  unfold NeedNewKeyFrame
  simp only [hs, hr, Bool.or_self, Bool.false_eq_true, if_false]
  by_cases hsup : KeyframePolicy.suppressed t = true
  · have : (decide (t.mCurrentFrame.mnId < t.mnLastRelocFrameId + t.mMaxFrames)
        && decide (t.mpMap.KeyFramesInMap > t.mMaxFrames)) = true := hsup
    simp [this, KeyframePolicy.decision, hsup]
  · have h0 : (decide (t.mCurrentFrame.mnId < t.mnLastRelocFrameId + t.mMaxFrames)
        && decide (t.mpMap.KeyFramesInMap > t.mMaxFrames)) = false := by
      simpa [KeyframePolicy.suppressed] using hsup
    simp only [h0, hk]
    have hc : (if t.mSensor ≠ eSensor.MONOCULAR
          then closePointCounts t.mCurrentFrame t.mThDepth else (0, 0))
        = (KeyframePolicy.trackedClose t, KeyframePolicy.nonTrackedClose t) := by
      by_cases hm : t.mSensor = eSensor.MONOCULAR
      · simp [hm, KeyframePolicy.trackedClose, KeyframePolicy.nonTrackedClose]
      · simp [hm, closePointCounts_eq t hm]
    simp only [hc]
    have hsup2 : KeyframePolicy.suppressed t = false := by simpa using hsup
    have hcond : ((decide (t.mCurrentFrame.mnId ≥ t.mnLastKeyFrameId + t.mMaxFrames) ||
                  decide (t.mCurrentFrame.mnId ≥ t.mnLastKeyFrameId + t.mMinFrames) && c.AcceptKeyFrames t ||
                decide (t.mSensor ≠ eSensor.MONOCULAR) &&
                  (decide
                      (4 * t.mnMatchesInliers <
                        c.TrackedMapPoints t pRef (if t.mpMap.KeyFramesInMap ≤ 2 then 2 else 3)) ||
                    decide (KeyframePolicy.trackedClose t < 100) &&
                      decide (KeyframePolicy.nonTrackedClose t > 70))) &&
              ((ltMulF32 t.mnMatchesInliers
                    (c.TrackedMapPoints t pRef (if t.mpMap.KeyFramesInMap ≤ 2 then 2 else 3))
                    (if t.mSensor = eSensor.MONOCULAR then f0_9
                    else if t.mpMap.KeyFramesInMap < 2 then f0_4 else f0_75) ||
                  decide (KeyframePolicy.trackedClose t < 100) &&
                    decide (KeyframePolicy.nonTrackedClose t > 70)) &&
                decide (t.mnMatchesInliers > 15))) = KeyframePolicy.conditions c t pRef := rfl
    rw [hcond]
    simp only [KeyframePolicy.decision, hsup2, KeyframePolicy.mapperIdle]
    cases KeyframePolicy.conditions c t pRef <;> cases c.AcceptKeyFrames t <;>
      by_cases hm : t.mSensor = eSensor.MONOCULAR <;>
      by_cases hq : c.KeyframesInQueue (t.call Call.InterruptBA) < 3 <;> simp [hm, hq]



/-! ## What the steps of a tick leave alone -/

theorem foldl_keeps {σ α β : Type} (g : σ → β) (f : σ → α → σ)
    (h : ∀ s a, g (f s a) = g s) (l : List α) (s : σ) : g (l.foldl f s) = g s := by
  induction l generalizing s with
  | nil => rfl
  | cons a l ih => rw [List.foldl_cons, ih, h]

theorem core_call (t : Tracking) (e : Call) (h : e ≠ Call.SystemReset) :
    (t.call e).core = t.core := by
  simp [Tracking.core, Tracking.call, Tracking.trajectory, List.count_append, List.count_cons, h]

theorem core_setPose (t : Tracking) (p : Option Mat) : (t.setPose p).core = t.core := rfl
theorem core_fillNull (t : Tracking) : t.fillNull.core = t.core := rfl
theorem core_setSlots (t : Tracking) (s : Nat → Option MapPointPtr) :
    (t.setSlots s).core = t.core := rfl

theorem core_CheckReplacedInLastFrame (t : Tracking) :
    (CheckReplacedInLastFrame t).core = t.core := by
  simp only [CheckReplacedInLastFrame, Tracking.core, Tracking.trajectory]

theorem core_poseOptimized (c : Collaborators) (t : Tracking) :
    (poseOptimized c t).core = t.core := by
  simp only [poseOptimized, Tracking.core, Tracking.trajectory]

theorem core_optimizeAndDiscard (c : Collaborators) (t : Tracking) :
    (optimizeAndDiscard c t).2.core = t.core := by
  rw [← core_poseOptimized c t]
  simp only [optimizeAndDiscard, Tracking.core, Tracking.trajectory]

theorem core_widenAndOptimize (c : Collaborators) (r : Nat) (t : Tracking) (n : Nat) :
    (widenAndOptimize c r t n).2.core = t.core := by
  simp only [widenAndOptimize]
  split_ifs <;> simp only [core_optimizeAndDiscard, core_fillNull, core_setSlots]

theorem core_TrackReferenceKeyFrame (c : Collaborators) (t : Tracking) :
    (TrackReferenceKeyFrame c t).2.core = t.core := by
  simp only [TrackReferenceKeyFrame]
  split_ifs <;>
    simp only [core_widenAndOptimize, referenceAligned, core_setPose, core_fillNull,
      core_setSlots]

theorem core_UpdateLastFrame (c : Collaborators) (t t0 : Tracking)
    (h : UpdateLastFrame c t = some t0) : t0.core = t.core := by
  unfold UpdateLastFrame at h
  split at h
  · cases h
    simp only [Tracking.core, Tracking.trajectory, Frame.SetPose]
  · cases h

theorem core_motionPrediction (c : Collaborators) (t : Tracking) :
    (motionPrediction c t).core = t.core := by
  simp only [motionPrediction]
  split <;> simp only [core_setPose]

theorem core_TrackWithMotionModel (c : Collaborators) (t : Tracking) (r : Bool × Tracking)
    (h : TrackWithMotionModel c t = some r) : r.2.core = t.core := by
  unfold TrackWithMotionModel at h
  cases hu : UpdateLastFrame c t with
  | none => simp [hu] at h
  | some t0 =>
    rw [hu] at h
    simp only at h
    rw [← core_UpdateLastFrame c t t0 hu]
    split_ifs at h <;> cases h <;>
      simp only [core_widenAndOptimize, motionAligned, core_motionPrediction, core_setPose,
        core_fillNull, core_setSlots]

theorem core_setLastReloc (t : Tracking) : (setLastReloc t).core = t.core := by
  simp only [setLastReloc, Tracking.core, Tracking.trajectory]

theorem core_relocalizationScan (c : Collaborators) (l : List KeyFramePtr) (t : Tracking) :
    (relocalizationScan c l t).2.core = t.core := by
  induction l generalizing t with
  | nil => rfl
  | cons kf rest ih =>
    simp only [relocalizationScan]
    split_ifs <;>
      simp only [ih, core_setLastReloc, core_poseOptimized, core_setPose, core_fillNull,
        core_setSlots]

theorem core_Relocalization (c : Collaborators) (t : Tracking) :
    (Relocalization c t).2.core = t.core :=
  core_relocalizationScan c _ t

theorem core_UpdateLocalKeyFrames (t : Tracking) : (UpdateLocalKeyFrames t).core = t.core := by
  simp only [UpdateLocalKeyFrames]
  split_ifs
  · simp only [core_setSlots]
  · split <;> simp only [Tracking.core, Tracking.trajectory, Tracking.setSlots]

theorem core_UpdateLocalPoints (t : Tracking) : (UpdateLocalPoints t).core = t.core := by
  simp only [UpdateLocalPoints, Tracking.core, Tracking.trajectory]

theorem core_UpdateLocalMap (t : Tracking) : (UpdateLocalMap t).core = t.core := by
  simp only [UpdateLocalMap, core_UpdateLocalPoints, core_UpdateLocalKeyFrames]
  simp only [Tracking.core, Tracking.trajectory]

theorem core_frustumStep (c : Collaborators) (s : Tracking × Nat) (p : MapPointPtr) :
    (frustumStep c s p).1.core = s.1.core := by
  simp only [frustumStep]
  split_ifs <;> simp only [Tracking.core, Tracking.trajectory]

theorem core_foldl_frustumStep (c : Collaborators) (l : List MapPointPtr) (s : Tracking × Nat) :
    (l.foldl (frustumStep c) s).1.core = s.1.core :=
  foldl_keeps (fun s : Tracking × Nat => s.1.core) _ (core_frustumStep c) l s

theorem core_SearchLocalPoints (c : Collaborators) (t : Tracking) :
    (SearchLocalPoints c t).core = t.core := by
  simp only [SearchLocalPoints]
  split_ifs <;>
    simp only [core_setSlots, core_foldl_frustumStep] <;>
    simp only [Tracking.core, Tracking.trajectory, Tracking.setSlots]

theorem core_localMapOptimized (c : Collaborators) (t : Tracking) :
    (localMapOptimized c t).core = t.core := by
  simp only [localMapOptimized, core_poseOptimized, core_SearchLocalPoints, core_UpdateLocalMap]

theorem core_TrackLocalMap (c : Collaborators) (t : Tracking) :
    (TrackLocalMap c t).2.core = t.core := by
  rw [← core_localMapOptimized c t]
  simp only [TrackLocalMap]
  split_ifs <;> simp only [Tracking.core, Tracking.trajectory]

theorem NeedNewKeyFrame_suppressed (c : Collaborators) (t : Tracking)
    (hs : c.isStopped t = false) (hr : c.stopRequested t = false)
    (h : KeyframePolicy.suppressed t = true) : NeedNewKeyFrame c t = some (false, t) := by
  have h0 : (decide (t.mCurrentFrame.mnId < t.mnLastRelocFrameId + t.mMaxFrames)
      && decide (t.mpMap.KeyFramesInMap > t.mMaxFrames)) = true := h
  unfold NeedNewKeyFrame
  simp only [hs, hr, Bool.or_self, Bool.false_eq_true, if_false, h0, if_true]

theorem NeedNewKeyFrame_null (c : Collaborators) (t : Tracking)
    (hs : c.isStopped t = false) (hr : c.stopRequested t = false)
    (h : KeyframePolicy.suppressed t = false) (hk : t.mpReferenceKF = none) :
    NeedNewKeyFrame c t = none := by
  have h0 : (decide (t.mCurrentFrame.mnId < t.mnLastRelocFrameId + t.mMaxFrames)
      && decide (t.mpMap.KeyFramesInMap > t.mMaxFrames)) = false := h
  unfold NeedNewKeyFrame
  simp only [hs, hr, Bool.or_self, Bool.false_eq_true, if_false, h0, hk]

theorem NeedNewKeyFrame_state (c : Collaborators) (t : Tracking) (r : Bool × Tracking)
    (h : NeedNewKeyFrame c t = some r) : r.2 = t ∨ r.2 = t.call Call.InterruptBA := by
  cases hs : c.isStopped t with
  | true => rw [NeedNewKeyFrame_stopped c t (Or.inl hs)] at h; cases h; exact Or.inl rfl
  | false =>
    cases hr : c.stopRequested t with
    | true => rw [NeedNewKeyFrame_stopped c t (Or.inr hr)] at h; cases h; exact Or.inl rfl
    | false =>
      cases hsup : KeyframePolicy.suppressed t with
      | true => rw [NeedNewKeyFrame_suppressed c t hs hr hsup] at h; cases h; exact Or.inl rfl
      | false =>
        cases hk : t.mpReferenceKF with
        | none => rw [NeedNewKeyFrame_null c t hs hr hsup hk] at h; cases h
        | some pRef =>
          rw [NeedNewKeyFrame_running c t pRef hs hr hk] at h
          cases h
          simp only
          split_ifs
          · exact Or.inr rfl
          · exact Or.inl rfl

theorem core_NeedNewKeyFrame (c : Collaborators) (t : Tracking) (r : Bool × Tracking)
    (h : NeedNewKeyFrame c t = some r) : r.2.core = t.core := by
  rcases NeedNewKeyFrame_state c t r h with h | h
  · rw [h]
  · rw [h]; exact core_call _ _ (by decide)

theorem core_createMapPoint (c : Collaborators) (pKF : KeyFramePtr) (t : Tracking) (i : Nat) :
    (createMapPoint c pKF t i).core = t.core := by
  simp only [createMapPoint, Tracking.core, Tracking.trajectory]

theorem core_createClosePoints (c : Collaborators) (pKF : KeyFramePtr) (l : List (Int × Nat))
    (n : Nat) (t : Tracking) : (createClosePoints c pKF l n t).core = t.core := by
  induction l generalizing n t with
  | nil => rfl
  | cons zi rest ih =>
    simp only [createClosePoints]
    split_ifs <;> simp only [ih, core_createMapPoint]

theorem core_newKeyFrame (t : Tracking) : (newKeyFrame t).core = t.core := by
  simp only [newKeyFrame, Tracking.core, Tracking.trajectory]

theorem core_setLastKeyFrame (t : Tracking) (k : KeyFramePtr) :
    (setLastKeyFrame t k).core = t.core := by
  simp only [setLastKeyFrame, Tracking.core, Tracking.trajectory]

theorem core_CreateNewKeyFrame (c : Collaborators) (t : Tracking) :
    (CreateNewKeyFrame c t).core = t.core := by
  simp only [CreateNewKeyFrame]
  split_ifs <;>
    simp only [core_setLastKeyFrame, core_call _ _ (show Call.SetNotStop false ≠ Call.SystemReset
        by decide), core_call _ _ (show Call.SetNotStop true ≠ Call.SystemReset by decide),
      core_call _ (Call.InsertKeyFrame _) (by simp), core_createClosePoints, core_newKeyFrame]

/-! ### The reference key frame stays -/

theorem refKF_optimizeAndDiscard (c : Collaborators) (t : Tracking) :
    (optimizeAndDiscard c t).2.mpReferenceKF = t.mpReferenceKF := by
  simp only [optimizeAndDiscard, poseOptimized]

theorem refKF_widenAndOptimize (c : Collaborators) (r : Nat) (t : Tracking) (n : Nat) :
    (widenAndOptimize c r t n).2.mpReferenceKF = t.mpReferenceKF := by
  simp only [widenAndOptimize]
  split_ifs <;>
    simp only [refKF_optimizeAndDiscard, Tracking.setPose, Tracking.fillNull, Tracking.setSlots]

theorem refKF_TrackReferenceKeyFrame (c : Collaborators) (t : Tracking) :
    (TrackReferenceKeyFrame c t).2.mpReferenceKF = t.mpReferenceKF := by
  simp only [TrackReferenceKeyFrame]
  split_ifs <;>
    simp only [refKF_widenAndOptimize, referenceAligned, Tracking.setPose, Tracking.fillNull,
      Tracking.setSlots]

theorem refKF_motionPrediction (c : Collaborators) (t : Tracking) :
    (motionPrediction c t).mpReferenceKF = t.mpReferenceKF := by
  simp only [motionPrediction]
  split <;> simp only [Tracking.setPose]

theorem refKF_TrackWithMotionModel (c : Collaborators) (t : Tracking) (r : Bool × Tracking)
    (h : TrackWithMotionModel c t = some r) : r.2.mpReferenceKF = t.mpReferenceKF := by
  unfold TrackWithMotionModel at h
  cases hu : UpdateLastFrame c t with
  | none => simp [hu] at h
  | some t0 =>
    have h0 : t0.mpReferenceKF = t.mpReferenceKF := by
      unfold UpdateLastFrame at hu
      split at hu
      · cases hu; rfl
      · cases hu
    rw [hu] at h
    simp only at h
    rw [← h0]
    split_ifs at h <;> cases h
    · show ((motionPrediction c t0).setPose _).mpReferenceKF = _
      simp only [Tracking.setPose, refKF_motionPrediction]
    · rw [refKF_widenAndOptimize]
      simp only [motionAligned, Tracking.setPose, Tracking.fillNull, Tracking.setSlots,
        refKF_motionPrediction]

theorem refKF_relocalizationScan (c : Collaborators) (l : List KeyFramePtr) (t : Tracking) :
    (relocalizationScan c l t).2.mpReferenceKF = t.mpReferenceKF := by
  induction l generalizing t with
  | nil => rfl
  | cons kf rest ih =>
    simp only [relocalizationScan]
    split_ifs <;>
      simp only [ih, setLastReloc, poseOptimized, Tracking.setPose, Tracking.fillNull,
        Tracking.setSlots]

theorem refKF_UpdateLocalKeyFrames (t : Tracking) (h : t.mpReferenceKF.isSome = true) :
    (UpdateLocalKeyFrames t).mpReferenceKF.isSome = true := by
  simp only [UpdateLocalKeyFrames]
  split_ifs
  · exact h
  · split
    · exact h
    · rfl

theorem refKF_foldl_frustumStep (c : Collaborators) (l : List MapPointPtr) (s : Tracking × Nat) :
    (l.foldl (frustumStep c) s).1.mpReferenceKF = s.1.mpReferenceKF := by
  refine foldl_keeps (fun s : Tracking × Nat => s.1.mpReferenceKF) _ ?_ l s
  intro s p
  simp only [frustumStep]
  split_ifs <;> rfl

theorem refKF_SearchLocalPoints (c : Collaborators) (t : Tracking) :
    (SearchLocalPoints c t).mpReferenceKF = t.mpReferenceKF := by
  simp only [SearchLocalPoints]
  split_ifs <;> simp only [Tracking.setSlots, refKF_foldl_frustumStep]

theorem refKF_TrackLocalMap (c : Collaborators) (t : Tracking)
    (h : t.mpReferenceKF.isSome = true) :
    (TrackLocalMap c t).2.mpReferenceKF.isSome = true := by
  have h1 : (localMapOptimized c t).mpReferenceKF.isSome = true := by
    simp only [localMapOptimized, poseOptimized, refKF_SearchLocalPoints, UpdateLocalMap,
      UpdateLocalPoints]
    exact refKF_UpdateLocalKeyFrames _ h
  simp only [TrackLocalMap]
  split_ifs <;> exact h1

theorem refKF_createClosePoints (c : Collaborators) (pKF : KeyFramePtr) (l : List (Int × Nat))
    (n : Nat) (t : Tracking) :
    (createClosePoints c pKF l n t).mpReferenceKF = t.mpReferenceKF := by
  induction l generalizing n t with
  | nil => rfl
  | cons zi rest ih =>
    simp only [createClosePoints]
    split_ifs <;> simp only [ih, createMapPoint]

theorem refKF_CreateNewKeyFrame (c : Collaborators) (t : Tracking)
    (h : t.mpReferenceKF.isSome = true) :
    (CreateNewKeyFrame c t).mpReferenceKF.isSome = true := by
  simp only [CreateNewKeyFrame]
  split_ifs
  · exact h
  · simp only [setLastKeyFrame, newKeyFrame, Tracking.call, refKF_createClosePoints,
      Option.isSome_some]
  · simp only [setLastKeyFrame, newKeyFrame, Tracking.call, Option.isSome_some]

theorem NeedNewKeyFrame_isSome (c : Collaborators) (t : Tracking)
    (h : t.mpReferenceKF.isSome = true) : (NeedNewKeyFrame c t).isSome = true := by
  cases hs : c.isStopped t with
  | true => rw [NeedNewKeyFrame_stopped c t (Or.inl hs)]; rfl
  | false =>
    cases hr : c.stopRequested t with
    | true => rw [NeedNewKeyFrame_stopped c t (Or.inr hr)]; rfl
    | false =>
      cases hk : t.mpReferenceKF with
      | none => rw [hk] at h; cases h
      | some pRef => rw [NeedNewKeyFrame_running c t pRef hs hr hk]; rfl

/-! ### The block of a good tick -/

theorem core_updateMotionModel (c : Collaborators) (t : Tracking) :
    (updateMotionModel c t).core = t.core := by
  simp only [updateMotionModel]
  rw [core_call _ _ (by simp)]
  simp only [Tracking.core, Tracking.trajectory]

theorem core_cleanVOMatches (t : Tracking) : (cleanVOMatches t).core = t.core := by
  simp only [cleanVOMatches, Tracking.core, Tracking.trajectory]

theorem core_dropOutliers (t : Tracking) : (dropOutliers t).core = t.core := by
  simp only [dropOutliers, Tracking.core, Tracking.trajectory]

theorem core_goodTick (c : Collaborators) (t t' : Tracking) (h : goodTick c t = some t') :
    t'.core = t.core := by
  unfold goodTick at h
  split at h
  · cases h
  · rename_i r hr
    cases h
    have hc := core_NeedNewKeyFrame c _ r hr
    rw [core_cleanVOMatches, core_updateMotionModel] at hc
    rw [core_dropOutliers]
    split_ifs
    · rw [core_CreateNewKeyFrame, hc]
    · exact hc

theorem goodTick_defined (c : Collaborators) (t : Tracking)
    (h : t.mpReferenceKF.isSome = true) :
    ∃ t', goodTick c t = some t' ∧ t'.mpReferenceKF.isSome = true := by
  have h1 : (cleanVOMatches (updateMotionModel c t)).mpReferenceKF.isSome = true := h
  have hn := NeedNewKeyFrame_isSome c _ h1
  obtain ⟨r, hr⟩ := Option.isSome_iff_exists.mp hn
  have hk : r.2.mpReferenceKF.isSome = true := by
    rcases NeedNewKeyFrame_state c _ r hr with h2 | h2 <;> rw [h2] <;> exact h1
  have hg : goodTick c t
      = some (dropOutliers (if r.1 = true then CreateNewKeyFrame c r.2 else r.2)) := by
    simp only [goodTick, hr]
  refine ⟨_, hg, ?_⟩
  show (if r.1 = true then CreateNewKeyFrame c r.2 else r.2).mpReferenceKF.isSome = true
  split_ifs
  · exact refKF_CreateNewKeyFrame c _ hk
  · exact hk

/-! ### The coarse pose estimate -/

theorem core_initialPoseEstimation (c : Collaborators) (t : Tracking) (r0 : Bool × Tracking)
    (h : initialPoseEstimation c t = some r0) :
    r0.2.core = t.core ∧ r0.2.mpReferenceKF = t.mpReferenceKF := by
  simp only [initialPoseEstimation] at h
  split_ifs at h
  · cases h
    exact ⟨by rw [core_TrackReferenceKeyFrame, core_CheckReplacedInLastFrame],
      by rw [refKF_TrackReferenceKeyFrame]; rfl⟩
  · split at h
    · cases h
    · rename_i m hm
      have h1 := core_TrackWithMotionModel c _ m hm
      have h2 := refKF_TrackWithMotionModel c _ m hm
      rw [core_CheckReplacedInLastFrame] at h1
      split_ifs at h <;> cases h
      · exact ⟨by rw [core_TrackReferenceKeyFrame, h1],
          by rw [refKF_TrackReferenceKeyFrame, h2]; rfl⟩
      · exact ⟨h1, by rw [h2]; rfl⟩
  · cases h
    exact ⟨core_Relocalization c t, refKF_relocalizationScan c _ t⟩

theorem TrackWithMotionModel_defined (c : Collaborators) (t : Tracking)
    (h1 : t.mLastFrame.mpReferenceKF.isSome = true) (h2 : t.mlRelativeFramePoses ≠ []) :
    ∃ m, TrackWithMotionModel c t = some m := by
  obtain ⟨pRef, hp⟩ := Option.isSome_iff_exists.mp h1
  obtain ⟨Tlr, hT⟩ : ∃ x, t.mlRelativeFramePoses.getLast? = some x := by
    cases hl : t.mlRelativeFramePoses.getLast? with
    | none => exact absurd (List.getLast?_eq_none_iff.mp hl) h2
    | some x => exact ⟨x, rfl⟩
  have hu : UpdateLastFrame c t = some { t with
      mLastFrame := t.mLastFrame.SetPose (c.mul Tlr (t.keyFrames pRef).Tcw) } := by
    simp only [UpdateLastFrame, hp, hT]
  simp only [TrackWithMotionModel, hu]
  split_ifs <;> exact ⟨_, rfl⟩

theorem initialPoseEstimation_defined (c : Collaborators) (t : Tracking)
    (h1 : t.mState = eTrackingState.OK → t.mVelocity.isSome = true →
      t.mnLastRelocFrameId + 2 ≤ t.mCurrentFrame.mnId →
      t.mLastFrame.mpReferenceKF.isSome = true)
    (h2 : t.mlRelativeFramePoses ≠ []) :
    ∃ r0, initialPoseEstimation c t = some r0 := by
  simp only [initialPoseEstimation]
  split_ifs with hs hv
  · exact ⟨_, rfl⟩
  · simp only [Bool.or_eq_true, decide_eq_true_eq, not_or, CheckReplacedInLastFrame] at hv
    have hv1 : t.mVelocity.isSome = true := by
      cases hm : t.mVelocity with
      | none => rw [hm] at hv; exact absurd rfl hv.1
      | some v => rfl
    obtain ⟨m, hm⟩ := TrackWithMotionModel_defined c (CheckReplacedInLastFrame t)
      (h1 hs hv1 (by omega)) h2
    rw [hm]
    simp only
    split_ifs <;> exact ⟨_, rfl⟩
  · exact ⟨_, rfl⟩

/-! ### `trackFrame`, `storeFramePose` -/

theorem core_setFrameReference (t : Tracking) : (setFrameReference t).core = t.core := by
  simp only [setFrameReference, Tracking.core, Tracking.trajectory]

theorem core_setState (t : Tracking) (b : Bool) :
    (setState t b).core = (if b then eTrackingState.OK else eTrackingState.LOST,
      t.trajectory, t.calls.count Call.SystemReset, t.mSensor, t.mLastFrame.mnId) := by
  simp only [setState]
  rw [core_call _ _ (by decide)]
  simp only [Tracking.core, Tracking.trajectory]

theorem core_eq (t : Tracking) :
    t.core = (t.mState, t.trajectory, t.calls.count Call.SystemReset, t.mSensor,
      t.mLastFrame.mnId) := rfl

theorem trackFrame_core (c : Collaborators) (t t2 : Tracking) (r0 : Bool × Tracking)
    (h0 : initialPoseEstimation c t = some r0) (h : trackFrame c t = some t2) :
    t2.core = (if r0.1 && (TrackLocalMap c (setFrameReference r0.2)).1
        then eTrackingState.OK else eTrackingState.LOST,
      t.trajectory, t.calls.count Call.SystemReset, t.mSensor, t.mLastFrame.mnId) := by
  have hc := (core_initialPoseEstimation c t r0 h0).1
  have hc2 := (core_TrackLocalMap c (setFrameReference r0.2)).trans
    ((core_setFrameReference r0.2).trans hc)
  simp only [core_eq, Prod.mk.injEq] at hc hc2
  simp only [trackFrame, h0] at h
  split_ifs at h with h1 h2
  · rw [core_goodTick c _ _ h, core_setState]
    simp [h1, h2, hc2]
  · cases h
    rw [core_setState]
    simp [h1, h2, hc2]
  · cases h
    rw [core_setState]
    have hc3 := (core_setFrameReference r0.2)
    simp only [core_eq, Prod.mk.injEq] at hc3
    simp [h1, hc, hc3]

theorem trackFrame_defined (c : Collaborators) (t : Tracking)
    (hk : t.mpReferenceKF.isSome = true)
    (h1 : t.mState = eTrackingState.OK → t.mVelocity.isSome = true →
      t.mnLastRelocFrameId + 2 ≤ t.mCurrentFrame.mnId →
      t.mLastFrame.mpReferenceKF.isSome = true)
    (h2 : t.mlRelativeFramePoses ≠ []) :
    ∃ t2, trackFrame c t = some t2 ∧ t2.mpReferenceKF.isSome = true := by
  obtain ⟨r0, h0⟩ := initialPoseEstimation_defined c t h1 h2
  have hr := (core_initialPoseEstimation c t r0 h0).2
  have hk0 : (setFrameReference r0.2).mpReferenceKF.isSome = true := by
    show r0.2.mpReferenceKF.isSome = true
    rw [hr]; exact hk
  have hk1 := refKF_TrackLocalMap c _ hk0
  simp only [trackFrame, h0]
  split_ifs
  · exact goodTick_defined c _ hk1
  · exact ⟨_, rfl, hk1⟩
  · exact ⟨_, rfl, hk0⟩

theorem storeFramePose_core (c : Collaborators) (t t' : Tracking)
    (h : storeFramePose c t = some t') :
    t'.mState = t.mState ∧ t'.calls = t.calls ∧ t'.mLastFrame = t.mLastFrame
      ∧ t'.mCurrentFrame = t.mCurrentFrame ∧ t'.mpMap = t.mpMap
      ∧ t'.mlRelativeFramePoses.length = t.mlRelativeFramePoses.length + 1
      ∧ t'.mlpReferences.length = t.mlpReferences.length + 1
      ∧ t'.mlFrameTimes.length = t.mlFrameTimes.length + 1
      ∧ t'.mlbLost.length = t.mlbLost.length + 1 := by
  unfold storeFramePose at h
  split at h
  · split at h
    · cases h
    · cases h; simp
  · split at h
    · cases h; simp
    · cases h

theorem storeFramePose_defined (c : Collaborators) (t : Tracking)
    (hk : t.mCurrentFrame.mpReferenceKF.isSome = true)
    (h1 : t.mlRelativeFramePoses ≠ []) (h2 : t.mlpReferences ≠ []) (h3 : t.mlFrameTimes ≠ []) :
    ∃ t', storeFramePose c t = some t' := by
  obtain ⟨pRef, hp⟩ := Option.isSome_iff_exists.mp hk
  unfold storeFramePose
  cases hT : t.mCurrentFrame.mTcw with
  | some Tcw => simp only [hp]; exact ⟨_, rfl⟩
  | none =>
    cases ha : t.mlRelativeFramePoses.getLast? with
    | none => exact absurd (List.getLast?_eq_none_iff.mp ha) h1
    | some a =>
      cases hb : t.mlpReferences.getLast? with
      | none => exact absurd (List.getLast?_eq_none_iff.mp hb) h2
      | some b =>
        cases hd : t.mlFrameTimes.getLast? with
        | none => exact absurd (List.getLast?_eq_none_iff.mp hd) h3
        | some d => exact ⟨_, rfl⟩



/-! ## `Track` (C3, C4) -/

theorem trackEnter_initialized (t : Tracking)
    (hs : t.mState = eTrackingState.OK ∨ t.mState = eTrackingState.LOST) :
    trackEnter t = { t with mLastProcessedState := t.mState } := by
  rcases hs with h | h <;> simp [trackEnter, h]

theorem Track_initialized (c : Collaborators) (t t2 : Tracking)
    (hs : t.mState = eTrackingState.OK ∨ t.mState = eTrackingState.LOST)
    (h2 : trackFrame c (trackEnter t) = some t2) :
    Track c t = if t2.mState = eTrackingState.LOST ∧ t2.mpMap.KeyFramesInMap ≤ 5 then
          some (t2.call Call.SystemReset)
        else storeFramePose c (commitLastFrame t2) := by
  have h : (trackEnter t).mState ≠ eTrackingState.NOT_INITIALIZED := by
    rw [trackEnter_initialized t hs]
    rcases hs with h | h <;> simp [h]
  simp only [Track, h, if_false, h2]

theorem ready_trackEnter (t : Tracking)
    (hs : t.mState = eTrackingState.OK ∨ t.mState = eTrackingState.LOST) (hr : t.ready) :
    (trackEnter t).ready := by
  rw [trackEnter_initialized t hs]; exact hr

/-- The tick of an initialized, ready tracker is defined; `t2` is the state at
the reset test. -/
theorem Track_defined (c : Collaborators) (t : Tracking)
    (hs : t.mState = eTrackingState.OK ∨ t.mState = eTrackingState.LOST) (hr : t.ready) :
    ∃ r0 t2 t', initialPoseEstimation c (trackEnter t) = some r0
      ∧ trackFrame c (trackEnter t) = some t2 ∧ Track c t = some t'
      ∧ (t2.mState = eTrackingState.LOST ∧ t2.mpMap.KeyFramesInMap ≤ 5 →
          t' = t2.call Call.SystemReset)
      ∧ (¬(t2.mState = eTrackingState.LOST ∧ t2.mpMap.KeyFramesInMap ≤ 5) →
          storeFramePose c (commitLastFrame t2) = some t') := by
  obtain ⟨hk, h2, h3, h4, h1⟩ := ready_trackEnter t hs hr
  obtain ⟨r0, h0⟩ := initialPoseEstimation_defined c _ h1 h2
  obtain ⟨t2, ht2, hk2⟩ := trackFrame_defined c _ hk h1 h2
  have hc := trackFrame_core c _ t2 r0 h0 ht2
  simp only [core_eq, Prod.mk.injEq, Tracking.trajectory] at hc
  obtain ⟨-, ⟨e1, e2, e3, -⟩, -⟩ := hc
  rw [Track_initialized c t t2 hs ht2]
  by_cases hreset : t2.mState = eTrackingState.LOST ∧ t2.mpMap.KeyFramesInMap ≤ 5
  · exact ⟨r0, t2, _, h0, ht2, by rw [if_pos hreset], fun _ => rfl, fun h => absurd hreset h⟩
  · have hk3 : (commitLastFrame t2).mCurrentFrame.mpReferenceKF.isSome = true := by
      simp only [commitLastFrame]
      split
      · exact hk2
      · rfl
    obtain ⟨t', ht'⟩ := storeFramePose_defined c (commitLastFrame t2) hk3
      (by show t2.mlRelativeFramePoses ≠ []; rw [e1]; exact h2)
      (by show t2.mlpReferences ≠ []; rw [e2]; exact h3)
      (by show t2.mlFrameTimes ≠ []; rw [e3]; exact h4)
    exact ⟨r0, t2, t', h0, ht2, by rw [if_neg hreset]; exact ht', fun h => absurd h hreset,
      fun _ => ht'⟩

theorem trackFrame_some (c : Collaborators) (t t2 : Tracking) (h : trackFrame c t = some t2) :
    ∃ r0, initialPoseEstimation c t = some r0 := by
  cases h0 : initialPoseEstimation c t with
  | none => simp [trackFrame, h0] at h
  | some r0 => exact ⟨r0, rfl⟩

/-- A defined tick of an initialized tracker: `r0` is the coarse estimate and
`t2` the state at the reset test. -/
theorem Track_some (c : Collaborators) (t t' : Tracking)
    (hs : t.mState = eTrackingState.OK ∨ t.mState = eTrackingState.LOST)
    (h : Track c t = some t') :
    ∃ r0 t2, initialPoseEstimation c (trackEnter t) = some r0
      ∧ trackFrame c (trackEnter t) = some t2
      ∧ (t2.mState = eTrackingState.LOST ∧ t2.mpMap.KeyFramesInMap ≤ 5 →
          t' = t2.call Call.SystemReset)
      ∧ (¬(t2.mState = eTrackingState.LOST ∧ t2.mpMap.KeyFramesInMap ≤ 5) →
          storeFramePose c (commitLastFrame t2) = some t') := by
  cases h2 : trackFrame c (trackEnter t) with
  | none =>
    have hne : (trackEnter t).mState ≠ eTrackingState.NOT_INITIALIZED := by
      rw [trackEnter_initialized t hs]
      rcases hs with h | h <;> simp [h]
    simp [Track, hne, h2] at h
  | some t2 =>
    obtain ⟨r0, h0⟩ := trackFrame_some c _ t2 h2
    rw [Track_initialized c t t2 hs h2] at h
    refine ⟨r0, t2, h0, rfl, fun hx => ?_, fun hx => ?_⟩
    · rw [if_pos hx] at h
      exact (Option.some.inj h).symm
    · rw [if_neg hx] at h
      exact h

theorem Track_state_iff (c : Collaborators) (t t' : Tracking)
    (hs : t.mState = eTrackingState.OK ∨ t.mState = eTrackingState.LOST)
    (h : Track c t = some t') :
    ∃ r0, initialPoseEstimation c (trackEnter t) = some r0
      ∧ (t'.mState = eTrackingState.OK ↔
          (r0.1 = true ∧ (TrackLocalMap c (setFrameReference r0.2)).1 = true))
      ∧ (t'.mState = eTrackingState.LOST ↔
          ¬(r0.1 = true ∧ (TrackLocalMap c (setFrameReference r0.2)).1 = true))
      ∧ (r0.1 = false →
          trackFrame c (trackEnter t) = some (setState (setFrameReference r0.2) false))
      ∧ (t.mState = eTrackingState.LOST → r0 = Relocalization c (trackEnter t))
      ∧ (t.mState = eTrackingState.OK →
          (t.mVelocity = none ∨ t.mCurrentFrame.mnId < t.mnLastRelocFrameId + 2) →
          r0 = TrackReferenceKeyFrame c (CheckReplacedInLastFrame (trackEnter t)))
      ∧ (t.mState = eTrackingState.OK →
          ¬(t.mVelocity = none ∨ t.mCurrentFrame.mnId < t.mnLastRelocFrameId + 2) →
          ∃ m, TrackWithMotionModel c (CheckReplacedInLastFrame (trackEnter t)) = some m
            ∧ (m.1 = true → r0 = m)
            ∧ (m.1 = false → r0 = TrackReferenceKeyFrame c m.2)) := by
  obtain ⟨r0, t2, h0, ht2, hreset, hstore⟩ := Track_some c t t' hs h
  have hc := trackFrame_core c _ t2 r0 h0 ht2
  simp only [core_eq, Prod.mk.injEq] at hc
  have hst : t'.mState = t2.mState := by
    by_cases hx : t2.mState = eTrackingState.LOST ∧ t2.mpMap.KeyFramesInMap ≤ 5
    · rw [hreset hx]; rfl
    · exact (storeFramePose_core c _ _ (hstore hx)).1
  have hE := trackEnter_initialized t hs
  refine ⟨r0, h0, ?_, ?_, ?_, ?_, ?_, ?_⟩
  · rw [hst, hc.1]
    cases r0.1 <;> cases (TrackLocalMap c (setFrameReference r0.2)).1 <;> simp
  · rw [hst, hc.1]
    cases r0.1 <;> cases (TrackLocalMap c (setFrameReference r0.2)).1 <;> simp
  · intro hf
    simp only [trackFrame, h0, hf]
    rfl
  · intro hl
    have : (trackEnter t).mState ≠ eTrackingState.OK := by rw [hE]; simp [hl]
    simp only [initialPoseEstimation, this, if_false] at h0
    exact (Option.some.inj h0).symm
  · intro ho hv
    have h1 : (trackEnter t).mState = eTrackingState.OK := by rw [hE]; exact ho
    have h2 : ((CheckReplacedInLastFrame (trackEnter t)).mVelocity.isNone
        || decide ((CheckReplacedInLastFrame (trackEnter t)).mCurrentFrame.mnId
          < (CheckReplacedInLastFrame (trackEnter t)).mnLastRelocFrameId + 2)) = true := by
      rw [hE]
      simp only [CheckReplacedInLastFrame, Bool.or_eq_true, decide_eq_true_eq,
        Option.isNone_iff_eq_none]
      exact hv
    simp only [initialPoseEstimation, h1, if_true, h2] at h0
    exact (Option.some.inj h0).symm
  · intro ho hv
    have h1 : (trackEnter t).mState = eTrackingState.OK := by rw [hE]; exact ho
    have h2 : ¬ ((CheckReplacedInLastFrame (trackEnter t)).mVelocity.isNone
        || decide ((CheckReplacedInLastFrame (trackEnter t)).mCurrentFrame.mnId
          < (CheckReplacedInLastFrame (trackEnter t)).mnLastRelocFrameId + 2)) = true := by
      rw [hE]
      simp only [CheckReplacedInLastFrame, Bool.or_eq_true, decide_eq_true_eq,
        Option.isNone_iff_eq_none]
      exact hv
    simp only [initialPoseEstimation, h1, if_true, h2, if_false] at h0
    cases hm : TrackWithMotionModel c (CheckReplacedInLastFrame (trackEnter t)) with
    | none => rw [hm] at h0; cases h0
    | some m =>
      rw [hm] at h0
      simp only at h0
      refine ⟨m, rfl, ?_, ?_⟩
      · intro h; simp only [h, Bool.not_true, Bool.false_eq_true, if_false] at h0
        exact (Option.some.inj h0).symm
      · intro h; simp only [h, Bool.not_false, if_true] at h0
        exact (Option.some.inj h0).symm

theorem trajectory_Reset (t : Tracking) :
    (Reset t).trajectory = ([], [], [], []) ∧ (Reset t).mState = eTrackingState.NO_IMAGES_YET := by
  simp only [Reset]
  split_ifs <;> simp [Tracking.trajectory, Tracking.call]

theorem core_stereoMapPointStep (c : Collaborators) (k : KeyFramePtr) (t : Tracking) (i : Nat) :
    (stereoMapPointStep c k t i).core = t.core := by
  simp only [stereoMapPointStep]
  split_ifs
  · exact core_createMapPoint c k t i
  · rfl

theorem core_stereoKeyFrame (c : Collaborators) (t : Tracking) :
    (stereoKeyFrame c t).core = t.core := by
  simp only [stereoKeyFrame, Tracking.core, Tracking.trajectory]

theorem core_foldl_stereoMapPointStep (c : Collaborators) (k : KeyFramePtr) (l : List Nat)
    (t : Tracking) : (l.foldl (stereoMapPointStep c k) t).core = t.core :=
  foldl_keeps Tracking.core _ (core_stereoMapPointStep c k) l t

theorem stereoFinish_effect (t : Tracking) (k : KeyFramePtr) :
    (stereoFinish t k).trajectory = t.trajectory
      ∧ (stereoFinish t k).mState = eTrackingState.OK := by
  simp only [stereoFinish, Tracking.trajectory, Tracking.call, and_self]

theorem StereoInitialization_effect (c : Collaborators) (t : Tracking) :
    (StereoInitialization c t).trajectory = t.trajectory
      ∧ ((StereoInitialization c t).mState = eTrackingState.OK
        ∨ (StereoInitialization c t).mState = t.mState) := by
  simp only [StereoInitialization]
  split_ifs
  · refine ⟨?_, Or.inl (stereoFinish_effect _ _).2⟩
    have h := (core_foldl_stereoMapPointStep c t.nKeyFrames (List.range t.mCurrentFrame.N)
      (stereoKeyFrame c t)).trans (core_stereoKeyFrame c t)
    simp only [core_eq, Prod.mk.injEq] at h
    rw [(stereoFinish_effect _ _).1, h.2.1]
  · exact ⟨rfl, Or.inr rfl⟩

theorem core_createInitialMapPoint (a b : KeyFramePtr) (t : Tracking) (im : Nat × Int) :
    (createInitialMapPoint a b t im).core = t.core := by
  simp only [createInitialMapPoint]
  split_ifs <;> simp only [Tracking.core, Tracking.trajectory]

theorem core_applyUpdateConnections (c : Collaborators) (t : Tracking) (k : KeyFramePtr) :
    (applyUpdateConnections c t k).core = t.core := by
  simp only [applyUpdateConnections, Tracking.core, Tracking.trajectory]

theorem core_applyGlobalBundleAdjustemnt (c : Collaborators) (t : Tracking) :
    (applyGlobalBundleAdjustemnt c t).core = t.core := by
  simp only [applyGlobalBundleAdjustemnt, Tracking.core, Tracking.trajectory]

theorem core_initialKeyFrames (t : Tracking) : (initialKeyFrames t).core = t.core := by
  simp only [initialKeyFrames, Tracking.core, Tracking.trajectory]

theorem core_foldl_createInitialMapPoint (a b : KeyFramePtr) (l : List (Nat × Int))
    (t : Tracking) : (l.foldl (createInitialMapPoint a b) t).core = t.core :=
  foldl_keeps Tracking.core _ (core_createInitialMapPoint a b) l t

theorem core_initialMap (c : Collaborators) (t : Tracking) : (initialMap c t).core = t.core := by
  simp only [initialMap, core_applyGlobalBundleAdjustemnt, core_applyUpdateConnections,
    core_foldl_createInitialMapPoint, core_initialKeyFrames]

theorem trajectory_scaleInitialMap (c : Collaborators) (t : Tracking) (a b : KeyFramePtr)
    (z : Int) : (scaleInitialMap c t a b z).trajectory = t.trajectory := by
  simp only [scaleInitialMap, Tracking.trajectory]

theorem finishInitialMap_effect (t : Tracking) (a b : KeyFramePtr) :
    (finishInitialMap t a b).trajectory = t.trajectory
      ∧ (finishInitialMap t a b).mState = eTrackingState.OK := by
  simp only [finishInitialMap, Tracking.trajectory, Tracking.call, and_self]

theorem CreateInitialMapMonocular_effect (c : Collaborators) (t : Tracking) :
    ((CreateInitialMapMonocular c t).trajectory = ([], [], [], [])
        ∧ (CreateInitialMapMonocular c t).mState = eTrackingState.NO_IMAGES_YET)
      ∨ ((CreateInitialMapMonocular c t).trajectory = t.trajectory
        ∧ (CreateInitialMapMonocular c t).mState = eTrackingState.OK) := by
  simp only [CreateInitialMapMonocular]
  split_ifs
  · exact Or.inl (trajectory_Reset _)
  · refine Or.inr ⟨?_, (finishInitialMap_effect _ _ _).2⟩
    have h := core_initialMap c t
    simp only [core_eq, Prod.mk.injEq] at h
    rw [(finishInitialMap_effect _ _ _).1, trajectory_scaleInitialMap, h.2.1]

theorem storeInitialization_effect (c : Collaborators) (t : Tracking)
    (init : Mat × (Nat → Mat) × (Nat → Bool)) :
    (storeInitialization c (storeInitialMatches c t) init).trajectory = t.trajectory := by
  simp only [storeInitialization, storeInitialMatches, Tracking.trajectory]

theorem MonocularInitialization_effect (c : Collaborators) (t : Tracking) :
    ((MonocularInitialization c t).trajectory = ([], [], [], [])
        ∧ (MonocularInitialization c t).mState = eTrackingState.NO_IMAGES_YET)
      ∨ ((MonocularInitialization c t).trajectory = t.trajectory
        ∧ ((MonocularInitialization c t).mState = eTrackingState.OK
          ∨ (MonocularInitialization c t).mState = t.mState)) := by
  unfold MonocularInitialization
  split
  · split_ifs
    · exact Or.inr ⟨rfl, Or.inr rfl⟩
    · exact Or.inr ⟨rfl, Or.inr rfl⟩
  · split_ifs
    · exact Or.inr ⟨rfl, Or.inr rfl⟩
    · exact Or.inr ⟨rfl, Or.inr rfl⟩
    · split
      · exact Or.inr ⟨rfl, Or.inr rfl⟩
      · rename_i init _
        rcases CreateInitialMapMonocular_effect c
          (storeInitialization c (storeInitialMatches c t) init) with h | h
        · exact Or.inl h
        · exact Or.inr ⟨h.1.trans (storeInitialization_effect c t init), Or.inl h.2⟩

/-- The statement that the four lists of the trajectory log have length `n`. -/
theorem Track_tick (c : Collaborators) (t t' : Tracking) (n : Nat)
    (hlen : t.mlRelativeFramePoses.length = n ∧ t.mlpReferences.length = n
      ∧ t.mlFrameTimes.length = n ∧ t.mlbLost.length = n)
    (hun : t.mState = eTrackingState.NO_IMAGES_YET ∨ t.mState = eTrackingState.NOT_INITIALIZED
      → n = 0)
    (h : Track c t = some t') :
    (t'.mlRelativeFramePoses.length = n + (if t'.ranToEnd then 1 else 0)
      ∧ t'.mlpReferences.length = n + (if t'.ranToEnd then 1 else 0)
      ∧ t'.mlFrameTimes.length = n + (if t'.ranToEnd then 1 else 0)
      ∧ t'.mlbLost.length = n + (if t'.ranToEnd then 1 else 0))
    ∧ (t'.mState = eTrackingState.NO_IMAGES_YET ∨ t'.mState = eTrackingState.NOT_INITIALIZED
      → n + (if t'.ranToEnd then 1 else 0) = 0) := by
  by_cases hs : t.mState = eTrackingState.OK ∨ t.mState = eTrackingState.LOST
  · -- an initialized system
    cases h2 : trackFrame c (trackEnter t) with
    | none =>
      have hne : (trackEnter t).mState ≠ eTrackingState.NOT_INITIALIZED := by
        rw [trackEnter_initialized t hs]
        rcases hs with h | h <;> simp [h]
      simp [Track, hne, h2] at h
    | some t2 =>
      rw [Track_initialized c t t2 hs h2] at h
      obtain ⟨r0, h0⟩ := trackFrame_some c _ t2 h2
      have hc := trackFrame_core c _ t2 r0 h0 h2
      simp only [core_eq, Prod.mk.injEq, Tracking.trajectory] at hc
      obtain ⟨hst, ⟨e1, e2, e3, e4⟩, -⟩ := hc
      rw [trackEnter_initialized t hs] at e1 e2 e3 e4
      simp only at e1 e2 e3 e4
      have hst2 : t2.mState = eTrackingState.OK ∨ t2.mState = eTrackingState.LOST := by
        rw [hst]; split_ifs
        · exact Or.inl rfl
        · exact Or.inr rfl
      split_ifs at h with hx
      · cases h
        have hr : (t2.call Call.SystemReset).ranToEnd = false := by
          simp [Tracking.ranToEnd, Tracking.call, hx.1]
          exact hx.2
        rw [hr]
        simp only [Tracking.call, Bool.false_eq_true, if_false, Nat.add_zero, e1, e2, e3, e4]
        refine ⟨hlen, ?_⟩
        intro hh
        rw [hx.1] at hh
        rcases hh with hh | hh <;> cases hh
      · obtain ⟨f1, -, -, -, f5, f6, f7, f8, f9⟩ := storeFramePose_core c _ _ h
        have f1' : t'.mState = t2.mState := f1
        have f5' : t'.mpMap = t2.mpMap := f5
        have hr : t'.ranToEnd = true := by
          simp only [Tracking.ranToEnd, f1', f5', Bool.or_eq_true, Bool.and_eq_true,
            decide_eq_true_eq]
          rcases hst2 with h1 | h1
          · exact Or.inl h1
          · refine Or.inr ⟨h1, ?_⟩
            by_contra hle
            exact hx ⟨h1, by omega⟩
        rw [hr]
        simp only [if_true]
        refine ⟨⟨?_, ?_, ?_, ?_⟩, ?_⟩
        · rw [f6]; show t2.mlRelativeFramePoses.length + 1 = _; rw [e1, hlen.1]
        · rw [f7]; show t2.mlpReferences.length + 1 = _; rw [e2, hlen.2.1]
        · rw [f8]; show t2.mlFrameTimes.length + 1 = _; rw [e3, hlen.2.2.1]
        · rw [f9]; show t2.mlbLost.length + 1 = _; rw [e4, hlen.2.2.2]
        · intro hh
          rw [f1'] at hh
          rcases hst2 with h1 | h1 <;> rw [h1] at hh <;> rcases hh with hh | hh <;> cases hh
  · -- not initialized
    have hs' : t.mState = eTrackingState.NO_IMAGES_YET
        ∨ t.mState = eTrackingState.NOT_INITIALIZED := by
      cases hm : t.mState <;> simp_all
    have hn : n = 0 := hun hs'
    subst hn
    have hE : (trackEnter t).mState = eTrackingState.NOT_INITIALIZED := by
      rcases hs' with h1 | h1 <;> simp [trackEnter, h1]
    have hET : (trackEnter t).trajectory = ([], [], [], []) := by
      obtain ⟨l1, l2, l3, l4⟩ := hlen
      simp only [trackEnter, Tracking.trajectory, Prod.mk.injEq]
      exact ⟨List.length_eq_zero.mp l1, List.length_eq_zero.mp l2, List.length_eq_zero.mp l3,
        List.length_eq_zero.mp l4⟩
    -- the state after the initialization attempt
    have key : ∀ s : Tracking,
        ((s.trajectory = ([], [], [], []) ∧ s.mState = eTrackingState.NO_IMAGES_YET)
          ∨ (s.trajectory = (trackEnter t).trajectory
            ∧ (s.mState = eTrackingState.OK ∨ s.mState = (trackEnter t).mState))) →
        (if (s.call Call.FrameDrawerUpdate).mState ≠ eTrackingState.OK
          then some (s.call Call.FrameDrawerUpdate)
          else storeFramePose c (s.call Call.FrameDrawerUpdate)) = some t' →
        (t'.mlRelativeFramePoses.length = 0 + (if t'.ranToEnd then 1 else 0)
          ∧ t'.mlpReferences.length = 0 + (if t'.ranToEnd then 1 else 0)
          ∧ t'.mlFrameTimes.length = 0 + (if t'.ranToEnd then 1 else 0)
          ∧ t'.mlbLost.length = 0 + (if t'.ranToEnd then 1 else 0))
        ∧ (t'.mState = eTrackingState.NO_IMAGES_YET
            ∨ t'.mState = eTrackingState.NOT_INITIALIZED
          → 0 + (if t'.ranToEnd then 1 else 0) = 0) := by
      intro s hs2 hres
      have htr : s.trajectory = ([], [], [], []) := by
        rcases hs2 with h1 | h1
        · exact h1.1
        · rw [h1.1, hET]
      have hstate : s.mState = eTrackingState.OK ∨ s.mState = eTrackingState.NO_IMAGES_YET
          ∨ s.mState = eTrackingState.NOT_INITIALIZED := by
        rcases hs2 with h1 | h1
        · exact Or.inr (Or.inl h1.2)
        · rcases h1.2 with h2 | h2
          · exact Or.inl h2
          · exact Or.inr (Or.inr (h2.trans hE))
      simp only [Tracking.trajectory, Prod.mk.injEq] at htr
      obtain ⟨l1, l2, l3, l4⟩ := htr
      have hcs : (s.call Call.FrameDrawerUpdate).mState = s.mState := rfl
      rw [hcs] at hres
      split_ifs at hres with hok
      · cases hres
        have hr : (s.call Call.FrameDrawerUpdate).ranToEnd = false := by
          simp only [Tracking.ranToEnd, hcs, Bool.or_eq_false_iff, Bool.and_eq_false_iff,
            decide_eq_false_iff_not]
          refine ⟨hok, Or.inl ?_⟩
          rcases hstate with h1 | h1 | h1 <;> rw [h1] <;> simp
        rw [hr]
        simp [Tracking.call, l1, l2, l3, l4]
      · have hok' : s.mState = eTrackingState.OK := by
          by_contra hh; exact hok hh
        obtain ⟨f1, -, -, -, -, f6, f7, f8, f9⟩ := storeFramePose_core c _ _ hres
        have f1' : t'.mState = eTrackingState.OK := f1.trans (hcs.trans hok')
        have hr : t'.ranToEnd = true := by simp [Tracking.ranToEnd, f1']
        rw [hr]
        simp only [if_true]
        refine ⟨⟨?_, ?_, ?_, ?_⟩, ?_⟩
        · rw [f6]; show s.mlRelativeFramePoses.length + 1 = _; rw [l1]; rfl
        · rw [f7]; show s.mlpReferences.length + 1 = _; rw [l2]; rfl
        · rw [f8]; show s.mlFrameTimes.length + 1 = _; rw [l3]; rfl
        · rw [f9]; show s.mlbLost.length + 1 = _; rw [l4]; rfl
        · intro hh
          rw [f1'] at hh
          rcases hh with hh | hh <;> cases hh
    simp only [Track, hE, if_true] at h
    by_cases hsens : (trackEnter t).mSensor = eSensor.RGBD
    · simp only [hsens, if_true] at h
      exact key _ (Or.inr (StereoInitialization_effect c (trackEnter t))) h
    · simp only [hsens, if_false] at h
      exact key _ (MonocularInitialization_effect c (trackEnter t)) h

theorem runTrack_lengths (c : Collaborators) (l : List Arrival) (t t' : Tracking) (k n : Nat)
    (hlen : t.mlRelativeFramePoses.length = k ∧ t.mlpReferences.length = k
      ∧ t.mlFrameTimes.length = k ∧ t.mlbLost.length = k)
    (hun : t.mState = eTrackingState.NO_IMAGES_YET ∨ t.mState = eTrackingState.NOT_INITIALIZED
      → k = 0)
    (h : runTrack c t l = some (t', n)) :
    t'.mlRelativeFramePoses.length = k + n ∧ t'.mlpReferences.length = k + n
      ∧ t'.mlFrameTimes.length = k + n ∧ t'.mlbLost.length = k + n := by
  induction l generalizing t k n with
  | nil =>
    simp only [runTrack, Option.some.injEq, Prod.mk.injEq] at h
    obtain ⟨rfl, rfl⟩ := h
    simpa using hlen
  | cons a rest ih =>
    simp only [runTrack] at h
    cases h1 : Track c (t.arrive a) with
    | none => simp [h1] at h
    | some t1 =>
      cases h2 : runTrack c t1 rest with
      | none => simp [h1, h2] at h
      | some r =>
        obtain ⟨r1, r2⟩ := r
        simp only [h1, h2, Option.some.injEq, Prod.mk.injEq] at h
        obtain ⟨rfl, rfl⟩ := h
        have hstep := Track_tick c (t.arrive a) t1 k hlen hun h1
        have := ih t1 (k + (if t1.ranToEnd then 1 else 0)) r2 hstep.1 hstep.2 h2
        simpa [Nat.add_assoc, Nat.add_comm r2] using this



/-! ## `TrackLocalMap` -/

theorem statisticsStep_obs (f : Frame) (s : (MapPointPtr → MapPoint) × Nat) (i : Nat)
    (p : MapPointPtr) :
    ((statisticsStep f s i).1 p).mObservations = (s.1 p).mObservations := by
  rcases hq : f.mvpMapPoints i with _ | q
  · simp only [statisticsStep, hq]
  · cases ho : f.mvbOutlier i with
    | true => simp [statisticsStep, hq, ho]
    | false =>
      by_cases hp : p = q
      · subst hp; simp [statisticsStep, hq, ho]
      · simp [statisticsStep, hq, ho, Function.update_noteq hp]

theorem statisticsStep_found (f : Frame) (s : (MapPointPtr → MapPoint) × Nat) (i : Nat)
    (p : MapPointPtr) :
    ((statisticsStep f s i).1 p).mnFound = (s.1 p).mnFound
      + (if (decide (f.mvpMapPoints i = some p) && !f.mvbOutlier i) = true then 1 else 0) := by
  rcases hq : f.mvpMapPoints i with _ | q
  · simp [statisticsStep, hq]
  · cases ho : f.mvbOutlier i with
    | true => simp [statisticsStep, hq, ho]
    | false =>
      by_cases hp : p = q
      · subst hp; simp [statisticsStep, hq, ho]
      · have hp' : ¬ q = p := fun h => hp h.symm
        simp [statisticsStep, hq, ho, Function.update_noteq hp, hp']

theorem statisticsStep_count (f : Frame) (s : (MapPointPtr → MapPoint) × Nat) (i : Nat) :
    (statisticsStep f s i).2 = s.2 + (if f.isMapInlierSlot s.1 i = true then 1 else 0) := by
  rcases hq : f.mvpMapPoints i with _ | q
  · simp [statisticsStep, Frame.isMapInlierSlot, hq]
  · cases ho : f.mvbOutlier i with
    | true => simp [statisticsStep, Frame.isMapInlierSlot, hq, ho]
    | false =>
      by_cases hO : (s.1 q).Observations > 0
      · simp [statisticsStep, Frame.isMapInlierSlot, hq, ho, hO]
      · simp [statisticsStep, Frame.isMapInlierSlot, hq, ho, hO]

theorem isMapInlierSlot_congr (f : Frame) (m1 m2 : MapPointPtr → MapPoint)
    (h : ∀ p, (m1 p).mObservations = (m2 p).mObservations) :
    f.isMapInlierSlot m1 = f.isMapInlierSlot m2 := by
  funext j
  simp only [Frame.isMapInlierSlot]
  split
  · rfl
  · simp only [MapPoint.Observations, h]

theorem statistics_fold (f : Frame) (l : List Nat) (s : (MapPointPtr → MapPoint) × Nat) :
    (∀ p, ((l.foldl (statisticsStep f) s).1 p).mObservations = (s.1 p).mObservations
      ∧ ((l.foldl (statisticsStep f) s).1 p).mnFound = (s.1 p).mnFound
          + (l.filter (fun i => decide (f.mvpMapPoints i = some p) && !f.mvbOutlier i)).length)
    ∧ (l.foldl (statisticsStep f) s).2 = s.2 + (l.filter (f.isMapInlierSlot s.1)).length := by
  induction l generalizing s with
  | nil => simp
  | cons i l ih =>
    rw [List.foldl_cons]
    obtain ⟨ih1, ih2⟩ := ih (statisticsStep f s i)
    have hfun := isMapInlierSlot_congr f _ _ (statisticsStep_obs f s i)
    constructor
    · intro p
      obtain ⟨a, b⟩ := ih1 p
      refine ⟨a.trans (statisticsStep_obs f s i p), ?_⟩
      rw [b, statisticsStep_found, List.filter_cons]
      split_ifs <;> simp <;> omega
    · rw [ih2, hfun, statisticsStep_count, List.filter_cons]
      split_ifs <;> simp <;> omega

theorem frameIds_UpdateLocalKeyFrames (t : Tracking) :
    (UpdateLocalKeyFrames t).frameIds = t.frameIds := by
  simp only [UpdateLocalKeyFrames]
  split_ifs
  · simp only [Tracking.frameIds, Tracking.setSlots]
  · split <;> simp only [Tracking.frameIds, Tracking.setSlots]

theorem frameIds_UpdateLocalMap (t : Tracking) : (UpdateLocalMap t).frameIds = t.frameIds := by
  have h : (UpdateLocalMap t).frameIds
      = (UpdateLocalKeyFrames
          { t with mpMap := t.mpMap.SetReferenceMapPoints t.mvpLocalMapPoints }).frameIds := by
    simp only [UpdateLocalMap, UpdateLocalPoints, Tracking.frameIds]
  rw [h, frameIds_UpdateLocalKeyFrames]
  simp only [Tracking.frameIds]

theorem frameIds_foldl_frustumStep (c : Collaborators) (l : List MapPointPtr)
    (s : Tracking × Nat) : (l.foldl (frustumStep c) s).1.frameIds = s.1.frameIds := by
  refine foldl_keeps (fun s : Tracking × Nat => s.1.frameIds) _ ?_ l s
  intro s p
  simp only [frustumStep]
  split_ifs <;> simp only [Tracking.frameIds]

theorem frameIds_SearchLocalPoints (c : Collaborators) (t : Tracking) :
    (SearchLocalPoints c t).frameIds = t.frameIds := by
  have h1 : ∀ (u : Tracking) (sl : Nat → Option MapPointPtr),
      (u.setSlots sl).frameIds = u.frameIds := fun _ _ => rfl
  simp only [SearchLocalPoints]
  split_ifs <;> simp only [h1, frameIds_foldl_frustumStep] <;>
    simp only [Tracking.frameIds, Tracking.setSlots]

theorem frameIds_localMapOptimized (c : Collaborators) (t : Tracking) :
    (localMapOptimized c t).frameIds = t.frameIds := by
  rw [← frameIds_UpdateLocalMap t, ← frameIds_SearchLocalPoints c (UpdateLocalMap t)]
  simp only [localMapOptimized, poseOptimized, Tracking.frameIds]

theorem TrackLocalMap_eq (c : Collaborators) (t : Tracking) :
    (TrackLocalMap c t).2 = { localMapOptimized c t with
        mapPoints := ((List.range (localMapOptimized c t).mCurrentFrame.N).foldl
          (statisticsStep (localMapOptimized c t).mCurrentFrame)
          ((localMapOptimized c t).mapPoints, 0)).1
        mnMatchesInliers := ((List.range (localMapOptimized c t).mCurrentFrame.N).foldl
          (statisticsStep (localMapOptimized c t).mCurrentFrame)
          ((localMapOptimized c t).mapPoints, 0)).2 }
      ∧ ((TrackLocalMap c t).1 = true ↔
        ¬ ((localMapOptimized c t).mCurrentFrame.mnId
              < (localMapOptimized c t).mnLastRelocFrameId + (localMapOptimized c t).mMaxFrames
            ∧ (TrackLocalMap c t).2.mnMatchesInliers < 50)
          ∧ ¬ (TrackLocalMap c t).2.mnMatchesInliers < 30) := by
  simp only [TrackLocalMap]
  split_ifs with h1 h2
  · simp only [Bool.and_eq_true, decide_eq_true_eq] at h1
    simp [h1]
  · simp only [Bool.and_eq_true, decide_eq_true_eq] at h1
    simp [h2]
  · simp only [Bool.and_eq_true, decide_eq_true_eq] at h1
    simp only [true_and, eq_self_iff_true, true_iff]
    exact ⟨h1, h2⟩



/-! ## Coarse tracking: the match-count rule -/

theorem setInsert_fresh (l : List Nat) (n : Nat) (h : ∀ p ∈ l, p < n) :
    setInsert l n = l ++ [n] := by
  have : n ∉ l := fun hn => Nat.lt_irrefl n (h n hn)
  simp [setInsert, this]

/-- What stays through the loop of `StereoInitialization`. -/
theorem stereoMapPointStep_keeps (c : Collaborators) (k : KeyFramePtr) (s : Tracking) (i : Nat) :
    (stereoMapPointStep c k s i).mCurrentFrame.mvDepth = s.mCurrentFrame.mvDepth
    ∧ (stereoMapPointStep c k s i).mCurrentFrame.N = s.mCurrentFrame.N
    ∧ (stereoMapPointStep c k s i).mCurrentFrame.mTcw = s.mCurrentFrame.mTcw
    ∧ (stereoMapPointStep c k s i).mCurrentFrame.mnId = s.mCurrentFrame.mnId
    ∧ (stereoMapPointStep c k s i).mpMap.mspKeyFrames = s.mpMap.mspKeyFrames
    ∧ (stereoMapPointStep c k s i).calls = s.calls
    ∧ (stereoMapPointStep c k s i).nKeyFrames = s.nKeyFrames := by
  simp only [stereoMapPointStep]
  split_ifs
  · simp [createMapPoint, Map.AddMapPoint]
  · simp

theorem stereo_fold (c : Collaborators) (k : KeyFramePtr) (l : List Nat) (s : Tracking)
    (hs : ∀ p ∈ s.mpMap.mspMapPoints, p < s.nMapPoints) :
    (l.foldl (stereoMapPointStep c k) s).nMapPoints = s.nMapPoints
        + (l.filter (fun i => decide (0 < s.mCurrentFrame.mvDepth i))).length
    ∧ (l.foldl (stereoMapPointStep c k) s).mpMap.mspMapPoints.length
        = s.mpMap.mspMapPoints.length
          + (l.filter (fun i => decide (0 < s.mCurrentFrame.mvDepth i))).length
    ∧ (∀ i, i ∈ l → 0 < s.mCurrentFrame.mvDepth i →
        ((l.foldl (stereoMapPointStep c k) s).mCurrentFrame.mvpMapPoints i).isSome = true)
    ∧ (∀ i, (i ∉ l ∨ ¬ 0 < s.mCurrentFrame.mvDepth i) →
        (l.foldl (stereoMapPointStep c k) s).mCurrentFrame.mvpMapPoints i
          = s.mCurrentFrame.mvpMapPoints i)
    ∧ (∀ i, (s.mCurrentFrame.mvpMapPoints i).isSome = true →
        ((l.foldl (stereoMapPointStep c k) s).mCurrentFrame.mvpMapPoints i).isSome = true)
    ∧ (l.foldl (stereoMapPointStep c k) s).mCurrentFrame.mvDepth = s.mCurrentFrame.mvDepth
    ∧ (l.foldl (stereoMapPointStep c k) s).mCurrentFrame.N = s.mCurrentFrame.N
    ∧ (l.foldl (stereoMapPointStep c k) s).mCurrentFrame.mTcw = s.mCurrentFrame.mTcw
    ∧ (l.foldl (stereoMapPointStep c k) s).mCurrentFrame.mnId = s.mCurrentFrame.mnId
    ∧ (l.foldl (stereoMapPointStep c k) s).mpMap.mspKeyFrames = s.mpMap.mspKeyFrames
    ∧ (l.foldl (stereoMapPointStep c k) s).calls = s.calls
    ∧ (l.foldl (stereoMapPointStep c k) s).nKeyFrames = s.nKeyFrames := by
  induction l generalizing s with
  | nil => simp
  | cons j l ih =>
    rw [List.foldl_cons]
    obtain ⟨k1, k2, k3, k4, k5, k6, k7⟩ := stereoMapPointStep_keeps c k s j
    by_cases hj : 0 < s.mCurrentFrame.mvDepth j
    · -- a map point is created for key point `j`
      have hstep : stereoMapPointStep c k s j = createMapPoint c k s j := by
        simp [stereoMapPointStep, hj]
      have hs1 : ∀ p ∈ (stereoMapPointStep c k s j).mpMap.mspMapPoints,
          p < (stereoMapPointStep c k s j).nMapPoints := by
        rw [hstep]
        intro p hp
        have hp' : p ∈ s.mpMap.mspMapPoints ++ [s.nMapPoints] := by
          rw [← setInsert_fresh _ _ hs]; exact hp
        show p < s.nMapPoints + 1
        rcases List.mem_append.mp hp' with h | h
        · exact Nat.lt_succ_of_lt (hs p h)
        · rw [List.mem_singleton.mp h]; exact Nat.lt_succ_self _
      obtain ⟨a1, a2, a3, a4, a5, a6, a7, a8, a9, a10, a11, a12⟩ :=
        ih (stereoMapPointStep c k s j) hs1
      have n1 : (stereoMapPointStep c k s j).nMapPoints = s.nMapPoints + 1 := by
        rw [hstep]; rfl
      have n2 : (stereoMapPointStep c k s j).mpMap.mspMapPoints.length
          = s.mpMap.mspMapPoints.length + 1 := by
        rw [hstep]
        simp [createMapPoint, Map.AddMapPoint, setInsert_fresh _ _ hs]
      have sj : ((stereoMapPointStep c k s j).mCurrentFrame.mvpMapPoints j).isSome = true := by
        rw [hstep]; simp [createMapPoint]
      have so : ∀ i, i ≠ j → (stereoMapPointStep c k s j).mCurrentFrame.mvpMapPoints i
          = s.mCurrentFrame.mvpMapPoints i := by
        intro i hi
        rw [hstep]; simp [createMapPoint, Function.update_noteq hi]
      refine ⟨?_, ?_, ?_, ?_, ?_, a6.trans k1, a7.trans k2, a8.trans k3, a9.trans k4,
        a10.trans k5, a11.trans k6, a12.trans k7⟩
      · rw [a1, n1, k1, List.filter_cons]; simp [hj]; omega
      · rw [a2, n2, k1, List.filter_cons]; simp [hj]; omega
      · intro i hi hd
        by_cases hij : i = j
        · subst hij; exact a5 i sj
        · rcases List.mem_cons.mp hi with h | h
          · exact absurd h hij
          · exact a3 i h (by rw [k1]; exact hd)
      · intro i hi
        have hij : i ≠ j := by
          rintro rfl
          rcases hi with h | h
          · exact h (List.mem_cons_self _ _)
          · exact h hj
        rw [a4 i (by
          rcases hi with h | h
          · exact Or.inl (fun hm => h (List.mem_cons_of_mem _ hm))
          · exact Or.inr (by rw [k1]; exact h)), so i hij]
      · intro i hi
        apply a5
        by_cases hij : i = j
        · subst hij; exact sj
        · rw [so i hij]; exact hi
    · -- nothing is done for key point `j`
      have hstep : stereoMapPointStep c k s j = s := by
        simp [stereoMapPointStep, hj]
      rw [hstep]
      obtain ⟨a1, a2, a3, a4, a5, a6, a7, a8, a9, a10, a11, a12⟩ := ih s hs
      refine ⟨?_, ?_, ?_, ?_, a5, a6, a7, a8, a9, a10, a11, a12⟩
      · rw [a1, List.filter_cons]; simp [hj]
      · rw [a2, List.filter_cons]; simp [hj]
      · intro i hi hd
        rcases List.mem_cons.mp hi with h | h
        · subst h; exact absurd hd hj
        · exact a3 i h hd
      · intro i hi
        by_cases hd : 0 < s.mCurrentFrame.mvDepth i
        · apply a4 i
          rcases hi with h | h
          · exact Or.inl (fun hm => h (List.mem_cons_of_mem _ hm))
          · exact absurd hd h
        · exact a4 i (Or.inr hd)

theorem stereoFinish_fields (t : Tracking) (k : KeyFramePtr) :
    (stereoFinish t k).mCurrentFrame.mTcw = t.mCurrentFrame.mTcw
    ∧ (stereoFinish t k).mpMap.mspKeyFrames = t.mpMap.mspKeyFrames
    ∧ (stereoFinish t k).nKeyFrames = t.nKeyFrames
    ∧ (stereoFinish t k).calls = t.calls
        ++ [Call.InsertKeyFrame k, Call.SetCurrentCameraPose t.mCurrentFrame.mTcw]
    ∧ (stereoFinish t k).nMapPoints = t.nMapPoints
    ∧ (stereoFinish t k).mpMap.mspMapPoints = t.mpMap.mspMapPoints
    ∧ (stereoFinish t k).mCurrentFrame.mvpMapPoints = t.mCurrentFrame.mvpMapPoints
    ∧ (stereoFinish t k).mState = eTrackingState.OK := by
  simp [stereoFinish, Tracking.call, Map.SetReferenceMapPoints]


/-! ## `CreateInitialMapMonocular`, `CreateNewKeyFrame` -/

theorem CreateInitialMapMonocular_rejected (c : Collaborators) (t : Tracking)
    (h : c.ComputeSceneMedianDepth (initialMap c t) t.nKeyFrames 2 < 0
        ∨ c.TrackedMapPoints (initialMap c t) (t.nKeyFrames + 1) 1 < 100) :
    CreateInitialMapMonocular c t = Reset (initialMap c t) := by
  have : (decide (c.ComputeSceneMedianDepth (initialMap c t) t.nKeyFrames 2 < 0)
      || decide (c.TrackedMapPoints (initialMap c t) (t.nKeyFrames + 1) 1 < 100)) = true := by
    simpa using h
  simp only [CreateInitialMapMonocular, this, if_true]

theorem CreateInitialMapMonocular_completed (c : Collaborators) (t : Tracking)
    (h1 : 0 ≤ c.ComputeSceneMedianDepth (initialMap c t) t.nKeyFrames 2)
    (h2 : 100 ≤ c.TrackedMapPoints (initialMap c t) (t.nKeyFrames + 1) 1) :
    CreateInitialMapMonocular c t
      = finishInitialMap
          (scaleInitialMap c (initialMap c t) t.nKeyFrames (t.nKeyFrames + 1)
            (c.ComputeSceneMedianDepth (initialMap c t) t.nKeyFrames 2))
          t.nKeyFrames (t.nKeyFrames + 1) := by
  have : ¬ (decide (c.ComputeSceneMedianDepth (initialMap c t) t.nKeyFrames 2 < 0)
      || decide (c.TrackedMapPoints (initialMap c t) (t.nKeyFrames + 1) 1 < 100)) = true := by
    simp only [Bool.or_eq_true, decide_eq_true_eq]
    omega
  simp only [CreateInitialMapMonocular, this, if_false, Bool.false_eq_true]

theorem calls_createClosePoints (c : Collaborators) (pKF : KeyFramePtr) (l : List (Int × Nat))
    (n : Nat) (t : Tracking) : (createClosePoints c pKF l n t).calls = t.calls := by
  induction l generalizing n t with
  | nil => rfl
  | cons zi rest ih =>
    simp only [createClosePoints]
    split_ifs <;> simp only [ih, createMapPoint]

theorem nKeyFrames_createClosePoints (c : Collaborators) (pKF : KeyFramePtr)
    (l : List (Int × Nat)) (n : Nat) (t : Tracking) :
    (createClosePoints c pKF l n t).nKeyFrames = t.nKeyFrames := by
  induction l generalizing n t with
  | nil => rfl
  | cons zi rest ih =>
    simp only [createClosePoints]
    split_ifs <;> simp only [ih, createMapPoint]

theorem frameId_createClosePoints (c : Collaborators) (pKF : KeyFramePtr)
    (l : List (Int × Nat)) (n : Nat) (t : Tracking) :
    (createClosePoints c pKF l n t).mCurrentFrame.mnId = t.mCurrentFrame.mnId := by
  induction l generalizing n t with
  | nil => rfl
  | cons zi rest ih =>
    simp only [createClosePoints]
    split_ifs <;> simp only [ih, createMapPoint]

theorem frameRef_createClosePoints (c : Collaborators) (pKF : KeyFramePtr)
    (l : List (Int × Nat)) (n : Nat) (t : Tracking) :
    (createClosePoints c pKF l n t).mCurrentFrame.mpReferenceKF
      = t.mCurrentFrame.mpReferenceKF := by
  induction l generalizing n t with
  | nil => rfl
  | cons zi rest ih =>
    simp only [createClosePoints]
    split_ifs <;> simp only [ih, createMapPoint]


/-! ## `Relocalization` -/

theorem relocalizationScan_cons (c : Collaborators) (kf : KeyFramePtr) (rest : List KeyFramePtr)
    (t : Tracking) :
    relocalizationScan c (kf :: rest) t
      = if passesRelocalization c t kf = true
        then (true, setLastReloc (poseOptimized c (relocalizationMatched c t kf)))
        else relocalizationScan c rest (relocalizationRejected c t kf) := by
  have e1 : ((t.setPose (t.keyFrames kf).Tcw).setPose
      (c.ComputePoseKF (t.setPose (t.keyFrames kf).Tcw) (some kf) true).2).fillNull.threshold_
      = t.threshold_ := rfl
  have e2 : ((t.setPose (t.keyFrames kf).Tcw).setPose
      (c.ComputePoseKF (t.setPose (t.keyFrames kf).Tcw) (some kf) true).2).fillNull.mSensor
      = t.mSensor := rfl
  simp only [relocalizationScan, passesRelocalization, relocalizationRejected,
    relocalizationMatched, relocalizationSearch, relocalizationAligned, relocalizationAlignment,
    e1, e2]
  cases h1 : (c.ComputePoseKF (t.setPose (t.keyFrames kf).Tcw) (some kf) true).1
  · simp
  · by_cases h2 : (c.SearchByProjectionKF
        ((t.setPose (t.keyFrames kf).Tcw).setPose
          (c.ComputePoseKF (t.setPose (t.keyFrames kf).Tcw) (some kf) true).2).fillNull 75
        (some kf) t.threshold_ (decide (t.mSensor = eSensor.MONOCULAR))).1 < 20
    · have h2' : ¬ 20 ≤ (c.SearchByProjectionKF
        ((t.setPose (t.keyFrames kf).Tcw).setPose
          (c.ComputePoseKF (t.setPose (t.keyFrames kf).Tcw) (some kf) true).2).fillNull 75
        (some kf) t.threshold_ (decide (t.mSensor = eSensor.MONOCULAR))).1 := by omega
      simp [h2, h2']
    · have h2' : 20 ≤ (c.SearchByProjectionKF
        ((t.setPose (t.keyFrames kf).Tcw).setPose
          (c.ComputePoseKF (t.setPose (t.keyFrames kf).Tcw) (some kf) true).2).fillNull 75
        (some kf) t.threshold_ (decide (t.mSensor = eSensor.MONOCULAR))).1 := by omega
      simp only [h2, h2', if_false, Bool.not_true, Bool.false_eq_true, Bool.true_and,
        decide_True, ge_iff_le, decide_eq_true_eq]
      split_ifs with h3 h4 h4
      · omega
      · rfl
      · rfl
      · omega

theorem relocalizationScan_rejected (c : Collaborators) (l : List KeyFramePtr) (t : Tracking)
    (h : allRejected c t l = true) :
    relocalizationScan c l t = (false, l.foldl (relocalizationRejected c) t) := by
  induction l generalizing t with
  | nil => rfl
  | cons kf rest ih =>
    simp only [allRejected, Bool.and_eq_true, Bool.not_eq_true'] at h
    rw [relocalizationScan_cons, if_neg (by simp [h.1]), ih _ h.2]
    rfl

theorem relocalizationScan_passed (c : Collaborators) (pre : List KeyFramePtr) (kf : KeyFramePtr)
    (post : List KeyFramePtr) (t : Tracking) (h1 : allRejected c t pre = true)
    (h2 : passesRelocalization c (pre.foldl (relocalizationRejected c) t) kf = true) :
    relocalizationScan c (pre ++ kf :: post) t
      = (true, setLastReloc (poseOptimized c
          (relocalizationMatched c (pre.foldl (relocalizationRejected c) t) kf))) := by
  induction pre generalizing t with
  | nil =>
    simp only [List.foldl_nil] at h2
    simp only [List.nil_append, List.foldl_nil]
    rw [relocalizationScan_cons, if_pos h2]
  | cons k rest ih =>
    simp only [allRejected, Bool.and_eq_true, Bool.not_eq_true'] at h1
    simp only [List.foldl_cons] at h2
    simp only [List.cons_append, List.foldl_cons]
    rw [relocalizationScan_cons, if_neg (by simp [h1.1]), ih _ h1.2 h2]

theorem allRejected_or_passes (c : Collaborators) (l : List KeyFramePtr) (t : Tracking) :
    allRejected c t l = true
      ∨ ∃ pre kf post, l = pre ++ kf :: post ∧ allRejected c t pre = true
          ∧ passesRelocalization c (pre.foldl (relocalizationRejected c) t) kf = true := by
  induction l generalizing t with
  | nil => exact Or.inl rfl
  | cons k rest ih =>
    cases hp : passesRelocalization c t k with
    | true => exact Or.inr ⟨[], k, rest, rfl, rfl, hp⟩
    | false =>
      rcases ih (relocalizationRejected c t k) with h | ⟨pre, kf, post, e, h1, h2⟩
      · exact Or.inl (by simp [allRejected, hp, h])
      · exact Or.inr ⟨k :: pre, kf, post, by rw [e]; rfl, by simp [allRejected, hp, h1], h2⟩

theorem relocalizationRejected_ids (c : Collaborators) (t : Tracking) (kf : KeyFramePtr) :
    (relocalizationRejected c t kf).mnLastRelocFrameId = t.mnLastRelocFrameId
      ∧ (relocalizationRejected c t kf).mCurrentFrame.mnId = t.mCurrentFrame.mnId := by
  simp only [relocalizationRejected]
  split_ifs <;> exact ⟨rfl, rfl⟩

theorem relocalizationRejected_fold_ids (c : Collaborators) (l : List KeyFramePtr)
    (t : Tracking) :
    (l.foldl (relocalizationRejected c) t).mnLastRelocFrameId = t.mnLastRelocFrameId
      ∧ (l.foldl (relocalizationRejected c) t).mCurrentFrame.mnId = t.mCurrentFrame.mnId := by
  induction l generalizing t with
  | nil => exact ⟨rfl, rfl⟩
  | cons k rest ih =>
    rw [List.foldl_cons]
    exact ⟨(ih _).1.trans (relocalizationRejected_ids c t k).1,
      (ih _).2.trans (relocalizationRejected_ids c t k).2⟩

/-! ## Outlier slots after a good tick -/

theorem dropOutlierStep_fold (l : List Nat) (f : Frame) :
    (l.foldl dropOutlierStep f).N = f.N
    ∧ (l.foldl dropOutlierStep f).mvbOutlier = f.mvbOutlier
    ∧ (∀ i, (l.foldl dropOutlierStep f).mvpMapPoints i
        = if i ∈ l ∧ f.isOutlierSlot i = true then none else f.mvpMapPoints i) := by
  induction l generalizing f with
  | nil => simp
  | cons j l ih =>
    rw [List.foldl_cons]
    by_cases hj : ((f.mvpMapPoints j).isSome && f.mvbOutlier j) = true
    · have e : dropOutlierStep f j
          = { f with mvpMapPoints := Function.update f.mvpMapPoints j none } := by
        simp only [dropOutlierStep, hj, if_true]
      rw [e]
      obtain ⟨a1, a2, a3⟩ := ih { f with mvpMapPoints := Function.update f.mvpMapPoints j none }
      refine ⟨a1, a2, fun i => ?_⟩
      rw [a3 i]
      by_cases hij : i = j
      · subst hij
        simp [Frame.isOutlierSlot, hj]
      · simp [Frame.isOutlierSlot, Function.update_noteq hij, hij]
    · have e : dropOutlierStep f j = f := by
        simp only [dropOutlierStep, hj, if_false, Bool.false_eq_true]
      rw [e]
      obtain ⟨a1, a2, a3⟩ := ih f
      refine ⟨a1, a2, fun i => ?_⟩
      rw [a3 i]
      by_cases hij : i = j
      · subst hij
        simp [Frame.isOutlierSlot, hj]
      · simp [hij]

theorem dropOutliers_clean (t : Tracking) (i : Nat) (hi : i < (dropOutliers t).mCurrentFrame.N) :
    (dropOutliers t).mCurrentFrame.isOutlierSlot i = false := by
  obtain ⟨a1, a2, a3⟩ := dropOutlierStep_fold (List.range t.mCurrentFrame.N) t.mCurrentFrame
  have hi' : i < t.mCurrentFrame.N := by
    have : (dropOutliers t).mCurrentFrame.N = t.mCurrentFrame.N := a1
    omega
  have e : (dropOutliers t).mCurrentFrame
      = (List.range t.mCurrentFrame.N).foldl dropOutlierStep t.mCurrentFrame := rfl
  rw [e]
  simp only [Frame.isOutlierSlot]
  rw [a2, a3 i]
  by_cases h : t.mCurrentFrame.isOutlierSlot i = true
  · simp [h, List.mem_range.mpr hi']
  · simp only [h, and_false, if_false, Bool.false_eq_true]
    exact Bool.eq_false_iff.mpr h

theorem goodTick_clean (c : Collaborators) (t t' : Tracking) (h : goodTick c t = some t')
    (i : Nat) (hi : i < t'.mCurrentFrame.N) : t'.mCurrentFrame.isOutlierSlot i = false := by
  unfold goodTick at h
  split at h
  · cases h
  · cases h
    exact dropOutliers_clean _ i hi

theorem isOutlierSlot_commitLastFrame (t : Tracking) (i : Nat) :
    (commitLastFrame t).mCurrentFrame.isOutlierSlot i = t.mCurrentFrame.isOutlierSlot i
      ∧ (commitLastFrame t).mCurrentFrame.N = t.mCurrentFrame.N := ⟨rfl, rfl⟩

theorem trackFrame_clean (c : Collaborators) (t t2 : Tracking)
    (h : trackFrame c t = some t2) (hok : t2.mState = eTrackingState.OK)
    (i : Nat) (hi : i < t2.mCurrentFrame.N) : t2.mCurrentFrame.isOutlierSlot i = false := by
  unfold trackFrame at h
  split at h
  · cases h
  · split_ifs at h
    · exact goodTick_clean c _ t2 h i hi
    · cases h
      simp [setState, Tracking.call] at hok
    · cases h
      simp [setState, Tracking.call] at hok

/-! ## `UpdateLocalPoints` -/

theorem localPointStep_fold (id : Nat) (bad : MapPointPtr → Bool)
    (slots : Nat → Option MapPointPtr) (l : List Nat)
    (s : List MapPointPtr × (MapPointPtr → MapPoint))
    (h1 : ∀ p, (s.2 p).mbBad = bad p)
    (h2 : ∀ p, (s.2 p).mnTrackReferenceForFrame = id ↔ p ∈ s.1)
    (h3 : s.1.Nodup) :
    (∀ p, ((l.foldl (localPointStep id slots) s).2 p).mbBad = bad p)
    ∧ (∀ p, ((l.foldl (localPointStep id slots) s).2 p).mnTrackReferenceForFrame = id
        ↔ p ∈ (l.foldl (localPointStep id slots) s).1)
    ∧ (l.foldl (localPointStep id slots) s).1.Nodup
    ∧ (∀ p, p ∈ (l.foldl (localPointStep id slots) s).1
        ↔ p ∈ s.1 ∨ (bad p = false ∧ ∃ i, i ∈ l ∧ slots i = some p)) := by
  induction l generalizing s with
  | nil => exact ⟨h1, h2, h3, fun p => by simp⟩
  | cons j l ih =>
    rw [List.foldl_cons]
    rcases hq : slots j with _ | q
    · -- empty slot
      have e : localPointStep id slots s j = s := by simp [localPointStep, hq]
      rw [e]
      obtain ⟨a1, a2, a3, a4⟩ := ih s h1 h2 h3
      refine ⟨a1, a2, a3, fun p => ?_⟩
      rw [a4 p]
      constructor
      · rintro (h | ⟨hb, i, hi, hs⟩)
        · exact Or.inl h
        · exact Or.inr ⟨hb, i, List.mem_cons_of_mem _ hi, hs⟩
      · rintro (h | ⟨hb, i, hi, hs⟩)
        · exact Or.inl h
        · rcases List.mem_cons.mp hi with rfl | hi
          · rw [hq] at hs; cases hs
          · exact Or.inr ⟨hb, i, hi, hs⟩
    · by_cases ht : (s.2 q).mnTrackReferenceForFrame = id
      · -- already tagged for this frame
        have e : localPointStep id slots s j = s := by simp [localPointStep, hq, ht]
        rw [e]
        obtain ⟨a1, a2, a3, a4⟩ := ih s h1 h2 h3
        refine ⟨a1, a2, a3, fun p => ?_⟩
        rw [a4 p]
        constructor
        · rintro (h | ⟨hb, i, hi, hs⟩)
          · exact Or.inl h
          · exact Or.inr ⟨hb, i, List.mem_cons_of_mem _ hi, hs⟩
        · rintro (h | ⟨hb, i, hi, hs⟩)
          · exact Or.inl h
          · rcases List.mem_cons.mp hi with rfl | hi
            · have hpq : q = p := by rw [hq] at hs; exact Option.some.inj hs
              exact Or.inl (hpq ▸ (h2 q).mp ht)
            · exact Or.inr ⟨hb, i, hi, hs⟩
      · by_cases hb : (s.2 q).mbBad = true
        · -- a bad map point is skipped
          have e : localPointStep id slots s j = s := by simp [localPointStep, hq, ht, hb]
          rw [e]
          obtain ⟨a1, a2, a3, a4⟩ := ih s h1 h2 h3
          refine ⟨a1, a2, a3, fun p => ?_⟩
          rw [a4 p]
          constructor
          · rintro (h | ⟨hb', i, hi, hs⟩)
            · exact Or.inl h
            · exact Or.inr ⟨hb', i, List.mem_cons_of_mem _ hi, hs⟩
          · rintro (h | ⟨hb', i, hi, hs⟩)
            · exact Or.inl h
            · rcases List.mem_cons.mp hi with rfl | hi
              · have hpq : q = p := by rw [hq] at hs; exact Option.some.inj hs
                rw [← hpq, ← h1 q, hb] at hb'
                cases hb'
              · exact Or.inr ⟨hb', i, hi, hs⟩
        · -- the map point is appended and tagged
          have hb' : (s.2 q).mbBad = false := by simpa using hb
          have e : localPointStep id slots s j
              = (s.1 ++ [q], Function.update s.2 q
                  { s.2 q with mnTrackReferenceForFrame := id }) := by
            simp [localPointStep, hq, ht, hb']
          rw [e]
          have hq' : q ∉ s.1 := fun hm => ht ((h2 q).mpr hm)
          obtain ⟨a1, a2, a3, a4⟩ := ih
            (s.1 ++ [q], Function.update s.2 q { s.2 q with mnTrackReferenceForFrame := id })
            (fun p => by
              by_cases hp : p = q
              · subst hp; simp [h1 p]
              · simp [Function.update_noteq hp, h1 p])
            (fun p => by
              by_cases hp : p = q
              · subst hp; simp
              · simp [Function.update_noteq hp, h2 p, hp])
            (by
              rw [List.nodup_append]
              exact ⟨h3, List.nodup_singleton q, by
                intro a ha hb2
                rw [List.mem_singleton.mp hb2] at ha
                exact hq' ha⟩)
          refine ⟨a1, a2, a3, fun p => ?_⟩
          rw [a4 p]
          simp only [List.mem_append, List.mem_singleton]
          constructor
          · rintro ((h | h) | ⟨hb2, i, hi, hs⟩)
            · exact Or.inl h
            · subst h
              exact Or.inr ⟨by rw [← h1 p]; exact hb', j, List.mem_cons_self _ _, hq⟩
            · exact Or.inr ⟨hb2, i, List.mem_cons_of_mem _ hi, hs⟩
          · rintro (h | ⟨hb2, i, hi, hs⟩)
            · exact Or.inl (Or.inl h)
            · rcases List.mem_cons.mp hi with rfl | hi
              · have hpq : q = p := by rw [hq] at hs; exact Option.some.inj hs
                exact Or.inl (Or.inr hpq.symm)
              · exact Or.inr ⟨hb2, i, hi, hs⟩

theorem localPoints_fold (id : Nat) (bad : MapPointPtr → Bool)
    (kfs : KeyFramePtr → KeyFrame) (l : List KeyFramePtr)
    (s : List MapPointPtr × (MapPointPtr → MapPoint))
    (h1 : ∀ p, (s.2 p).mbBad = bad p)
    (h2 : ∀ p, (s.2 p).mnTrackReferenceForFrame = id ↔ p ∈ s.1)
    (h3 : s.1.Nodup) :
    (∀ p, ((l.foldl (fun s pKF => (List.range (kfs pKF).N).foldl
        (localPointStep id (kfs pKF).mvpMapPoints) s) s).2 p).mbBad = bad p)
    ∧ (l.foldl (fun s pKF => (List.range (kfs pKF).N).foldl
        (localPointStep id (kfs pKF).mvpMapPoints) s) s).1.Nodup
    ∧ (∀ p, p ∈ (l.foldl (fun s pKF => (List.range (kfs pKF).N).foldl
        (localPointStep id (kfs pKF).mvpMapPoints) s) s).1
        ↔ p ∈ s.1 ∨ (bad p = false
            ∧ ∃ k, k ∈ l ∧ ∃ i, i < (kfs k).N ∧ (kfs k).mvpMapPoints i = some p)) := by
  induction l generalizing s with
  | nil => exact ⟨h1, h3, fun p => by simp⟩
  | cons k l ih =>
    rw [List.foldl_cons]
    obtain ⟨b1, b2, b3, b4⟩ := localPointStep_fold id bad (kfs k).mvpMapPoints
      (List.range (kfs k).N) s h1 h2 h3
    obtain ⟨a1, a3, a4⟩ := ih _ b1 b2 b3
    refine ⟨a1, a3, fun p => ?_⟩
    rw [a4 p, b4 p]
    constructor
    · rintro ((h | ⟨hb, i, hi, hs⟩) | ⟨hb, k', hk', i, hi, hs⟩)
      · exact Or.inl h
      · exact Or.inr ⟨hb, k, List.mem_cons_self _ _, i, List.mem_range.mp hi, hs⟩
      · exact Or.inr ⟨hb, k', List.mem_cons_of_mem _ hk', i, hi, hs⟩
    · rintro (h | ⟨hb, k', hk', i, hi, hs⟩)
      · exact Or.inl (Or.inl h)
      · rcases List.mem_cons.mp hk' with rfl | hk'
        · exact Or.inl (Or.inr ⟨hb, i, List.mem_range.mpr hi, hs⟩)
        · exact Or.inr ⟨hb, k', hk', i, hi, hs⟩

/-! ## `CheckReplacedInLastFrame` -/

theorem checkReplacedStep_fold (mapPoints : MapPointPtr → MapPoint) (l : List Nat)
    (hl : l.Nodup) (slots : Nat → Option MapPointPtr) (i : Nat) :
    (l.foldl (checkReplacedStep mapPoints) slots) i
      = if i ∈ l then
          match slots i with
          | none => none
          | some pMP =>
            match (mapPoints pMP).mpReplaced with
            | none => some pMP
            | some pRep => some pRep
        else slots i := by
  induction l generalizing slots with
  | nil => simp
  | cons j l ih =>
    rw [List.foldl_cons, ih (List.nodup_cons.mp hl).2]
    have hj : j ∉ l := (List.nodup_cons.mp hl).1
    by_cases hij : i = j
    · subst hij
      simp only [hj, if_false, List.mem_cons, true_or, if_true]
      rcases hq : slots i with _ | q
      · simp [checkReplacedStep, hq]
      · rcases hr : (mapPoints q).mpReplaced with _ | r
        · simp [checkReplacedStep, hq, hr]
        · simp [checkReplacedStep, hq, hr]
    · have e : checkReplacedStep mapPoints slots j i = slots i := by
        rcases hq : slots j with _ | q
        · simp [checkReplacedStep, hq]
        · rcases hr : (mapPoints q).mpReplaced with _ | r
          · simp [checkReplacedStep, hq, hr]
          · simp [checkReplacedStep, hq, hr, Function.update_noteq hij]
      simp only [List.mem_cons, hij, false_or, e]

/-! ## `UpdateLocalKeyFrames` -/

theorem addFirstNew_length (id : Nat) (cands : List KeyFramePtr)
    (s : List KeyFramePtr × (KeyFramePtr → KeyFrame)) :
    (addFirstNew id cands s).1.length ≤ s.1.length + 1 := by
  unfold addFirstNew
  split
  · omega
  · simp

theorem expandLocalKeyFrames_length (id : Nat) (l : List KeyFramePtr)
    (s : List KeyFramePtr × (KeyFramePtr → KeyFrame)) :
    (expandLocalKeyFrames id l s).1.length ≤ max s.1.length 83 := by
  induction l generalizing s with
  | nil => exact le_max_left _ _
  | cons pKF rest ih =>
    unfold expandLocalKeyFrames
    split_ifs with h
    · exact le_max_left _ _
    · have h1 := addFirstNew_length id ((s.2 pKF).GetBestCovisibilityKeyFrames 10) s
      have h2 := addFirstNew_length id
        ((addFirstNew id ((s.2 pKF).GetBestCovisibilityKeyFrames 10) s).2 pKF).mspChildrens
        (addFirstNew id ((s.2 pKF).GetBestCovisibilityKeyFrames 10) s)
      simp only
      split
      · refine (ih _).trans ?_
        simp only [max_le_iff, le_max_iff]
        omega
      · split_ifs
        · simp only [List.length_append, List.length_singleton, le_max_iff]
          omega
        · refine (ih _).trans ?_
          simp only [max_le_iff, le_max_iff]
          omega

theorem seedStep_fold_length (id : Nat) (l : List (KeyFramePtr × Nat))
    (s : Nat × Option KeyFramePtr × List KeyFramePtr × (KeyFramePtr → KeyFrame)) :
    (l.foldl (seedStep id) s).2.2.1.length ≤ s.2.2.1.length + l.length := by
  induction l generalizing s with
  | nil => simp
  | cons e l ih =>
    rw [List.foldl_cons]
    refine (ih _).trans ?_
    have : (seedStep id s e).2.2.1.length ≤ s.2.2.1.length + 1 := by
      unfold seedStep
      split_ifs <;> simp
    simp only [List.length_cons]
    omega

theorem UpdateLocalKeyFrames_unvoted (t : Tracking) (h : keyframeVotes t = []) :
    (UpdateLocalKeyFrames t).mvpLocalKeyFrames = t.mvpLocalKeyFrames := by
  unfold keyframeVotes at h
  simp only [UpdateLocalKeyFrames, h, List.isEmpty_nil, if_true]
  rfl

theorem UpdateLocalKeyFrames_voted (t : Tracking) (h : keyframeVotes t ≠ []) :
    (UpdateLocalKeyFrames t).mvpLocalKeyFrames
      = (expandLocalKeyFrames t.mCurrentFrame.mnId (seededKeyFrames t)
          (seededKeyFrames t,
            ((keyframeVotes t).foldl (seedStep t.mCurrentFrame.mnId)
              (0, none, [], t.keyFrames)).2.2.2)).1 := by
  have h' : ((List.range t.mCurrentFrame.N).foldl (voteStep t.mapPoints)
      (t.mCurrentFrame.mvpMapPoints, [])).2.isEmpty = false := by
    unfold keyframeVotes at h
    cases hv : ((List.range t.mCurrentFrame.N).foldl (voteStep t.mapPoints)
      (t.mCurrentFrame.mvpMapPoints, [])).2 with
    | nil => exact absurd hv h
    | cons a b => rfl
  simp only [UpdateLocalKeyFrames, h', Bool.false_eq_true, if_false]
  split <;> rfl

/-! ## The invariant of the trajectory log -/

theorem initialized_iff (t : Tracking) :
    ¬ t.initialized ↔ (t.mState = eTrackingState.NO_IMAGES_YET
      ∨ t.mState = eTrackingState.NOT_INITIALIZED) := by
  unfold Tracking.initialized
  cases t.mState <;> simp

theorem logInvariant_construct (sensor : eSensor) (fps : Nat) (th : Int) :
    (Tracking.construct sensor fps th).logInvariant :=
  ⟨⟨rfl, rfl, rfl⟩, fun _ => rfl, fun h => by
    rcases h with h | h <;> cases h⟩

theorem logInvariant_Reset (t : Tracking) : (Reset t).logInvariant := by
  obtain ⟨h1, h2⟩ := trajectory_Reset t
  simp only [Tracking.trajectory, Prod.mk.injEq] at h1
  obtain ⟨l1, l2, l3, l4⟩ := h1
  refine ⟨by rw [l1, l2, l3, l4]; exact ⟨rfl, rfl, rfl⟩, fun _ => l1, fun h => ?_⟩
  unfold Tracking.initialized at h
  rw [h2] at h
  rcases h with h | h <;> cases h

theorem logInvariant_arrive (t : Tracking) (a : Arrival) (h : t.logInvariant) :
    (t.arrive a).logInvariant := h

theorem Track_uninitialized_state (c : Collaborators) (t t' : Tracking)
    (hs : ¬ t.initialized) (h : Track c t = some t') : t'.mState ≠ eTrackingState.LOST := by
  have hs' := (initialized_iff t).mp hs
  have hE : (trackEnter t).mState = eTrackingState.NOT_INITIALIZED := by
    rcases hs' with h1 | h1 <;> simp [trackEnter, h1]
  have key : ∀ s : Tracking,
      (s.mState = eTrackingState.NO_IMAGES_YET ∨ s.mState = eTrackingState.OK
        ∨ s.mState = eTrackingState.NOT_INITIALIZED) →
      (if (s.call Call.FrameDrawerUpdate).mState ≠ eTrackingState.OK
        then some (s.call Call.FrameDrawerUpdate)
        else storeFramePose c (s.call Call.FrameDrawerUpdate)) = some t' →
      t'.mState ≠ eTrackingState.LOST := by
    intro s hst hres
    have hcs : (s.call Call.FrameDrawerUpdate).mState = s.mState := rfl
    split_ifs at hres with hok
    · cases hres
      rw [hcs]
      rcases hst with h1 | h1 | h1 <;> rw [h1] <;> simp
    · have hok' : s.mState = eTrackingState.OK := by
        by_contra hh; exact hok hh
      rw [(storeFramePose_core c _ _ hres).1, hcs, hok']
      simp
  simp only [Track, hE, if_true] at h
  by_cases hsens : (trackEnter t).mSensor = eSensor.RGBD
  · simp only [hsens, if_true] at h
    refine key _ ?_ h
    rcases (StereoInitialization_effect c (trackEnter t)).2 with h1 | h1
    · exact Or.inr (Or.inl h1)
    · exact Or.inr (Or.inr (h1.trans hE))
  · simp only [hsens, if_false] at h
    refine key _ ?_ h
    rcases MonocularInitialization_effect c (trackEnter t) with h1 | h1
    · exact Or.inl h1.2
    · rcases h1.2 with h2 | h2
      · exact Or.inr (Or.inl h2)
      · exact Or.inr (Or.inr (h2.trans hE))

theorem logInvariant_Track (c : Collaborators) (t t' : Tracking) (hi : t.logInvariant)
    (h : Track c t = some t') : t'.logInvariant := by
  obtain ⟨⟨l2, l3, l4⟩, hu, hn⟩ := hi
  have hstep := Track_tick c t t' t.mlRelativeFramePoses.length ⟨rfl, l2, l3, l4⟩
    (fun hs => by rw [hu ((initialized_iff t).mpr hs)]; rfl) h
  obtain ⟨⟨e1, e2, e3, e4⟩, hz⟩ := hstep
  refine ⟨⟨by rw [e2, e1], by rw [e3, e1], by rw [e4, e1]⟩, fun hs => ?_, fun hs => ?_⟩
  · have := hz ((initialized_iff t').mp hs)
    exact List.length_eq_zero.mp (e1.trans this)
  · intro hnil
    have hlen : t'.mlRelativeFramePoses.length = 0 := by rw [hnil]; rfl
    rw [e1] at hlen
    rcases hs with hs | hs
    · have hr : t'.ranToEnd = true := by simp [Tracking.ranToEnd, hs]
      rw [hr] at hlen
      simp at hlen
    · by_cases hinit : t.initialized
      · have := hn hinit
        have : t.mlRelativeFramePoses.length ≠ 0 := fun h0 => this (List.length_eq_zero.mp h0)
        omega
      · exact Track_uninitialized_state c t t' hinit h hs

theorem logInvariant_runEvents (c : Collaborators) (es : List Event) (t t' : Tracking)
    (hi : t.logInvariant) (h : runEvents c t es = some t') : t'.logInvariant := by
  induction es generalizing t with
  | nil =>
    simp only [runEvents, Option.some.injEq] at h
    rw [← h]; exact hi
  | cons e rest ih =>
    cases e with
    | track a =>
      simp only [runEvents] at h
      cases h1 : Track c (t.arrive a) with
      | none => simp [h1] at h
      | some t1 =>
        simp only [h1] at h
        exact ih t1 (logInvariant_Track c _ t1 (logInvariant_arrive t a hi) h1) h
    | reset =>
      simp only [runEvents] at h
      exact ih _ (logInvariant_Reset t) h

/-! ### The reads of `back()` -/

theorem UpdateLastFrame_none (c : Collaborators) (t : Tracking)
    (hl : t.mlRelativeFramePoses ≠ []) (h : UpdateLastFrame c t = none) :
    t.mLastFrame.mpReferenceKF = none := by
  unfold UpdateLastFrame at h
  cases hr : t.mLastFrame.mpReferenceKF with
  | none => rfl
  | some pRef =>
    cases hb : t.mlRelativeFramePoses.getLast? with
    | none => exact absurd (List.getLast?_eq_none_iff.mp hb) hl
    | some Tlr => simp [hr, hb] at h

theorem storeFramePose_none (c : Collaborators) (t : Tracking)
    (h1 : t.mlRelativeFramePoses ≠ []) (h2 : t.mlpReferences ≠ []) (h3 : t.mlFrameTimes ≠ [])
    (h : storeFramePose c t = none) :
    t.mCurrentFrame.mpReferenceKF = none ∧ t.mCurrentFrame.mTcw ≠ none := by
  cases hk : t.mCurrentFrame.mpReferenceKF with
  | some pRef =>
    obtain ⟨t', ht'⟩ := storeFramePose_defined c t (by rw [hk]; rfl) h1 h2 h3
    rw [h] at ht'
    cases ht'
  | none =>
    refine ⟨rfl, fun hT => ?_⟩
    unfold storeFramePose at h
    cases ha : t.mlRelativeFramePoses.getLast? with
    | none => exact absurd (List.getLast?_eq_none_iff.mp ha) h1
    | some a =>
      cases hb : t.mlpReferences.getLast? with
      | none => exact absurd (List.getLast?_eq_none_iff.mp hb) h2
      | some b =>
        cases hd : t.mlFrameTimes.getLast? with
        | none => exact absurd (List.getLast?_eq_none_iff.mp hd) h3
        | some d => simp [hT, ha, hb, hd] at h

theorem trackFrame_log (c : Collaborators) (t t2 : Tracking) (h : trackFrame c t = some t2) :
    (commitLastFrame t2).mlRelativeFramePoses = t.mlRelativeFramePoses
    ∧ (commitLastFrame t2).mlpReferences = t.mlpReferences
    ∧ (commitLastFrame t2).mlFrameTimes = t.mlFrameTimes
    ∧ (commitLastFrame t2).mlbLost = t.mlbLost := by
  obtain ⟨r0, h0⟩ := trackFrame_some c t t2 h
  have hc := trackFrame_core c t t2 r0 h0 h
  simp only [core_eq, Prod.mk.injEq, Tracking.trajectory] at hc
  obtain ⟨-, ⟨e1, e2, e3, e4⟩, -⟩ := hc
  exact ⟨e1, e2, e3, e4⟩

/-! ### The tick of the initialization -/

theorem StereoInitialization_pose (c : Collaborators) (t : Tracking)
    (hs : t.mState ≠ eTrackingState.OK)
    (hok : (StereoInitialization c t).mState = eTrackingState.OK) :
    (StereoInitialization c t).mCurrentFrame.mTcw.isSome = true
      ∧ (StereoInitialization c t).mCurrentFrame.mpReferenceKF.isSome = true := by
  unfold StereoInitialization at hok ⊢
  split_ifs at hok ⊢ with hN
  · have hT : ((List.range t.mCurrentFrame.N).foldl (stereoMapPointStep c t.nKeyFrames)
        (stereoKeyFrame c t)).mCurrentFrame.mTcw = (stereoKeyFrame c t).mCurrentFrame.mTcw :=
      foldl_keeps (fun s : Tracking => s.mCurrentFrame.mTcw) _
        (fun s i => (stereoMapPointStep_keeps c t.nKeyFrames s i).2.2.1) _ _
    refine ⟨?_, ?_⟩
    · rw [(stereoFinish_fields _ _).1, hT]
      rfl
    · simp [stereoFinish, Tracking.call]
  · exact absurd hok hs

theorem Tcw_createInitialMapPoint (a b : KeyFramePtr) (s : Tracking) (im : Nat × Int)
    (j : KeyFramePtr) :
    ((createInitialMapPoint a b s im).keyFrames j).Tcw = (s.keyFrames j).Tcw := by
  unfold createInitialMapPoint
  split_ifs
  · rfl
  · simp only [Function.update]
    by_cases hb : j = b
    · subst hb
      by_cases ha : j = a
      · subst ha; simp [KeyFrame.AddMapPoint]
      · simp [KeyFrame.AddMapPoint, ha]
    · by_cases ha : j = a
      · subst ha; simp [KeyFrame.AddMapPoint, hb]
      · simp [hb, ha]

theorem Tcw_foldl_createInitialMapPoint (a b : KeyFramePtr) (l : List (Nat × Int))
    (s : Tracking) (j : KeyFramePtr) :
    (((l.foldl (createInitialMapPoint a b) s).keyFrames j).Tcw) = (s.keyFrames j).Tcw :=
  foldl_keeps (fun s : Tracking => (s.keyFrames j).Tcw) _
    (fun s im => Tcw_createInitialMapPoint a b s im j) l s

theorem initialMap_pose (c : Collaborators) (t : Tracking)
    (h2 : ∀ s k, ((s.keyFrames k).Tcw).isSome = true →
      ((c.GlobalBundleAdjustemnt s).1 k).isSome = true)
    (hT : t.mCurrentFrame.mTcw.isSome = true) :
    ((initialMap c t).keyFrames (t.nKeyFrames + 1)).Tcw.isSome = true := by
  simp only [initialMap, applyGlobalBundleAdjustemnt]
  apply h2
  simp only [applyUpdateConnections]
  rw [Tcw_foldl_createInitialMapPoint]
  simp [initialKeyFrames, KeyFrame.new, hT]

theorem CreateInitialMapMonocular_pose (c : Collaborators) (t : Tracking)
    (h1 : ∀ m z, (c.scaleTranslation (some m) z).isSome = true)
    (h2 : ∀ s k, ((s.keyFrames k).Tcw).isSome = true →
      ((c.GlobalBundleAdjustemnt s).1 k).isSome = true)
    (hT : t.mCurrentFrame.mTcw.isSome = true)
    (hok : (CreateInitialMapMonocular c t).mState = eTrackingState.OK) :
    (CreateInitialMapMonocular c t).mCurrentFrame.mTcw.isSome = true
      ∧ (CreateInitialMapMonocular c t).mCurrentFrame.mpReferenceKF.isSome = true := by
  unfold CreateInitialMapMonocular at hok ⊢
  split_ifs at hok ⊢
  · rw [(trajectory_Reset _).2] at hok
    cases hok
  · obtain ⟨m, hm⟩ := Option.isSome_iff_exists.mp (initialMap_pose c t h2 hT)
    refine ⟨?_, ?_⟩
    · simp only [finishInitialMap, Tracking.call, Frame.SetPose, scaleInitialMap,
        Function.update_same, hm]
      exact h1 m _
    · simp [finishInitialMap, Tracking.call]

theorem MonocularInitialization_pose (c : Collaborators) (t : Tracking)
    (h1 : ∀ m z, (c.scaleTranslation (some m) z).isSome = true)
    (h2 : ∀ s k, ((s.keyFrames k).Tcw).isSome = true →
      ((c.GlobalBundleAdjustemnt s).1 k).isSome = true)
    (hs : t.mState ≠ eTrackingState.OK)
    (hok : (MonocularInitialization c t).mState = eTrackingState.OK) :
    (MonocularInitialization c t).mCurrentFrame.mTcw.isSome = true
      ∧ (MonocularInitialization c t).mCurrentFrame.mpReferenceKF.isSome = true := by
  cases hI : t.mpInitializer with
  | none =>
    simp only [MonocularInitialization, hI] at hok ⊢
    split_ifs at hok ⊢
    · exact absurd hok hs
    · exact absurd hok hs
  | some f =>
    simp only [MonocularInitialization, hI] at hok ⊢
    split_ifs at hok ⊢
    · exact absurd hok hs
    · exact absurd hok hs
    · cases hInit : c.Initialize (storeInitialMatches c t) with
      | none =>
        simp only [hInit] at hok
        exact absurd hok hs
      | some init =>
        simp only [hInit] at hok ⊢
        exact CreateInitialMapMonocular_pose c _ h1 h2 rfl hok

theorem Track_uninitialized_defined (c : Collaborators) (t : Tracking)
    (h1 : ∀ m z, (c.scaleTranslation (some m) z).isSome = true)
    (h2 : ∀ s k, ((s.keyFrames k).Tcw).isSome = true →
      ((c.GlobalBundleAdjustemnt s).1 k).isSome = true)
    (hs : ¬ t.initialized) : ∃ t', Track c t = some t' := by
  have hs' := (initialized_iff t).mp hs
  have hE : (trackEnter t).mState = eTrackingState.NOT_INITIALIZED := by
    rcases hs' with h | h <;> simp [trackEnter, h]
  have hne : (trackEnter t).mState ≠ eTrackingState.OK := by rw [hE]; simp
  have key : ∀ s : Tracking,
      (s.mState = eTrackingState.OK →
        s.mCurrentFrame.mTcw.isSome = true ∧ s.mCurrentFrame.mpReferenceKF.isSome = true) →
      ∃ t', (if (s.call Call.FrameDrawerUpdate).mState ≠ eTrackingState.OK
        then some (s.call Call.FrameDrawerUpdate)
        else storeFramePose c (s.call Call.FrameDrawerUpdate)) = some t' := by
    intro s hp
    have hcs : (s.call Call.FrameDrawerUpdate).mState = s.mState := rfl
    split_ifs with hok
    · exact ⟨_, rfl⟩
    · have hok' : s.mState = eTrackingState.OK := by
        by_contra hh; exact hok hh
      obtain ⟨p1, p2⟩ := hp hok'
      obtain ⟨m, hm⟩ := Option.isSome_iff_exists.mp p1
      obtain ⟨k, hk⟩ := Option.isSome_iff_exists.mp p2
      have e1 : (s.call Call.FrameDrawerUpdate).mCurrentFrame.mTcw = some m := hm
      have e2 : (s.call Call.FrameDrawerUpdate).mCurrentFrame.mpReferenceKF = some k := hk
      unfold storeFramePose
      simp only [e1, e2]
      exact ⟨_, rfl⟩
  simp only [Track, hE, if_true]
  by_cases hsens : (trackEnter t).mSensor = eSensor.RGBD
  · simp only [hsens, if_true]
    exact key _ (StereoInitialization_pose c _ hne)
  · simp only [hsens, if_false]
    exact key _ (MonocularInitialization_pose c _ h1 h2 hne)

/-! ## The statements of the specification -/

/-- C1: `NeedNewKeyFrame` returns false whenever the local mapper reports
`isStopped()` or `stopRequested()`, whatever the sensor, the inlier count, the
ids and the other answers of the collaborators; the state it returns is the
state it was called in, so the list of calls is the same: `InterruptBA` is not
called. -/
theorem needNewKeyFrame_false_when_stopped (c : Collaborators) (t : Tracking)
    (h : c.isStopped t = true ∨ c.stopRequested t = true) :
    NeedNewKeyFrame c t = some (false, t)
      ∧ (NeedNewKeyFrame c t).map (fun r => r.2.calls) = some t.calls := by
  rw [NeedNewKeyFrame_stopped c t h]
  exact ⟨rfl, rfl⟩

theorem needNewKeyFrame_false_when_stopped_witness :
    (stoppedCollaborators.isStopped sampleTracking = true
        ∨ stoppedCollaborators.stopRequested sampleTracking = true)
      ∧ NeedNewKeyFrame stoppedCollaborators sampleTracking = some (false, sampleTracking)
      ∧ (NeedNewKeyFrame stoppedCollaborators sampleTracking).map (fun r => r.2.calls)
          = some sampleTracking.calls :=
  ⟨Or.inl rfl, needNewKeyFrame_false_when_stopped stoppedCollaborators sampleTracking (Or.inl rfl)⟩

/-- C2, as stated, fails: the local mapper is neither stopped nor asked to
stop, the conditions `(c1a OR c1b OR c1c) AND c2` hold and the mapper is not
idle, yet `InterruptBA` is not called (no call at all is made), because the
tick is suppressed: frame 10 is less than 30 frames after the relocalisation
at frame 5 and the map holds 31 key frames. -/
theorem needNewKeyFrame_suppressed_no_interrupt :
    busyCollaborators.isStopped sampleTracking = false
      ∧ busyCollaborators.stopRequested sampleTracking = false
      ∧ KeyframePolicy.conditions busyCollaborators sampleTracking 0 = true
      ∧ KeyframePolicy.mapperIdle busyCollaborators sampleTracking = false
      ∧ (NeedNewKeyFrame busyCollaborators sampleTracking).map (fun r => (r.1, r.2.calls))
          = some (false, []) := by
  decide

/-- C2, amended: when the local mapper is neither stopped nor asked to stop
(and there is a reference key frame), `NeedNewKeyFrame` returns true if and
only if NOT(currentId < lastRelocId + maxFrames AND keyframeCount > maxFrames)
AND (c1a OR c1b OR c1c) AND c2 AND (mapperIdle OR (non-monocular AND
keyframesInQueue < 3)), with c1a, c1b, c1c, c2, needClose, refRatio and nRef as
in `KeyframePolicy`; and `InterruptBA` is called (once, and nothing else is
changed) exactly when the tick is not suppressed, the conditions
`(c1a OR c1b OR c1c) AND c2` hold and the mapper is not idle. -/
theorem needNewKeyFrame_iff (c : Collaborators) (t : Tracking) (pRef : KeyFramePtr)
    (hs : c.isStopped t = false) (hr : c.stopRequested t = false)
    (hk : t.mpReferenceKF = some pRef) :
    ∃ b t', NeedNewKeyFrame c t = some (b, t')
      ∧ (b = true ↔
          (¬(t.mCurrentFrame.mnId < t.mnLastRelocFrameId + t.mMaxFrames
              ∧ t.mpMap.KeyFramesInMap > t.mMaxFrames)
            ∧ (KeyframePolicy.c1a t = true ∨ KeyframePolicy.c1b c t = true
              ∨ KeyframePolicy.c1c c t pRef = true)
            ∧ KeyframePolicy.c2 c t pRef = true
            ∧ (KeyframePolicy.mapperIdle c t = true
              ∨ (t.mSensor ≠ eSensor.MONOCULAR
                ∧ c.KeyframesInQueue (t.call Call.InterruptBA) < 3))))
      ∧ ((KeyframePolicy.suppressed t = false ∧ KeyframePolicy.conditions c t pRef = true
            ∧ KeyframePolicy.mapperIdle c t = false) →
          t' = t.call Call.InterruptBA ∧ t'.calls = t.calls ++ [Call.InterruptBA])
      ∧ (¬(KeyframePolicy.suppressed t = false ∧ KeyframePolicy.conditions c t pRef = true
            ∧ KeyframePolicy.mapperIdle c t = false) → t' = t) := by
  refine ⟨_, _, NeedNewKeyFrame_running c t pRef hs hr hk, ?_, ?_, ?_⟩
  · simp only [KeyframePolicy.decision, KeyframePolicy.suppressed, KeyframePolicy.conditions,
      Bool.and_eq_true, Bool.or_eq_true, Bool.not_eq_true', decide_eq_true_eq,
      Bool.and_eq_false_iff, decide_eq_false_iff_not]
    constructor
    · rintro ⟨⟨h1, h2, h3⟩, h4⟩
      refine ⟨fun h => ?_, or_assoc.mp h2, h3, h4⟩
      rcases h1 with h1 | h1
      · exact h1 h.1
      · exact h1 h.2
    · rintro ⟨h1, h2, h3, h4⟩
      refine ⟨⟨?_, or_assoc.mpr h2, h3⟩, h4⟩
      by_cases hx : t.mCurrentFrame.mnId < t.mnLastRelocFrameId + t.mMaxFrames
      · exact Or.inr (fun hy => h1 ⟨hx, hy⟩)
      · exact Or.inl hx
  · intro h
    rw [if_pos h]
    exact ⟨rfl, rfl⟩
  · intro h
    rw [if_neg h]

theorem needNewKeyFrame_iff_witness :
    (sampleCollaborators 25).isStopped sampleReady = false
      ∧ (sampleCollaborators 25).stopRequested sampleReady = false
      ∧ sampleReady.mpReferenceKF = some 0
      ∧ ∃ b t', NeedNewKeyFrame (sampleCollaborators 25) sampleReady = some (b, t')
        ∧ (b = true ↔
          (¬(sampleReady.mCurrentFrame.mnId < sampleReady.mnLastRelocFrameId
                + sampleReady.mMaxFrames
              ∧ sampleReady.mpMap.KeyFramesInMap > sampleReady.mMaxFrames)
            ∧ (KeyframePolicy.c1a sampleReady = true
              ∨ KeyframePolicy.c1b (sampleCollaborators 25) sampleReady = true
              ∨ KeyframePolicy.c1c (sampleCollaborators 25) sampleReady 0 = true)
            ∧ KeyframePolicy.c2 (sampleCollaborators 25) sampleReady 0 = true
            ∧ (KeyframePolicy.mapperIdle (sampleCollaborators 25) sampleReady = true
              ∨ (sampleReady.mSensor ≠ eSensor.MONOCULAR
                ∧ (sampleCollaborators 25).KeyframesInQueue
                  (sampleReady.call Call.InterruptBA) < 3))))
        ∧ ((KeyframePolicy.suppressed sampleReady = false
              ∧ KeyframePolicy.conditions (sampleCollaborators 25) sampleReady 0 = true
              ∧ KeyframePolicy.mapperIdle (sampleCollaborators 25) sampleReady = false) →
            t' = sampleReady.call Call.InterruptBA
              ∧ t'.calls = sampleReady.calls ++ [Call.InterruptBA])
        ∧ (¬(KeyframePolicy.suppressed sampleReady = false
              ∧ KeyframePolicy.conditions (sampleCollaborators 25) sampleReady 0 = true
              ∧ KeyframePolicy.mapperIdle (sampleCollaborators 25) sampleReady = false) →
            t' = sampleReady) :=
  ⟨rfl, rfl, rfl, needNewKeyFrame_iff (sampleCollaborators 25) sampleReady 0 rfl rfl rfl⟩


/-- C3: a tick of `Track` that starts in `OK` or `LOST` is defined whenever the
members it dereferences are present (`Tracking.ready`), and in every such tick
that is defined (no null pointer dereferenced, no `back()` on an empty list)
the state the tick sets is `OK` if and only if the coarse pose estimate
succeeded and `TrackLocalMap` succeeded, and `LOST` otherwise; `TrackLocalMap`
is not run when the coarse estimate failed.  The coarse estimate is
`Relocalization` when the tick starts in `LOST`; when it starts in `OK` it is
`TrackReferenceKeyFrame` alone if the velocity is empty or
`currentId < lastRelocId + 2`, and otherwise `TrackWithMotionModel`, followed
by `TrackReferenceKeyFrame` if and only if it returned false. -/
theorem Track_sets_state (c : Collaborators) (t : Tracking)
    (hs : t.mState = eTrackingState.OK ∨ t.mState = eTrackingState.LOST) :
    (t.ready → ∃ t', Track c t = some t')
    ∧ ∀ t', Track c t = some t' →
      ∃ r0, initialPoseEstimation c (trackEnter t) = some r0
        ∧ (t'.mState = eTrackingState.OK ↔
            (r0.1 = true ∧ (TrackLocalMap c (setFrameReference r0.2)).1 = true))
        ∧ (t'.mState = eTrackingState.LOST ↔
            ¬(r0.1 = true ∧ (TrackLocalMap c (setFrameReference r0.2)).1 = true))
        ∧ (r0.1 = false →
            trackFrame c (trackEnter t) = some (setState (setFrameReference r0.2) false))
        ∧ (t.mState = eTrackingState.LOST → r0 = Relocalization c (trackEnter t))
        ∧ (t.mState = eTrackingState.OK →
            (t.mVelocity = none ∨ t.mCurrentFrame.mnId < t.mnLastRelocFrameId + 2) →
            r0 = TrackReferenceKeyFrame c (CheckReplacedInLastFrame (trackEnter t)))
        ∧ (t.mState = eTrackingState.OK →
            ¬(t.mVelocity = none ∨ t.mCurrentFrame.mnId < t.mnLastRelocFrameId + 2) →
            ∃ m, TrackWithMotionModel c (CheckReplacedInLastFrame (trackEnter t)) = some m
              ∧ (m.1 = true → r0 = m)
              ∧ (m.1 = false → r0 = TrackReferenceKeyFrame c m.2)) := by
  refine ⟨fun hr => ?_, fun t' h => Track_state_iff c t t' hs h⟩
  obtain ⟨-, -, t', -, -, hT, -⟩ := Track_defined c t hs hr
  exact ⟨t', hT⟩

set_option maxRecDepth 1000000 in
theorem Track_sets_state_witness :
    (sampleTracked.mState = eTrackingState.OK ∨ sampleTracked.mState = eTrackingState.LOST)
    ∧ sampleTracked.ready
    ∧ sampleTracked.mLastFrame.mpReferenceKF = none
    ∧ (Track trackedCollaborators sampleTracked).map (fun t' => t'.mState)
        = some eTrackingState.OK
    ∧ ((sampleTracked.ready → ∃ t', Track trackedCollaborators sampleTracked = some t')
      ∧ ∀ t', Track trackedCollaborators sampleTracked = some t' →
      ∃ r0, initialPoseEstimation trackedCollaborators (trackEnter sampleTracked) = some r0
        ∧ (t'.mState = eTrackingState.OK ↔
            (r0.1 = true ∧ (TrackLocalMap trackedCollaborators (setFrameReference r0.2)).1 = true))
        ∧ (t'.mState = eTrackingState.LOST ↔
            ¬(r0.1 = true ∧ (TrackLocalMap trackedCollaborators (setFrameReference r0.2)).1 = true))
        ∧ (r0.1 = false →
            trackFrame trackedCollaborators (trackEnter sampleTracked) = some (setState (setFrameReference r0.2) false))
        ∧ (sampleTracked.mState = eTrackingState.LOST → r0 = Relocalization trackedCollaborators (trackEnter sampleTracked))
        ∧ (sampleTracked.mState = eTrackingState.OK →
            (sampleTracked.mVelocity = none ∨ sampleTracked.mCurrentFrame.mnId < sampleTracked.mnLastRelocFrameId + 2) →
            r0 = TrackReferenceKeyFrame trackedCollaborators (CheckReplacedInLastFrame (trackEnter sampleTracked)))
        ∧ (sampleTracked.mState = eTrackingState.OK →
            ¬(sampleTracked.mVelocity = none ∨ sampleTracked.mCurrentFrame.mnId < sampleTracked.mnLastRelocFrameId + 2) →
            ∃ m, TrackWithMotionModel trackedCollaborators (CheckReplacedInLastFrame (trackEnter sampleTracked)) = some m
              ∧ (m.1 = true → r0 = m)
              ∧ (m.1 = false → r0 = TrackReferenceKeyFrame trackedCollaborators m.2))) :=
  ⟨Or.inl rfl, by decide, rfl, by decide,
    Track_sets_state trackedCollaborators sampleTracked (Or.inl rfl)⟩

/-- C5, as stated, fails: after one call of `Track` on a tracker just
constructed, with a frame of too few key points for the initialization, the
trajectory log is empty although one call was made. -/
theorem trajectory_shorter_than_calls :
    (runTrack (sampleCollaborators 25) (Tracking.construct eSensor.RGBD 30 40)
        [sampleArrival 0 100]).map
      (fun r => (r.1.mlRelativeFramePoses.length, r.1.mlpReferences.length,
        r.1.mlFrameTimes.length, r.1.mlbLost.length))
      = some (0, 0, 0, 0)
    ∧ [sampleArrival 0 100].length = 1 := by
  decide

/-- C5, amended: after any sequence of `Track` calls that starts with an empty
trajectory log (as construction and `Reset` leave it) and in which no call has
undefined behaviour, the four lists of the log have the same length: the number
of those calls that ran to the end of `Track`, that is, that ended in state
`OK`, or in state `LOST` with more than 5 key frames in the map.  The ticks in
which the initialization did not succeed and the ticks that requested a system
reset return before the log and are not counted. -/
theorem trajectory_length (c : Collaborators) (l : List Arrival) (t t' : Tracking) (n : Nat)
    (hl : t.trajectory = ([], [], [], []))
    (h : runTrack c t l = some (t', n)) :
    t'.mlRelativeFramePoses.length = n ∧ t'.mlpReferences.length = n
      ∧ t'.mlFrameTimes.length = n ∧ t'.mlbLost.length = n := by
  simp only [Tracking.trajectory, Prod.mk.injEq] at hl
  have := runTrack_lengths c l t t' 0 n
    ⟨by rw [hl.1]; rfl, by rw [hl.2.1]; rfl, by rw [hl.2.2.1]; rfl, by rw [hl.2.2.2]; rfl⟩
    (fun _ => rfl) h
  simpa using this

theorem trajectory_length_witness :
    (Tracking.construct eSensor.MONOCULAR 30 40).trajectory = ([], [], [], [])
    ∧ sampleRun.isSome = true
    ∧ sampleRun.map (fun r => r.2) = some 1
    ∧ sampleRun.map (fun r => decide (r.1.mlRelativeFramePoses.length = r.2
        ∧ r.1.mlpReferences.length = r.2 ∧ r.1.mlFrameTimes.length = r.2
        ∧ r.1.mlbLost.length = r.2)) = some true := by
  have hsome : sampleRun.isSome = true := by decide
  obtain ⟨r, hr⟩ := Option.isSome_iff_exists.mp hsome
  have h := trajectory_length monoCollaborators
    [sampleArrival 0 150, sampleArrival 1 150, sampleArrival 2 150]
    (Tracking.construct eSensor.MONOCULAR 30 40) r.1 r.2 rfl hr
  refine ⟨rfl, hsome, by decide, ?_⟩
  rw [hr]
  simp [h]

/-- C6, amended: `TrackLocalMap` returns true if and only if inliers >= 30 AND
(currentId >= lastRelocId + maxFrames OR inliers >= 50), where inliers
(`mnMatchesInliers`) is, after pose optimization, exactly the number of slots of
the current frame that are non-empty, not flagged outlier, and whose map point
has at least one observing key frame.  The found counter of a map point is
incremented once for every slot that holds it and is not flagged outlier,
whether or not the map point has an observing key frame. -/
theorem TrackLocalMap_iff (c : Collaborators) (t : Tracking) :
    (TrackLocalMap c t).2.mnMatchesInliers
        = (localMapOptimized c t).mCurrentFrame.mapInliers (localMapOptimized c t).mapPoints
      ∧ ((TrackLocalMap c t).1 = true ↔
          (TrackLocalMap c t).2.mnMatchesInliers ≥ 30
            ∧ (t.mCurrentFrame.mnId ≥ t.mnLastRelocFrameId + t.mMaxFrames
              ∨ (TrackLocalMap c t).2.mnMatchesInliers ≥ 50))
      ∧ (∀ p, ((TrackLocalMap c t).2.mapPoints p).mnFound
          = ((localMapOptimized c t).mapPoints p).mnFound
            + (localMapOptimized c t).mCurrentFrame.inlierSlotsOf p)
      ∧ (TrackLocalMap c t).2.mCurrentFrame = (localMapOptimized c t).mCurrentFrame := by
  obtain ⟨he, hiff⟩ := TrackLocalMap_eq c t
  obtain ⟨h1, h2⟩ := statistics_fold (localMapOptimized c t).mCurrentFrame
    (List.range (localMapOptimized c t).mCurrentFrame.N) ((localMapOptimized c t).mapPoints, 0)
  have hid := frameIds_localMapOptimized c t
  simp only [Tracking.frameIds, Prod.mk.injEq] at hid
  obtain ⟨i1, -, i3, i4⟩ := hid
  refine ⟨?_, ?_, ?_, ?_⟩
  · rw [he]
    simp only [Frame.mapInliers]
    rw [h2]
    simp
  · rw [hiff, i1, i3, i4]
    constructor
    · rintro ⟨a, b⟩
      refine ⟨by omega, ?_⟩
      by_cases hx : t.mCurrentFrame.mnId < t.mnLastRelocFrameId + t.mMaxFrames
      · right
        by_contra hy
        exact a ⟨hx, by omega⟩
      · left; omega
    · rintro ⟨a, b⟩
      refine ⟨fun h => ?_, by omega⟩
      rcases b with b | b <;> omega
  · intro p
    rw [he]
    simp only [Frame.inlierSlotsOf]
    exact (h1 p).2
  · rw [he]

/-- C6, as stated, fails: the only slot of the current frame holds map point 7,
not flagged outlier, which no key frame observes.  The slot is not counted
(`mnMatchesInliers` is 0, no slot is a counted slot), yet the found counter of
map point 7 is incremented. -/
theorem TrackLocalMap_found_uncounted :
    (TrackLocalMap (sampleCollaborators 25) sampleUnobserved).2.mnMatchesInliers = 0
    ∧ (localMapOptimized (sampleCollaborators 25) sampleUnobserved).mCurrentFrame.mapInliers
        (localMapOptimized (sampleCollaborators 25) sampleUnobserved).mapPoints = 0
    ∧ ((TrackLocalMap (sampleCollaborators 25) sampleUnobserved).2.mapPoints 7).mnFound
        = ((localMapOptimized (sampleCollaborators 25) sampleUnobserved).mapPoints 7).mnFound + 1 := by
  decide


/-- C8: `StereoInitialization` on a current frame with more than 500 key
points (a fresh frame: no slot filled yet; `new` returns addresses not in use)
always succeeds: the pose of the frame is the identity, exactly one key frame
is added to the map and handed to the local mapper, one map point is created
per key point with depth > 0 (the number of map points added is the number of
key points of positive depth, and slot `i` of the current frame is filled if
and only if `depth[i] > 0`), and the state is `OK`.  On a frame with 500 key
points or fewer it changes nothing. -/
theorem StereoInitialization_effects (c : Collaborators) (t : Tracking)
    (hfresh : ∀ i, t.mCurrentFrame.mvpMapPoints i = none)
    (hmap : ∀ p ∈ t.mpMap.mspMapPoints, p < t.nMapPoints)
    (hkf : t.nKeyFrames ∉ t.mpMap.mspKeyFrames) :
    (t.mCurrentFrame.N > 500 →
      (StereoInitialization c t).mState = eTrackingState.OK
      ∧ (StereoInitialization c t).mCurrentFrame.mTcw = some c.eye
      ∧ (StereoInitialization c t).mpMap.mspKeyFrames = t.mpMap.mspKeyFrames ++ [t.nKeyFrames]
      ∧ (StereoInitialization c t).nKeyFrames = t.nKeyFrames + 1
      ∧ (StereoInitialization c t).calls = t.calls
          ++ [Call.InsertKeyFrame t.nKeyFrames, Call.SetCurrentCameraPose (some c.eye)]
      ∧ (StereoInitialization c t).nMapPoints = t.nMapPoints + t.mCurrentFrame.positiveDepths
      ∧ (StereoInitialization c t).mpMap.MapPointsInMap
          = t.mpMap.MapPointsInMap + t.mCurrentFrame.positiveDepths
      ∧ (∀ i, i < t.mCurrentFrame.N →
          (((StereoInitialization c t).mCurrentFrame.mvpMapPoints i).isSome = true
            ↔ 0 < t.mCurrentFrame.mvDepth i)))
    ∧ (t.mCurrentFrame.N ≤ 500 → StereoInitialization c t = t) := by
  constructor
  · intro hN
    have hmap' : ∀ p ∈ (stereoKeyFrame c t).mpMap.mspMapPoints,
        p < (stereoKeyFrame c t).nMapPoints := hmap
    obtain ⟨a1, a2, a3, a4, -, a6, a7, a8, a9, a10, a11, a12⟩ :=
      stereo_fold c t.nKeyFrames (List.range t.mCurrentFrame.N) (stereoKeyFrame c t) hmap'
    obtain ⟨f1, f2, f3, f4, f5, f6, f7, f8⟩ := stereoFinish_fields
      ((List.range t.mCurrentFrame.N).foldl (stereoMapPointStep c t.nKeyFrames)
        (stereoKeyFrame c t)) t.nKeyFrames
    simp only [StereoInitialization, hN, if_true]
    refine ⟨f8, ?_, ?_, ?_, ?_, ?_, ?_, ?_⟩
    · rw [f1, a8]; rfl
    · rw [f2, a10]
      simp [stereoKeyFrame, Map.AddKeyFrame, setInsert, hkf]
    · rw [f3, a12]; rfl
    · rw [f4, a11, a8]
      simp [stereoKeyFrame, Frame.SetPose]
    · rw [f5, a1]; rfl
    · simp only [Map.MapPointsInMap]
      rw [f6, a2]; rfl
    · intro i hi
      rw [f7]
      constructor
      · intro h
        by_contra hd
        rw [a4 i (Or.inr hd)] at h
        simp [stereoKeyFrame, Frame.SetPose, hfresh i] at h
      · intro hd
        exact a3 i (List.mem_range.mpr hi) hd
  · intro hN
    have : ¬ t.mCurrentFrame.N > 500 := by omega
    simp only [StereoInitialization, this, if_false]

theorem StereoInitialization_effects_witness :
    (∀ i, sampleStereo.mCurrentFrame.mvpMapPoints i = none)
    ∧ (∀ p ∈ sampleStereo.mpMap.mspMapPoints, p < sampleStereo.nMapPoints)
    ∧ sampleStereo.nKeyFrames ∉ sampleStereo.mpMap.mspKeyFrames
    ∧ sampleStereo.mCurrentFrame.N > 500
    ∧ (StereoInitialization (sampleCollaborators 25) sampleStereo).mState = eTrackingState.OK
    ∧ (StereoInitialization (sampleCollaborators 25) sampleStereo).mpMap.MapPointsInMap
        = sampleStereo.mpMap.MapPointsInMap + sampleStereo.mCurrentFrame.positiveDepths :=
  ⟨fun _ => rfl, fun p hp => absurd hp (List.not_mem_nil p), List.not_mem_nil _, by decide,
    ((StereoInitialization_effects (sampleCollaborators 25) sampleStereo (fun _ => rfl)
      (fun p hp => absurd hp (List.not_mem_nil p)) (List.not_mem_nil _)).1 (by decide)).1,
    ((StereoInitialization_effects (sampleCollaborators 25) sampleStereo (fun _ => rfl)
      (fun p hp => absurd hp (List.not_mem_nil p)) (List.not_mem_nil _)).1
        (by decide)).2.2.2.2.2.2.1⟩

/-- C9, the code at the failing input: the median scene depth of the reference
key frame is exactly 0 and the current key frame has 100 tracked points.
`CreateInitialMapMonocular` does not call `Reset`: it completes the
initialization (the scaling by `1.0f/medianDepth` is made with a median depth
of 0), hands both key frames to the local mapper and sets the state `OK`. -/
theorem CreateInitialMapMonocular_zero_depth :
    zeroDepthCollaborators.ComputeSceneMedianDepth
        (initialMap zeroDepthCollaborators sampleMono) sampleMono.nKeyFrames 2 = 0
    ∧ (CreateInitialMapMonocular zeroDepthCollaborators sampleMono).mState = eTrackingState.OK
    ∧ (CreateInitialMapMonocular zeroDepthCollaborators sampleMono).calls
        = [Call.InsertKeyFrame 0, Call.InsertKeyFrame 1, Call.SetCurrentCameraPose (some ⟨2⟩)] := by
  decide

/-- C10: if `SetNotStop(true)` of the local mapper returns false,
`CreateNewKeyFrame` changes nothing in the tracker: the state it returns is the
state it was called in, with the call of `SetNotStop(true)` recorded, so no key
frame is built or inserted, no map point is created, and the reference key
frame, the reference key frame and the slots of the current frame,
`mnLastKeyFrameId` and `mpLastKeyFrame` are what they were.  If it returns
true, exactly one key frame is inserted into the local mapper, the new one; it
becomes the reference key frame (of the tracker and of the current frame) and
the last key frame, and `mnLastKeyFrameId` is the id of the current frame. -/
theorem CreateNewKeyFrame_effects (c : Collaborators) (t : Tracking) :
    (c.SetNotStop t true = false → CreateNewKeyFrame c t = t.call (Call.SetNotStop true))
    ∧ (c.SetNotStop t true = true →
        (CreateNewKeyFrame c t).calls = t.calls
          ++ [Call.SetNotStop true, Call.InsertKeyFrame t.nKeyFrames, Call.SetNotStop false]
        ∧ (CreateNewKeyFrame c t).nKeyFrames = t.nKeyFrames + 1
        ∧ (CreateNewKeyFrame c t).mpReferenceKF = some t.nKeyFrames
        ∧ (CreateNewKeyFrame c t).mCurrentFrame.mpReferenceKF = some t.nKeyFrames
        ∧ (CreateNewKeyFrame c t).mpLastKeyFrame = some t.nKeyFrames
        ∧ (CreateNewKeyFrame c t).mnLastKeyFrameId = t.mCurrentFrame.mnId
        ∧ (CreateNewKeyFrame c t).mCurrentFrame.mnId = t.mCurrentFrame.mnId) := by
  constructor
  · intro h
    simp [CreateNewKeyFrame, h]
  · intro h
    simp only [CreateNewKeyFrame, h, Bool.not_true, Bool.false_eq_true, if_false]
    split_ifs
    · simp only [setLastKeyFrame, Tracking.call, calls_createClosePoints,
        nKeyFrames_createClosePoints, frameId_createClosePoints, frameRef_createClosePoints,
        refKF_createClosePoints]
      simp [newKeyFrame]
    · simp [setLastKeyFrame, Tracking.call, newKeyFrame]

theorem CreateNewKeyFrame_effects_witness :
    refusingCollaborators.SetNotStop sampleReady true = false
    ∧ CreateNewKeyFrame refusingCollaborators sampleReady
        = sampleReady.call (Call.SetNotStop true)
    ∧ (sampleCollaborators 25).SetNotStop sampleReady true = true
    ∧ (CreateNewKeyFrame (sampleCollaborators 25) sampleReady).calls = sampleReady.calls
        ++ [Call.SetNotStop true, Call.InsertKeyFrame sampleReady.nKeyFrames,
          Call.SetNotStop false] :=
  ⟨rfl, (CreateNewKeyFrame_effects refusingCollaborators sampleReady).1 rfl, rfl,
    ((CreateNewKeyFrame_effects (sampleCollaborators 25) sampleReady).2 rfl).1⟩

/-- C11: `Relocalization` scans the key frames of the map from the newest (the
last of `GetAllKeyFrames`) to the oldest.  It returns true if and only if some
key frame passes the three checks in order when the scan reaches it (image
alignment in reloc mode succeeds, projection search with radius `threshold_`
finds >= 20 matches, pose optimization yields >= 10 inliers) after every newer
key frame failed one; it stops at that key frame and sets `mnLastRelocFrameId`
to the id of the current frame.  When it returns false every key frame was
tried and `mnLastRelocFrameId` is unchanged; with no key frame in the map it
returns false and changes nothing. -/
theorem Relocalization_newest_first (c : Collaborators) (t : Tracking) :
    ((Relocalization c t).1 = true ↔
      ∃ pre kf post, t.mpMap.GetAllKeyFrames.reverse = pre ++ kf :: post
        ∧ allRejected c t pre = true
        ∧ passesRelocalization c (pre.foldl (relocalizationRejected c) t) kf = true)
    ∧ (∀ pre kf post, t.mpMap.GetAllKeyFrames.reverse = pre ++ kf :: post →
        allRejected c t pre = true →
        passesRelocalization c (pre.foldl (relocalizationRejected c) t) kf = true →
        Relocalization c t = (true, setLastReloc (poseOptimized c
            (relocalizationMatched c (pre.foldl (relocalizationRejected c) t) kf)))
          ∧ (Relocalization c t).2.mnLastRelocFrameId = t.mCurrentFrame.mnId)
    ∧ ((Relocalization c t).1 = false →
        allRejected c t t.mpMap.GetAllKeyFrames.reverse = true
          ∧ (Relocalization c t).2.mnLastRelocFrameId = t.mnLastRelocFrameId)
    ∧ (t.mpMap.GetAllKeyFrames = [] → Relocalization c t = (false, t)) := by
  have hpass : ∀ pre kf post, t.mpMap.GetAllKeyFrames.reverse = pre ++ kf :: post →
      allRejected c t pre = true →
      passesRelocalization c (pre.foldl (relocalizationRejected c) t) kf = true →
      Relocalization c t = (true, setLastReloc (poseOptimized c
          (relocalizationMatched c (pre.foldl (relocalizationRejected c) t) kf))) := by
    intro pre kf post e h1 h2
    simp only [Relocalization]
    rw [e]
    exact relocalizationScan_passed c pre kf post t h1 h2
  refine ⟨⟨?_, ?_⟩, ?_, ?_, ?_⟩
  · intro h
    rcases allRejected_or_passes c t.mpMap.GetAllKeyFrames.reverse t with hr | hr
    · have := relocalizationScan_rejected c _ t hr
      simp only [Relocalization, this] at h
      exact absurd h (by simp)
    · exact hr
  · rintro ⟨pre, kf, post, e, h1, h2⟩
    rw [hpass pre kf post e h1 h2]
  · intro pre kf post e h1 h2
    refine ⟨hpass pre kf post e h1 h2, ?_⟩
    rw [hpass pre kf post e h1 h2]
    exact (relocalizationRejected_fold_ids c pre t).2
  · intro h
    rcases allRejected_or_passes c t.mpMap.GetAllKeyFrames.reverse t with hr | ⟨pre, kf, post, e, h1, h2⟩
    · refine ⟨hr, ?_⟩
      have := relocalizationScan_rejected c _ t hr
      simp only [Relocalization, this]
      exact (relocalizationRejected_fold_ids c _ t).1
    · rw [hpass pre kf post e h1 h2] at h
      exact absurd h (by simp)
  · intro h
    simp only [Relocalization, h, List.reverse_nil, relocalizationScan]

theorem Relocalization_newest_first_witness :
    sampleLost.mpMap.GetAllKeyFrames.reverse = [1] ++ 0 :: []
    ∧ allRejected relocCollaborators sampleLost [1] = true
    ∧ passesRelocalization relocCollaborators
        ([1].foldl (relocalizationRejected relocCollaborators) sampleLost) 0 = true
    ∧ (Relocalization relocCollaborators sampleLost).1 = true
    ∧ (Relocalization relocCollaborators sampleLost).2.mnLastRelocFrameId = 10 :=
  ⟨rfl, by decide, by decide,
    (Relocalization_newest_first relocCollaborators sampleLost).1.mpr
      ⟨[1], 0, [], rfl, by decide, by decide⟩,
    ((Relocalization_newest_first relocCollaborators sampleLost).2.1 [1] 0 [] rfl
      (by decide) (by decide)).2⟩

/-- C12, as stated, fails: a tick that starts in `LOST` and ends in `LOST`.
The relocalisation fills the 20 slots of the current frame and the pose
optimization flags them all outlier, with no inlier; the tick ends with slot 0
(and every other slot) both non-empty and flagged outlier. -/
theorem Track_lost_keeps_outliers :
    sampleOutliers.mState = eTrackingState.LOST
    ∧ (Track outlierCollaborators sampleOutliers).map
        (fun t' => (t'.mState, t'.mCurrentFrame.N, t'.mCurrentFrame.mvpMapPoints 0,
          t'.mCurrentFrame.mvbOutlier 0, t'.mCurrentFrame.isOutlierSlot 0))
      = some (eTrackingState.LOST, 20, some 0, true, true) := by
  decide

/-- C12, amended: a tick of `Track` that starts in `OK` or `LOST` is defined
whenever the members it dereferences are present (`Tracking.ready`), and after
every such tick that is defined and ends in `OK`, every non-empty map-point
slot of the current frame is an inlier slot: no slot is both non-empty and
flagged outlier. -/
theorem Track_ok_slots_are_inliers (c : Collaborators) (t : Tracking)
    (hs : t.mState = eTrackingState.OK ∨ t.mState = eTrackingState.LOST) :
    (t.ready → ∃ t', Track c t = some t')
    ∧ ∀ t', Track c t = some t' → t'.mState = eTrackingState.OK →
        ∀ i, i < t'.mCurrentFrame.N →
          ¬((t'.mCurrentFrame.mvpMapPoints i).isSome = true
            ∧ t'.mCurrentFrame.mvbOutlier i = true) := by
  refine ⟨fun hr => ?_, fun t' hT hok i hi => ?_⟩
  · obtain ⟨-, -, t', -, -, hT, -⟩ := Track_defined c t hs hr
    exact ⟨t', hT⟩
  obtain ⟨r0, t2, -, ht2, hreset, hstore⟩ := Track_some c t t' hs hT
  have key : t'.mState = t2.mState ∧ t'.mCurrentFrame.N = t2.mCurrentFrame.N
      ∧ t'.mCurrentFrame.isOutlierSlot i = t2.mCurrentFrame.isOutlierSlot i := by
    by_cases hx : t2.mState = eTrackingState.LOST ∧ t2.mpMap.KeyFramesInMap ≤ 5
    · rw [hreset hx]; exact ⟨rfl, rfl, rfl⟩
    · obtain ⟨e1, -, -, e4, -⟩ := storeFramePose_core c _ _ (hstore hx)
      rw [e1, e4]
      exact ⟨rfl, rfl, rfl⟩
  have h := trackFrame_clean c _ t2 ht2 (key.1 ▸ hok) i (key.2.1 ▸ hi)
  rw [← key.2.2] at h
  simpa [Frame.isOutlierSlot] using h

set_option maxRecDepth 1000000 in
theorem Track_ok_slots_are_inliers_witness :
    (sampleTracked.mState = eTrackingState.OK ∨ sampleTracked.mState = eTrackingState.LOST)
    ∧ sampleTracked.ready
    ∧ (Track trackedCollaborators sampleTracked).map
        (fun t' => (t'.mState, t'.mCurrentFrame.N, t'.mCurrentFrame.mvpMapPoints 0,
          t'.mCurrentFrame.mvbOutlier 0))
        = some (eTrackingState.OK, 60, none, true)
    ∧ (Track trackedCollaborators sampleTracked).map
        (fun t' => (t'.mCurrentFrame.mvpMapPoints 1, t'.mCurrentFrame.mvbOutlier 1))
        = some (some 1, false)
    ∧ ((sampleTracked.ready → ∃ t', Track trackedCollaborators sampleTracked = some t')
      ∧ ∀ t', Track trackedCollaborators sampleTracked = some t' →
        t'.mState = eTrackingState.OK → ∀ i, i < t'.mCurrentFrame.N →
          ¬((t'.mCurrentFrame.mvpMapPoints i).isSome = true
            ∧ t'.mCurrentFrame.mvbOutlier i = true)) :=
  ⟨Or.inl rfl, by decide, by decide, by decide,
    Track_ok_slots_are_inliers trackedCollaborators sampleTracked (Or.inl rfl)⟩

/-- C13: after `UpdateLocalPoints`, run with no map point already tagged
`mnTrackReferenceForFrame` = id of the current frame, `mvpLocalMapPoints` holds
exactly the map points that are not bad and occupy a slot of some key frame of
`mvpLocalKeyFrames`, each exactly once; so every member is referenced by at
least one local key frame and none is bad.  The local key frames, the key
frames and the bad flags are what they were. -/
theorem UpdateLocalPoints_exact (t : Tracking)
    (h : ∀ p, (t.mapPoints p).mnTrackReferenceForFrame ≠ t.mCurrentFrame.mnId) :
    (∀ p, p ∈ (UpdateLocalPoints t).mvpLocalMapPoints ↔
        ((t.mapPoints p).mbBad = false
          ∧ ∃ k, k ∈ t.mvpLocalKeyFrames
            ∧ ∃ i, i < (t.keyFrames k).N ∧ (t.keyFrames k).mvpMapPoints i = some p))
    ∧ (UpdateLocalPoints t).mvpLocalMapPoints.Nodup
    ∧ (∀ p, ((UpdateLocalPoints t).mapPoints p).mbBad = (t.mapPoints p).mbBad)
    ∧ (UpdateLocalPoints t).mvpLocalKeyFrames = t.mvpLocalKeyFrames
    ∧ (UpdateLocalPoints t).keyFrames = t.keyFrames := by
  obtain ⟨a1, a2, a3⟩ := localPoints_fold t.mCurrentFrame.mnId (fun p => (t.mapPoints p).mbBad)
    t.keyFrames t.mvpLocalKeyFrames ([], t.mapPoints) (fun _ => rfl)
    (fun p => by simp [h p]) List.nodup_nil
  refine ⟨fun p => ?_, a2, a1, rfl, rfl⟩
  have := a3 p
  simp only [List.not_mem_nil, false_or] at this
  exact this

theorem UpdateLocalPoints_exact_witness :
    (∀ p, (sampleLocal.mapPoints p).mnTrackReferenceForFrame ≠ sampleLocal.mCurrentFrame.mnId)
    ∧ (UpdateLocalPoints sampleLocal).mvpLocalMapPoints = [0, 1, 2]
    ∧ (UpdateLocalPoints sampleLocal).mvpLocalMapPoints.Nodup :=
  ⟨fun _ => (by decide : (0 : Nat) ≠ 10), by decide,
    (UpdateLocalPoints_exact sampleLocal (fun _ => (by decide : (0 : Nat) ≠ 10))).2.1⟩

/-- C14: `CheckReplacedInLastFrame` rewrites the slots of the previous frame by
exactly one hop: for every slot `i`, if it held a map point `m` whose
replaced-by forwarder is a map point `m'`, the slot afterwards holds `m'`
(whether or not `m'` was itself replaced); every empty slot and every slot
whose map point has no replacement is unchanged; the number of slots is
unchanged, and nothing else in the tracker is modified. -/
theorem CheckReplacedInLastFrame_one_hop (t : Tracking) :
    (∀ i m m', i < t.mLastFrame.N → t.mLastFrame.mvpMapPoints i = some m →
        (t.mapPoints m).mpReplaced = some m' →
        (CheckReplacedInLastFrame t).mLastFrame.mvpMapPoints i = some m')
    ∧ (∀ i, t.mLastFrame.mvpMapPoints i = none →
        (CheckReplacedInLastFrame t).mLastFrame.mvpMapPoints i = none)
    ∧ (∀ i m, t.mLastFrame.mvpMapPoints i = some m → (t.mapPoints m).mpReplaced = none →
        (CheckReplacedInLastFrame t).mLastFrame.mvpMapPoints i = some m)
    ∧ (CheckReplacedInLastFrame t).mLastFrame.N = t.mLastFrame.N
    ∧ CheckReplacedInLastFrame t
        = { t with mLastFrame := { t.mLastFrame with
              mvpMapPoints := (CheckReplacedInLastFrame t).mLastFrame.mvpMapPoints } } := by
  have key := checkReplacedStep_fold t.mapPoints (List.range t.mLastFrame.N)
    (List.nodup_range _) t.mLastFrame.mvpMapPoints
  refine ⟨?_, ?_, ?_, rfl, rfl⟩
  · intro i m m' hi hm hr
    show ((List.range t.mLastFrame.N).foldl (checkReplacedStep t.mapPoints)
      t.mLastFrame.mvpMapPoints) i = some m'
    rw [key i, if_pos (List.mem_range.mpr hi), hm]
    simp only [hr]
  · intro i hm
    show ((List.range t.mLastFrame.N).foldl (checkReplacedStep t.mapPoints)
      t.mLastFrame.mvpMapPoints) i = none
    rw [key i, hm]
    simp
  · intro i m hm hr
    show ((List.range t.mLastFrame.N).foldl (checkReplacedStep t.mapPoints)
      t.mLastFrame.mvpMapPoints) i = some m
    rw [key i, hm]
    simp [hr]

theorem CheckReplacedInLastFrame_one_hop_witness :
    (CheckReplacedInLastFrame sampleReplaced).mLastFrame.mvpMapPoints 0 = some 6
    ∧ (CheckReplacedInLastFrame sampleReplaced).mLastFrame.mvpMapPoints 1 = none
    ∧ (CheckReplacedInLastFrame sampleReplaced).mLastFrame.mvpMapPoints 2 = some 8 :=
  ⟨(CheckReplacedInLastFrame_one_hop sampleReplaced).1 0 5 6 (by decide) rfl rfl,
    (CheckReplacedInLastFrame_one_hop sampleReplaced).2.1 1 rfl,
    (CheckReplacedInLastFrame_one_hop sampleReplaced).2.2.1 2 8 rfl rfl⟩

set_option maxRecDepth 100000 in
/-- C15, as stated, fails: the only map point of the current frame is observed
by 81 key frames; all of them are voted and seeded, and after
`UpdateLocalKeyFrames` the local key frame list holds 81 key frames. -/
theorem UpdateLocalKeyFrames_holds_81 :
    (UpdateLocalKeyFrames sampleCrowded).mvpLocalKeyFrames.length = 81 := by
  decide

/-- C15, amended: after a call of `UpdateLocalKeyFrames` in which some key
frame was voted, the local key frame list holds at most max(s, 83) key frames,
where s is the number of seeded key frames (the voted key frames that are not
bad, at most one per entry of `keyframeCounter`): a round of the expansion
starts only while the list holds at most 80 key frames, and appends at most 3.
When no key frame is voted the list is left as it was. -/
theorem UpdateLocalKeyFrames_size (t : Tracking) :
    (keyframeVotes t = [] →
      (UpdateLocalKeyFrames t).mvpLocalKeyFrames = t.mvpLocalKeyFrames)
    ∧ (keyframeVotes t ≠ [] →
        (UpdateLocalKeyFrames t).mvpLocalKeyFrames.length ≤ max (seededKeyFrames t).length 83
        ∧ (seededKeyFrames t).length ≤ (keyframeVotes t).length) := by
  refine ⟨UpdateLocalKeyFrames_unvoted t, fun h => ⟨?_, ?_⟩⟩
  · rw [UpdateLocalKeyFrames_voted t h]
    exact expandLocalKeyFrames_length _ _ _
  · have := seedStep_fold_length t.mCurrentFrame.mnId (keyframeVotes t)
      (0, none, [], t.keyFrames)
    simpa [seededKeyFrames] using this

theorem UpdateLocalKeyFrames_size_witness :
    keyframeVotes sampleParents ≠ []
    ∧ (UpdateLocalKeyFrames sampleParents).mvpLocalKeyFrames.length
        ≤ max (seededKeyFrames sampleParents).length 83
    ∧ (seededKeyFrames sampleParents).length ≤ (keyframeVotes sampleParents).length :=
  ⟨by decide, (UpdateLocalKeyFrames_size sampleParents).2 (by decide)⟩

/-- C16, the code at the failing input: the key frames 0 and 1 are seeded, the
parent of key frame 0 is key frame 2 and the parent of key frame 1 is key frame
3.  The expansion appends key frame 2, the parent of the first seed, and ends
there: key frame 1 is not visited, and its parent, key frame 3, is not in the
local key frame list, which holds 3 key frames. -/
theorem UpdateLocalKeyFrames_stops_at_parent :
    seededKeyFrames sampleParents = [0, 1]
    ∧ (sampleParents.keyFrames 1).mpParent = some 3
    ∧ (UpdateLocalKeyFrames sampleParents).mvpLocalKeyFrames = [0, 1, 2]
    ∧ 3 ∉ (UpdateLocalKeyFrames sampleParents).mvpLocalKeyFrames := by
  decide

/-- C17, the code at the failing input: in `TrackReferenceKeyFrame` the first
projection search, against the reference key frame with radius `threshold_` =
8, finds 5 matches.  The same search against the reference key frame, with the
slots cleared and the radius doubled, would find 25 matches; the retry the code
makes is the search against the last frame, which finds none, and
`TrackReferenceKeyFrame` returns false. -/
theorem TrackReferenceKeyFrame_retries_last_frame :
    (referenceAlignment keyFrameOnlyCollaborators sampleWiden).1 = true
    ∧ (referenceSearch keyFrameOnlyCollaborators sampleWiden).1 = 5
    ∧ (keyFrameOnlyCollaborators.SearchByProjectionKF
        ((referenceAligned keyFrameOnlyCollaborators sampleWiden).setSlots
          (referenceSearch keyFrameOnlyCollaborators sampleWiden).2).fillNull
        70 sampleWiden.mpReferenceKF (2 * sampleWiden.threshold_)
        (decide (sampleWiden.mSensor = eSensor.MONOCULAR))).1 = 25
    ∧ (widenedSearch keyFrameOnlyCollaborators 70
        ((referenceAligned keyFrameOnlyCollaborators sampleWiden).setSlots
          (referenceSearch keyFrameOnlyCollaborators sampleWiden).2)).1 = 0
    ∧ (TrackReferenceKeyFrame keyFrameOnlyCollaborators sampleWiden).1 = false
    ∧ (∀ i,
        (TrackReferenceKeyFrame keyFrameOnlyCollaborators sampleWiden).2.mCurrentFrame.mvpMapPoints
          i = none) := by
  refine ⟨by decide, by decide, by decide, by decide, by decide, fun i => ?_⟩
  rfl

set_option maxRecDepth 1000000 in
/-- C18, the code at the failing input: 102 key points of positive depth, 101
of them close (depth 10 <= `mThDepth` = 40) and one beyond (key point 101 at
depth 50), all with empty slots.  `CreateNewKeyFrame` processes all 102 key
points, not the first min(102, max(101, 101)) = 101: the test that ends the
walk is made after a key point is processed, so a map point (the 102nd) is
created for key point 101, beyond `mThDepth`. -/
theorem CreateNewKeyFrame_processes_far_point :
    sampleDense.mCurrentFrame.positiveDepths = 102
    ∧ sampleDense.mCurrentFrame.closeDepths sampleDense.mThDepth = 101
    ∧ sampleDense.mCurrentFrame.mvDepth 101 > sampleDense.mThDepth
    ∧ sampleDense.mCurrentFrame.mvpMapPoints 101 = none
    ∧ (CreateNewKeyFrame (sampleCollaborators 25) sampleDense).mCurrentFrame.mvpMapPoints 101
        = some 101
    ∧ (CreateNewKeyFrame (sampleCollaborators 25) sampleDense).nMapPoints
        = sampleDense.nMapPoints + 102 := by
  decide

/-- C19: in every state reached from construction through calls of `Track` and
`Reset` (none with undefined behaviour; a matrix scaled or adjusted from a
non-empty one is non-empty), the four lists of the trajectory log have the same
length, and if the state is `OK` or `LOST` the log is non-empty.  So in the
next tick, when the state is `OK` or `LOST`: the list `UpdateLastFrame` reads
with `back()` is non-empty (it fails only on a null `mLastFrame.mpReferenceKF`),
and the four lists are non-empty where the branch of `Track` that duplicates
the last entry reads them with `back()` (the block fails only on a null reference key frame
of the current frame).  When the state is neither, the tick of initialization
is defined: the branch that duplicates the last entry is not taken on the empty
log. -/
theorem trajectory_log_never_empty (c : Collaborators) (sensor : eSensor) (fps : Nat)
    (th : Int) (es : List Event) (t : Tracking)
    (h1 : ∀ m z, (c.scaleTranslation (some m) z).isSome = true)
    (h2 : ∀ s k, ((s.keyFrames k).Tcw).isSome = true →
      ((c.GlobalBundleAdjustemnt s).1 k).isSome = true)
    (h : runEvents c (Tracking.construct sensor fps th) es = some t) :
    (t.mlpReferences.length = t.mlRelativeFramePoses.length
      ∧ t.mlFrameTimes.length = t.mlRelativeFramePoses.length
      ∧ t.mlbLost.length = t.mlRelativeFramePoses.length)
    ∧ (t.mState = eTrackingState.OK ∨ t.mState = eTrackingState.LOST →
        t.mlRelativeFramePoses ≠ [])
    ∧ (∀ a : Arrival,
        (t.mState = eTrackingState.OK ∨ t.mState = eTrackingState.LOST →
          (CheckReplacedInLastFrame (trackEnter (t.arrive a))).mlRelativeFramePoses ≠ []
          ∧ (UpdateLastFrame c (CheckReplacedInLastFrame (trackEnter (t.arrive a))) = none →
              (t.arrive a).mLastFrame.mpReferenceKF = none)
          ∧ ∀ t2, trackFrame c (trackEnter (t.arrive a)) = some t2 →
              (commitLastFrame t2).mlRelativeFramePoses ≠ []
              ∧ (commitLastFrame t2).mlpReferences ≠ []
              ∧ (commitLastFrame t2).mlFrameTimes ≠ []
              ∧ (commitLastFrame t2).mlbLost ≠ []
              ∧ (storeFramePose c (commitLastFrame t2) = none →
                  (commitLastFrame t2).mCurrentFrame.mpReferenceKF = none))
        ∧ (¬(t.mState = eTrackingState.OK ∨ t.mState = eTrackingState.LOST) →
            ∃ t', Track c (t.arrive a) = some t')) := by
  obtain ⟨⟨l2, l3, l4⟩, -, hn⟩ :=
    logInvariant_runEvents c es _ t (logInvariant_construct sensor fps th) h
  refine ⟨⟨l2, l3, l4⟩, hn, fun a => ⟨fun hs => ?_, fun hs => ?_⟩⟩
  · have hp : t.mlRelativeFramePoses ≠ [] := hn hs
    have hr : t.mlpReferences ≠ [] := fun h0 => hp (List.length_eq_zero.mp (by rw [← l2, h0]; rfl))
    have hf : t.mlFrameTimes ≠ [] := fun h0 => hp (List.length_eq_zero.mp (by rw [← l3, h0]; rfl))
    have hb : t.mlbLost ≠ [] := fun h0 => hp (List.length_eq_zero.mp (by rw [← l4, h0]; rfl))
    refine ⟨hp, fun hu => UpdateLastFrame_none c
      (CheckReplacedInLastFrame (trackEnter (t.arrive a))) hp hu, fun t2 ht2 => ?_⟩
    obtain ⟨e1, e2, e3, e4⟩ := trackFrame_log c _ t2 ht2
    have q1 : (commitLastFrame t2).mlRelativeFramePoses ≠ [] := by rw [e1]; exact hp
    have q2 : (commitLastFrame t2).mlpReferences ≠ [] := by rw [e2]; exact hr
    have q3 : (commitLastFrame t2).mlFrameTimes ≠ [] := by rw [e3]; exact hf
    have q4 : (commitLastFrame t2).mlbLost ≠ [] := by rw [e4]; exact hb
    exact ⟨q1, q2, q3, q4, fun hnone => (storeFramePose_none c _ q1 q2 q3 hnone).1⟩
  · exact Track_uninitialized_defined c (t.arrive a) h1 h2 hs

theorem trajectory_log_never_empty_witness :
    (∀ m z, (monoCollaborators.scaleTranslation (some m) z).isSome = true)
    ∧ (∀ s k, ((s.keyFrames k).Tcw).isSome = true →
        ((monoCollaborators.GlobalBundleAdjustemnt s).1 k).isSome = true)
    ∧ (runEvents monoCollaborators (Tracking.construct eSensor.MONOCULAR 30 40)
        sampleEvents).isSome = true
    ∧ ∀ t, runEvents monoCollaborators (Tracking.construct eSensor.MONOCULAR 30 40)
          sampleEvents = some t →
        (t.mlpReferences.length = t.mlRelativeFramePoses.length
          ∧ t.mlFrameTimes.length = t.mlRelativeFramePoses.length
          ∧ t.mlbLost.length = t.mlRelativeFramePoses.length)
        ∧ (t.mState = eTrackingState.OK ∨ t.mState = eTrackingState.LOST →
            t.mlRelativeFramePoses ≠ []) :=
  ⟨fun _ _ => rfl, fun _ _ h => h, by decide, fun t ht =>
    ⟨(trajectory_log_never_empty monoCollaborators eSensor.MONOCULAR 30 40 sampleEvents t
        (fun _ _ => rfl) (fun _ _ h => h) ht).1,
      (trajectory_log_never_empty monoCollaborators eSensor.MONOCULAR 30 40 sampleEvents t
        (fun _ _ => rfl) (fun _ _ h => h) ht).2.1⟩⟩

end ORB_SLAM2
